import Mathlib

/-!
StreetViewScraper: a shallow embedding of `streetview_downloader.cpp`.

The C++ class `StreetViewDownloader` is embedded function by function.  Machine
`int`s are modelled by `Int`; the values that occur (generation ids, grid
coordinates, retry counters, image sizes) are far from the 32-bit range.

External collaborators are explicit parameters:

* the tile service (`curl_easy_perform` on a tile URL) is a function from the
  requested URL to a `Response`;
* OpenCV's decoder, grey-level mean and label drawing are the fields of `OpenCV`;
* `curl_easy_init` succeeding or not is a `Bool`;
* the random jitter drawn before a retry is a function of the attempt index.
-/

namespace StreetView

/-! ## Data model -/

/-- Configuration of one generation (`struct GenerationConfig`). -/
structure GenerationConfig where
  zoom : Int
  max_x : Int
  max_y : Int
  crop : Bool
  deriving DecidableEq, Repr

/-- One pixel of a `CV_8UC3` image, in OpenCV channel order (B, G, R). -/
abbrev Pixel := Nat × Nat × Nat

/-- The sentinel colour `cv::Scalar(255, 0, 255)` of the stitching canvas. -/
def magenta : Pixel := (255, 0, 255)

/-- A `cv::Mat` of type `CV_8UC3`: `rows`, `cols` and the pixel at (row, col).
The pixel function is only meaningful inside the bounds. -/
structure Mat where
  rows : Nat
  cols : Nat
  px : Nat → Nat → Pixel

/-- The default-constructed `cv::Mat()`. -/
def Mat.none : Mat := ⟨0, 0, fun _ _ => (0, 0, 0)⟩

/-- The test `cv::Mat::empty()`: no data, or a zero number of elements. -/
def Mat.empty (m : Mat) : Bool := m.rows * m.cols == 0

/-- Tile information (`struct Tile`). -/
structure Tile where
  x : Int
  y : Int
  image : Mat
  valid : Bool

/-- The constructor `Tile(int x_, int y_)`: an invalid tile with a default image. -/
def Tile.mk2 (x y : Int) : Tile := ⟨x, y, Mat.none, false⟩

/-- The tile URL
`https://streetviewpixels-pa.googleapis.com/v1/tile?cb_client=apiv3&panoid=P&output=tile&zoom=Z&x=X&y=Y`,
represented by the four values that vary. -/
structure TileUrl where
  panoid : String
  zoom : Int
  x : Int
  y : Int
  deriving DecidableEq, Repr

/-- What one `curl_easy_perform` leaves behind: whether it returned `CURLE_OK`,
the HTTP status (`CURLINFO_RESPONSE_CODE`) and the body collected by
`WriteCallback`. -/
structure Response where
  res_ok : Bool
  response_code : Int
  response_data : List Nat

/-- The two OpenCV computations whose results the program inspects:
`cv::imdecode(buffer, cv::IMREAD_COLOR)` (an empty `Mat` when the bytes are not an
image), the first channel of `cv::mean` of the `COLOR_BGR2GRAY` conversion, and
the pixels of a canvas after the debug border and label of tile (x, y) at a zoom
level have been drawn on it in place at a rectangle (x, y, width, height). -/
structure OpenCV where
  imdecode : List Nat → Mat
  gray_mean : Mat → ℚ
  draw_label : Mat → Int × Int × Int × Int → Int → Int → Int → Nat → Nat → Pixel

/-! ## Tile validity (`is_valid_tile`) -/

/-- Embedding of `is_valid_tile`: not empty, at least 10x10, and grey mean above the
threshold `0.1` (compared over the rationals). -/
def is_valid_tile (cv : OpenCV) (img : Mat) : Bool :=
  if img.empty || decide (img.cols < 10) || decide (img.rows < 10) then
    false
  else
    decide (cv.gray_mean img > 1 / 10)

/-! ## Generation configuration (`get_generation_config`) -/

/-- The static table `configs` of `get_generation_config`. -/
def configs : List (Int × GenerationConfig) :=
  [ (1, ⟨3, 8, 4, true⟩),
    (2, ⟨4, 13, 6, true⟩),
    (3, ⟨4, 13, 7, true⟩),
    (4, ⟨4, 16, 8, false⟩) ]

/-- Embedding of `get_generation_config`: `configs.find(generation)`, else `configs.at(4)`.
The last branch stands for the exception `at` would throw; key 4 is in the table. -/
def get_generation_config (generation : Int) : GenerationConfig :=
  match configs.lookup generation with
  | some c => c
  | none =>
    match configs.lookup 4 with
    | some c => c
    | none => ⟨0, 0, 0, false⟩

/-! ## Generation detection (`detect_generation`) -/

/-- The local `struct TestPattern` of `detect_generation`. -/
structure TestPattern where
  gen : Int
  zoom : Int
  tests : List (Int × Int)

/-- The vector `tests` of `detect_generation`. -/
def test_patterns : List TestPattern :=
  [ ⟨4, 4, [(15, 7), (14, 6)]⟩,
    ⟨3, 4, [(12, 6), (11, 5)]⟩,
    ⟨2, 4, [(12, 5), (10, 4)]⟩,
    ⟨1, 3, [(7, 3), (6, 2)]⟩ ]

/-- The `switch (gen)` that picks the description; no `default` case. -/
def gen_description (gen : Int) : String :=
  if gen = 4 then "Generation 4 (Zoom 4, 16x8)"
  else if gen = 3 then "Generation 3 (Zoom 4, 13x7)"
  else if gen = 2 then "Generation 2 (Zoom 4, 13x6)"
  else if gen = 1 then "Generation 1 (Zoom 3, 8x4)"
  else ""

/-- The nested conditions under which `detect_generation` takes a probed tile as
valid (the body of its inner loop, and again of each fallback probe). -/
def probe_accepts (cv : OpenCV) (r : Response) : Bool :=
  if r.res_ok then
    if r.response_code == 200 && !r.response_data.isEmpty then
      let img := cv.imdecode r.response_data
      if !img.empty && is_valid_tile cv img then true else false
    else false
  else false

/-- Inner loop of `detect_generation`: the test coordinates of one pattern, in
order, returning at the first valid tile. -/
def probe_coords (cv : OpenCV) (server : TileUrl → Response) (panoid : String)
    (gen zoom : Int) : List (Int × Int) → Option (Int × String)
  | [] => none
  | (x, y) :: rest =>
    if probe_accepts cv (server ⟨panoid, zoom, x, y⟩) then
      some (gen, gen_description gen)
    else
      probe_coords cv server panoid gen zoom rest

/-- Outer loop of `detect_generation` over the test patterns. -/
def probe_patterns (cv : OpenCV) (server : TileUrl → Response) (panoid : String) :
    List TestPattern → Option (Int × String)
  | [] => none
  | t :: rest =>
    match probe_coords cv server panoid t.gen t.zoom t.tests with
    | some r => some r
    | none => probe_patterns cv server panoid rest

/-- Embedding of `detect_generation`; `curl_ok` says whether `init_curl` returned a handle. -/
def detect_generation (cv : OpenCV) (curl_ok : Bool) (server : TileUrl → Response)
    (panoid : String) : Int × String :=
  if !curl_ok then
    (0, "Unknown Generation")
  else
    match probe_patterns cv server panoid test_patterns with
    | some r => r
    | none =>
      if probe_accepts cv (server ⟨panoid, 4, 8, 4⟩) then
        (4, "Generation 4 (Zoom 4, 16x8) - Default")
      else if probe_accepts cv (server ⟨panoid, 3, 4, 2⟩) then
        (1, "Generation 1 (Zoom 3, 8x4) - Default")
      else
        (0, "Unknown Generation")

/-- The validity oracle induced by a server: the probe of tile (x, y) at `zoom`
is taken as valid. -/
def tile_valid (cv : OpenCV) (server : TileUrl → Response) (panoid : String)
    (zoom x y : Int) : Bool :=
  probe_accepts cv (server ⟨panoid, zoom, x, y⟩)

/-! ## Sample collaborators, used to evaluate the model on concrete inputs -/

/-- A uniformly grey 512x512 tile. -/
def grey_tile : Mat := ⟨512, 512, fun _ _ => (128, 128, 128)⟩

/-- A decoder that turns every non-empty body into `grey_tile`, a grey mean of
128, and label drawing that leaves the pixels as they are. -/
def sample_cv : OpenCV :=
  ⟨fun bytes => if bytes.isEmpty then Mat.none else grey_tile, fun _ => 128,
    fun canvas _ _ _ _ => canvas.px⟩

/-- A server that answers 200 with a one-byte body exactly on the URLs that
satisfy `good`, and 404 with an empty body elsewhere. -/
def server_of (good : TileUrl → Bool) : TileUrl → Response :=
  fun u => if good u then ⟨true, 200, [255]⟩ else ⟨true, 404, []⟩

/-- Only the two generation-2 probe tiles exist. -/
def gen2_only : TileUrl → Bool :=
  fun u => u.zoom == 4 && ((u.x == 12 && u.y == 5) || (u.x == 10 && u.y == 4))

/-- Only the zoom-3 central tile exists. -/
def zoom3_center_only : TileUrl → Bool :=
  fun u => u.zoom == 3 && u.x == 4 && u.y == 2

/-! ## Generation cache and the first step of `process_panorama` -/

/-- The member `generation_cache` (`unordered_map<string, pair<int, string>>`). -/
abbrev GenerationCache := String → Option (Int × String)

/-- Embedding of `get_cached_generation`: the cached pair, or `{0, ""}` when absent. -/
def get_cached_generation (generation_cache : GenerationCache) (panoid : String) :
    Int × String :=
  match generation_cache panoid with
  | some v => v
  | none => (0, "")

/-- Embedding of `cache_generation`: `generation_cache[panoid] = {generation, description}`. -/
def cache_generation (generation_cache : GenerationCache) (panoid : String)
    (generation : Int) (description : String) : GenerationCache :=
  fun k => if k = panoid then some (generation, description) else generation_cache k

/-- What the tile service looks like when `detect_generation` runs for the n-th
time in the process: whether `init_curl` succeeds, and the server's answers. -/
abbrev World := Nat → Bool × (TileUrl → Response)

/-- The shared state the generation step touches: the cache, and a log of the
scene ids `detect_generation` was called for (most recent first). -/
structure ProbeState where
  generation_cache : GenerationCache
  detect_calls : List String

/-- State of a fresh process. -/
def ProbeState.init : ProbeState := ⟨fun _ => none, []⟩

/-- The generation step of `process_panorama` ("Check generation cache first"):
use the cached pair when its generation is not 0, otherwise call
`detect_generation` and cache what it returns. -/
def process_panorama_generation (cv : OpenCV) (world : World) (panoid : String)
    (st : ProbeState) : (Int × String) × ProbeState :=
  let cached_gen := get_cached_generation st.generation_cache panoid
  if cached_gen.1 ≠ 0 then
    (cached_gen, st)
  else
    let w := world st.detect_calls.length
    let gen_result := detect_generation cv w.1 w.2 panoid
    (gen_result,
      ⟨cache_generation st.generation_cache panoid gen_result.1 gen_result.2,
        panoid :: st.detect_calls⟩)

/-- A sequence of `process_panorama` calls, one after the other, as far as the
generation step is concerned. -/
def run_generation_steps (cv : OpenCV) (world : World) :
    List String → ProbeState → ProbeState
  | [], st => st
  | p :: rest, st =>
    run_generation_steps cv world rest (process_panorama_generation cv world p st).2

/-- A world in which no tile exists at any time. -/
def dead_world : World := fun _ => (true, server_of (fun _ => false))

/-- A world in which only the two generation-2 probe tiles exist. -/
def gen2_world : World := fun _ => (true, server_of gen2_only)

/-! ## Single tile download (`download_tile`) -/

/-- What a `download_tile` task meets for its URL: whether `init_curl` returns a
handle, the response to the n-th request (n = 0, 1, ...), and the jitter drawn
from `dist(random_engine)` before attempt n. -/
structure TileService where
  curl_ok : TileUrl → Bool
  respond : TileUrl → Nat → Response
  jitter : TileUrl → Nat → ℚ

/-- The nested conditions under which one attempt of `download_tile` takes the
response as the tile; the accepted image is returned. -/
def attempt_accepts (cv : OpenCV) (r : Response) : Option Mat :=
  if r.res_ok then
    if r.response_code == 200 && !r.response_data.isEmpty then
      let img := cv.imdecode r.response_data
      if !img.empty && is_valid_tile cv img then some img else none
    else none
  else none

/-- The backoff `std::min(std::pow(2.0, attempt) + dist(random_engine), 10.0)`,
in seconds, over the rationals. -/
def backoff_time (attempt : Nat) (jitter : ℚ) : ℚ :=
  min ((2 : ℚ) ^ attempt + jitter) 10

/-- The observable steps of one `download_tile` call. -/
inductive Event where
  | sleep (seconds : ℚ)
  | request (attempt : Nat)
  deriving DecidableEq

/-- Number of requests (`curl_easy_perform` calls) in a trace. -/
def request_count : List Event → Nat
  | [] => 0
  | Event.request _ :: rest => request_count rest + 1
  | Event.sleep _ :: rest => request_count rest

/-- The retry loop `for (attempt = 0; attempt < retry_count; ++attempt)` of
`download_tile`, entered at `attempt` with `remaining` iterations to go.  Returns
the tile and the trace of sleeps and requests. -/
def download_attempts (cv : OpenCV) (respond : Nat → Response) (jitter : Nat → ℚ)
    (x y : Int) : (remaining attempt : Nat) → Tile × List Event
  | 0, _ => (Tile.mk2 x y, [])
  | remaining + 1, attempt =>
    let pause : List Event :=
      if attempt > 0 then [Event.sleep (backoff_time attempt (jitter attempt))] else []
    match attempt_accepts cv (respond attempt) with
    | some img => (⟨x, y, img, true⟩, pause ++ [Event.request attempt])
    | none =>
      let later := download_attempts cv respond jitter x y remaining (attempt + 1)
      (later.1, pause ++ Event.request attempt :: later.2)

/-- Embedding of `download_tile(x, y, panoid, zoom)` with the member `retry_count`. -/
def download_tile (cv : OpenCV) (svc : TileService) (retry_count : Int)
    (x y : Int) (panoid : String) (zoom : Int) : Tile × List Event :=
  if !svc.curl_ok ⟨panoid, zoom, x, y⟩ then
    (Tile.mk2 x y, [])
  else
    download_attempts cv (svc.respond ⟨panoid, zoom, x, y⟩) (svc.jitter ⟨panoid, zoom, x, y⟩)
      x y retry_count.toNat 0

/-- Outcome of attempt `k` in the per-attempt model of the server. -/
def accepted (cv : OpenCV) (respond : Nat → Response) (k : Nat) : Bool :=
  (attempt_accepts cv (respond k)).isSome

/-- A service with a curl handle, answering 200 with a one-byte body from
request number `first_good` on and failing before, with jitter one half. -/
def flaky_service (first_good : Nat) : TileService :=
  ⟨fun _ => true,
   fun _ n => if first_good ≤ n then ⟨true, 200, [255]⟩ else ⟨false, 0, []⟩,
   fun _ _ => 1 / 2⟩

/-! ## The tile map (`std::map<std::pair<int, int>, cv::Mat>`) -/

/-- The map from grid coordinates to tiles, as its entries in iteration order,
that is in increasing key order. -/
abbrev TileMap := List ((Int × Int) × Mat)

/-- The `operator<` of `std::pair<int, int>`. -/
def key_lt (a b : Int × Int) : Bool :=
  decide (a.1 < b.1) || (!decide (b.1 < a.1) && decide (a.2 < b.2))

/-- The class invariant of `std::map`: keys strictly increasing. -/
def TileMap.WF (m : TileMap) : Prop :=
  m.Pairwise (fun a b => key_lt a.1 b.1 = true)

/-- The assignment `m[k] = img`: insert at the key's place, or overwrite the value of an
equivalent key. -/
def TileMap.assign : TileMap → Int × Int → Mat → TileMap
  | [], k, img => [(k, img)]
  | (k', v) :: rest, k, img =>
    if key_lt k k' then (k, img) :: (k', v) :: rest
    else if key_lt k' k then (k', v) :: TileMap.assign rest k img
    else (k', img) :: rest

/-- The lookup `m.find(k)`: the value stored under `k`, if any. -/
def TileMap.find : TileMap → Int × Int → Option Mat
  | [], _ => none
  | (k', v) :: rest, k => if k' = k then some v else TileMap.find rest k

/-- The keys of the map, in iteration order. -/
def TileMap.keys (m : TileMap) : List (Int × Int) := m.map Prod.fst

/-! ## Downloading a grid (`download_tiles_parallel`), tasks run in submission order -/

/-- The coordinates of the submitted tasks, in submission order:
`for (x = 0; x < max_x; ++x) for (y = 0; y < max_y; ++y)`. -/
def grid_tasks (max_x max_y : Int) : List (Int × Int) :=
  (List.range max_x.toNat).flatMap fun (x : Nat) =>
    (List.range max_y.toNat).map fun (y : Nat) => ((x : Int), (y : Int))

/-- The collection loop `for (auto& future : futures)`: a valid tile is stored
under its own `{tile.x, tile.y}`, and `completed` is incremented either way. -/
def collect_tiles : List Tile → TileMap × Nat → TileMap × Nat
  | [], acc => acc
  | tile :: rest, (result, completed) =>
    collect_tiles rest
      (if tile.valid then result.assign (tile.x, tile.y) tile.image else result, completed + 1)

/-- What `download_tiles_parallel` did: the coordinates of the tasks it
submitted (in order), the final value of `completed`, the returned map, and the
URL of every HTTP request its tasks sent (in task order). -/
structure GridDownload where
  submitted : List (Int × Int)
  completed : Nat
  result : TileMap
  requests : List TileUrl

/-- Embedding of `download_tiles_parallel(panoid, zoom, max_x, max_y)`, each future holding
what its `download_tile` task returns (the tile, with the trace of the call).
The requests of a task go to the URL of the tile it returns.  A negative
`max_x * max_y`, on which `futures.reserve` throws, is outside the model. -/
def download_tiles_parallel (cv : OpenCV) (svc : TileService) (retry_count : Int)
    (panoid : String) (zoom max_x max_y : Int) : GridDownload :=
  let tasks := grid_tasks max_x max_y
  let futures := tasks.map fun c => download_tile cv svc retry_count c.1 c.2 panoid zoom
  let collected := collect_tiles (futures.map Prod.fst) ([], 0)
  ⟨tasks, collected.2, collected.1,
    futures.flatMap fun f =>
      List.replicate (request_count f.2) (TileUrl.mk panoid zoom f.1.x f.1.y)⟩

/-! ## Stitching (`stitch_panorama`, sequential branch) -/

/-- The call `tile.copyTo(panorama(roi))` for the rectangle at (`pos_x`, `pos_y`) of size
`width` x `height`: the pixels of the rectangle become those of the tile.  When
the tile's size differs from the rectangle's, `copyTo` reallocates the temporary
header `destination` and the canvas keeps its pixels. -/
def copy_to_roi (panorama : Mat) (pos_x pos_y width height : Int) (tile : Mat) : Mat :=
  if (tile.cols : Int) = width ∧ (tile.rows : Int) = height then
    { panorama with
      px := fun r c =>
        if pos_y ≤ (r : Int) ∧ (r : Int) < pos_y + height ∧
            pos_x ≤ (c : Int) ∧ (c : Int) < pos_x + width then
          tile.px ((r : Int) - pos_y).toNat ((c : Int) - pos_x).toNat
        else panorama.px r c }
  else panorama

/-- The bounds test of `panorama(text_bg)` for the label box
`cv::Rect(pos_x + 5, pos_y + 5, 120, 45)`: `cv::Mat::operator()` throws
`cv::Exception` unless the rectangle lies inside the matrix. -/
def label_box_inside (panorama : Mat) (pos_x pos_y : Int) : Bool :=
  decide (0 ≤ pos_x + 5) && decide (pos_x + 5 + 120 ≤ (panorama.cols : Int)) &&
    decide (0 ≤ pos_y + 5) && decide (pos_y + 5 + 45 ≤ (panorama.rows : Int))

/-- Whether the body of the loop `for (const auto& tile_pair : tiles)` throws
for this tile: labels are enabled, the rectangle of the tile lies within the
canvas, and the label box does not. -/
def paste_tile_throws (draw_tile_labels : Bool) (tile_width tile_height : Int)
    (panorama : Mat) (tile_pair : (Int × Int) × Mat) : Bool :=
  let x := tile_pair.1.1
  let y := tile_pair.1.2
  let pos_x := x * tile_width
  let pos_y := y * tile_height
  if pos_x ≥ 0 ∧ pos_y ≥ 0 ∧
      pos_x + tile_width ≤ (panorama.cols : Int) ∧
      pos_y + tile_height ≤ (panorama.rows : Int) then
    if draw_tile_labels then !label_box_inside panorama pos_x pos_y else false
  else false

/-- Body of the loop `for (const auto& tile_pair : tiles)`: paste one tile when
its rectangle lies within the canvas, then draw its label when enabled.  The
value is the canvas after the body has run to its end, that is when
`paste_tile_throws` is false; when it is true the body leaves through
`cv::Exception` and there is no such canvas. -/
def paste_tile (cv : OpenCV) (draw_tile_labels : Bool) (zoom_level tile_width tile_height : Int)
    (panorama : Mat) (tile_pair : (Int × Int) × Mat) : Mat :=
  let x := tile_pair.1.1
  let y := tile_pair.1.2
  let pos_x := x * tile_width
  let pos_y := y * tile_height
  if pos_x ≥ 0 ∧ pos_y ≥ 0 ∧
      pos_x + tile_width ≤ (panorama.cols : Int) ∧
      pos_y + tile_height ≤ (panorama.rows : Int) then
    let pasted := copy_to_roi panorama pos_x pos_y tile_width tile_height tile_pair.2
    if draw_tile_labels then
      { pasted with
        px := cv.draw_label pasted (pos_x, pos_y, tile_width, tile_height) x y zoom_level }
    else pasted
  else panorama

/-- Embedding of `stitch_panorama(tiles, max_x, max_y, zoom_level)` with the member
`draw_tile_labels`: the canvas it returns when it returns, that is when
`stitch_panorama_throws` is false.  The canvas has `max_y * tile_height` rows and
`max_x * tile_width` columns; negative sizes, which `cv::Mat` rejects, are
outside the model. -/
def stitch_panorama (cv : OpenCV) (draw_tile_labels : Bool) (tiles : TileMap)
    (max_x max_y zoom_level : Int) : Mat :=
  match tiles with
  | [] => Mat.none
  | (_, sample_tile) :: _ =>
    let tile_width : Int := sample_tile.cols
    let tile_height : Int := sample_tile.rows
    let panorama : Mat :=
      ⟨(max_y * tile_height).toNat, (max_x * tile_width).toNat, fun _ _ => magenta⟩
    tiles.foldl (paste_tile cv draw_tile_labels zoom_level tile_width tile_height) panorama

/-- Whether `stitch_panorama(tiles, max_x, max_y, zoom_level)` leaves through
`cv::Exception` instead of returning: the paste loop meets a tile on which its
body throws.  (The canvas keeps its size during the loop.) -/
def stitch_panorama_throws (draw_tile_labels : Bool) (tiles : TileMap) (max_x max_y : Int) :
    Bool :=
  match tiles with
  | [] => false
  | (_, sample_tile) :: _ =>
    let tile_width : Int := sample_tile.cols
    let tile_height : Int := sample_tile.rows
    let panorama : Mat :=
      ⟨(max_y * tile_height).toNat, (max_x * tile_width).toNat, fun _ _ => magenta⟩
    tiles.any (paste_tile_throws draw_tile_labels tile_width tile_height panorama)

/-- A uniformly grey 10x10 tile, the smallest size `is_valid_tile` accepts. -/
def small_tile : Mat := ⟨10, 10, fun _ _ => (128, 128, 128)⟩

/-! ## Cropping (`crop_panorama`) -/

/-- The sub-matrix `m(cv::Rect(x, y, width, height))`: a view of `height` rows
and `width` columns whose pixel (r, c) is the pixel (r + y, c + x) of `m`. -/
def Mat.roi (m : Mat) (x y width height : Nat) : Mat :=
  ⟨height, width, fun r c => m.px (r + y) (c + x)⟩

/-- Embedding of `crop_panorama(panorama, generation)`. -/
def crop_panorama (panorama : Mat) (generation : Int) : Mat :=
  let width := panorama.cols
  let height := panorama.rows
  if generation = 1 then
    let crop_width := min width 3328
    let crop_height := min height 1664
    panorama.roi 0 0 crop_width crop_height
  else
    let target_height := width / 2
    if height > target_height then
      panorama.roi 0 0 width target_height
    else
      panorama

/-- A uniformly grey canvas of the given size. -/
def grey_canvas (rows cols : Nat) : Mat := ⟨rows, cols, fun _ _ => (128, 128, 128)⟩

/-! ## Directional views (`create_directional_views_with_jitter`) -/

/-- The C function `fmod(a, b)`: `a` minus `b` times the quotient `a / b`
truncated towards zero. -/
def fmod {α : Type} [LinearOrderedField α] [FloorRing α] (a b : α) : α :=
  a - b * ((if 0 ≤ a / b then ⌊a / b⌋ else ⌈a / b⌉ : Int) : α)

/-- Output of `<< std::fixed << std::setprecision(1) << x` for a non-negative
`x`: the value rounded to tenths, with one decimal. -/
def fixed1 (x : ℚ) : String :=
  let tenths := (x * 10 + 1 / 2).floor.toNat
  toString (tenths / 10) ++ "." ++ toString (tenths % 10)

/-- Rounding to the nearest integer, ties to the even one. -/
def round_half_even (q : ℚ) : Int :=
  let f := ⌊q⌋
  let d := q - f
  if d < 1 / 2 then f else if 1 / 2 < d then f + 1 else if f % 2 = 0 then f else f + 1

/-- The result of a `double` operation whose exact value is `q`: the binary64
number nearest to `q`, ties to even (53-bit significand; overflow and
subnormal numbers are outside the model). -/
def round_double (q : ℚ) : ℚ :=
  if q = 0 then 0
  else
    let e := Int.log 2 |q|
    let ulp : ℚ := 2 ^ (e - 52)
    (round_half_even (q / ulp) : ℚ) * ulp

/-- The vector `directions` of `create_directional_views_with_jitter`. -/
def directions : List (ℚ × String) :=
  [ (0, "N"), (45, "NE"), (90, "E"), (135, "SE"),
    (180, "S"), (225, "SW"), (270, "W"), (315, "NW") ]

/-- The two kinds of random draws of `create_directional_views_with_jitter`:
the global rotation (from `global_rotation_dist`) and the vertical FOV jitter
drawn for view `i` (from `fov_jitter_dist`), in degrees; the values of the
`double`s drawn. -/
structure ViewJitter where
  global_rotation : ℚ
  vfov_jitter : Nat → ℚ

/-- One written view: the 1-based index and compass name, the realised azimuth
and vertical FOV in degrees, the file name, and the image passed to
`cv::imwrite`. -/
structure DirectionalView where
  index : Nat
  direction_name : String
  final_direction_deg : ℚ
  final_vfov_deg : ℚ
  filename : String
  image : Mat

/-- Body of the loop `for (int i = 0; i < num_views; ++i)`.  `render` stands for
`equirect_to_rectilinear` at the fixed output size and tilt, as a function of the
panorama and of the azimuth and vertical FOV in degrees.  The additions are
`double` additions, each rounded (`round_double`); `fmod`, `std::max` and
`std::min` of `double`s are exact. -/
def directional_view (render : Mat → ℚ → ℚ → Mat) (jit : ViewJitter)
    (include_gen_in_filename : Bool) (panorama : Mat) (panoid : String) (generation : Int)
    (vfov_deg fov_deg : ℚ) (i : Nat) : DirectionalView :=
  let base_direction_deg := (directions.getD i (0, "")).1
  let direction_name := (directions.getD i (0, "")).2
  let final_direction_deg :=
    fmod (round_double (round_double (base_direction_deg + jit.global_rotation) + 360)) 360
  let final_vfov_deg := max 75 (min 110 (round_double (vfov_deg + jit.vfov_jitter i)))
  let output := render panorama final_direction_deg final_vfov_deg
  let _gen_suffix := if include_gen_in_filename then "_gen" ++ toString generation else ""
  let filename :=
    panoid ++ "_View" ++ toString (i + 1) ++ "_" ++ direction_name ++ "_FOV" ++
      fixed1 fov_deg ++ ".jpg"
  ⟨i + 1, direction_name, final_direction_deg, final_vfov_deg, filename, output⟩

/-- Embedding of `create_directional_views_with_jitter(panorama, panoid, output_dir,
generation, zoom)`: the views written into `output_dir`, in order. -/
def create_directional_views_with_jitter (render : Mat → ℚ → ℚ → Mat) (jit : ViewJitter)
    (include_gen_in_filename : Bool) (panorama : Mat) (panoid : String)
    (generation _zoom : Int) : List DirectionalView :=
  let vfov_deg : ℚ := 90
  let num_views := 8
  let fov_deg : ℚ := 90
  (List.range num_views).map
    (directional_view render jit include_gen_in_filename panorama panoid generation
      vfov_deg fov_deg)

/-- A renderer that returns a grey 512 x 512 view. -/
def sample_render : Mat → ℚ → ℚ → Mat := fun _ _ _ => grey_tile

/-- No rotation and no FOV jitter. -/
def no_jitter : ViewJitter := ⟨0, fun _ => 0⟩

/-! ## Reprojection (`equirect_to_rectilinear`), over the reals -/

/-- The C function `atan2(y, x)`: the angle in (-π, π] of the point (x, y). -/
noncomputable def atan2 (y x : ℝ) : ℝ := Complex.arg ⟨x, y⟩

/-- Body of the per-pixel loop of `equirect_to_rectilinear`: the panorama
coordinates (u, v) stored in `map_x` and `map_y` for the output pixel (x, y),
with `M_PI` read as π and `double` arithmetic as real arithmetic. -/
noncomputable def equirect_map (pano_width pano_height : Nat) (direction_rad vfov_rad : ℝ)
    (output_size : Int) (pitch_rad yaw_rad : ℝ) (x y : Int) : ℝ × ℝ :=
  let hfov_rad : ℝ := 90 * Real.pi / 180
  let tan_hfov_half := Real.tan (hfov_rad / 2)
  let tan_vfov_half := Real.tan (vfov_rad / 2)
  let nx := (2 * (x : ℝ) / (output_size : ℝ) - 1) * tan_hfov_half
  let ny := -(2 * (y : ℝ) / (output_size : ℝ) - 1) * tan_vfov_half
  let nz : ℝ := 1
  let py := ny * Real.cos pitch_rad - nz * Real.sin pitch_rad
  let pz := ny * Real.sin pitch_rad + nz * Real.cos pitch_rad
  let yx := nx * Real.cos yaw_rad + pz * Real.sin yaw_rad
  let yz := -nx * Real.sin yaw_rad + pz * Real.cos yaw_rad
  let r := Real.sqrt (yx * yx + py * py + yz * yz)
  let phi := Real.arcsin (py / r)
  let theta := atan2 yx yz + direction_rad
  let u := fmod (theta / (2 * Real.pi) + 1) 1 * (pano_width : ℝ)
  let v := (1 / 2 - phi / Real.pi) * (pano_height : ℝ)
  (u, v)

/-! ## The worker pool (`ThreadPool`, constructor, `set_pano_thread_count`, `run`) -/

/-- Number of workers `ThreadPool(size_t threads)` starts when it is given an
`int`: the value converted to a 64-bit `size_t`. -/
def thread_pool_workers (threads : Int) : Nat := (threads % 2 ^ 64).toNat

/-- The thread settings among the members of `StreetViewDownloader`. -/
structure ThreadSettings where
  max_total_threads : Int
  tile_thread_count : Int
  pano_thread_count : Int
  deriving DecidableEq, Repr

/-- The thread settings the constructor installs. -/
def default_threads : ThreadSettings := ⟨512, 128, 4⟩

/-- Size of the pool the constructor builds;
`host_concurrency` is `static_cast<int>(std::thread::hardware_concurrency())`. -/
def constructor_pool (host_concurrency : Int) : Nat :=
  thread_pool_workers (min default_threads.max_total_threads host_concurrency)

/-- Embedding of `set_pano_thread_count(count)`: the new settings and the size
of the pool it builds. -/
def set_pano_thread_count (cfg : ThreadSettings) (host_concurrency count : Int) :
    ThreadSettings × Nat :=
  ({ cfg with pano_thread_count := count },
    thread_pool_workers (min cfg.max_total_threads host_concurrency))

/-- Size of the pool `run` installs after parsing the arguments into `cfg`
("Re-initialize thread pool with configured values"); this pool replaces the
earlier one before any scene is processed. -/
def run_pool (cfg : ThreadSettings) : Nat :=
  thread_pool_workers
    (min cfg.max_total_threads (max cfg.tile_thread_count cfg.pano_thread_count))

/-! ## One scene (`process_panorama`) -/

/-- The members of `StreetViewDownloader` that scene processing reads. -/
structure Settings where
  retry_count : Int
  pano_thread_count : Int
  include_gen_in_filename : Bool
  auto_crop : Bool
  draw_tile_labels : Bool

/-- The settings the constructor installs. -/
def default_settings : Settings := ⟨3, 4, true, true, false⟩

/-- The calls inside the `try` block of `process_panorama` from which an
exception may escape. -/
inductive Stage where
  | generation
  | download
  | stitch
  | views
  deriving DecidableEq

/-- What one `process_panorama` call meets: the tile service as seen by
`detect_generation` and by the tile downloads, the renderer and random draws of
the directional views, and the stage, if any, at which an exception is thrown. -/
structure PanoEnv where
  world : World
  svc : TileService
  render : Mat → ℚ → ℚ → Mat
  jitter : ViewJitter
  fault : Option Stage

/-- The shared mutable state: generation cache (with the log of probes) and the
set `failed_panoids`, as the list of its elements. -/
structure RunState where
  probe : ProbeState
  failed_panoids : List String

/-- State of a fresh process. -/
def RunState.init : RunState := ⟨ProbeState.init, []⟩

/-- Embedding of `record_failed_pano`: `failed_panoids.insert(panoid)`. -/
def record_failed_pano (st : RunState) (panoid : String) : RunState :=
  { st with failed_panoids := st.failed_panoids.insert panoid }

/-- What one `process_panorama` call did: the returned `bool`, the shared state
afterwards, the URLs of the tile tasks it submitted, the panorama it handed to
`create_directional_views_with_jitter`, the views written, and the URL of
every HTTP request its tile tasks sent. -/
structure PanoRun where
  success : Bool
  state : RunState
  tile_tasks : List TileUrl
  reprojected : Option Mat
  views : List DirectionalView
  requests : List TileUrl

/-- The three failure returns and the `catch` block of `process_panorama`: record
the scene as failed and return `false`. -/
def pano_failed (st : RunState) (panoid : String) (tile_tasks requests : List TileUrl) :
    PanoRun :=
  ⟨false, record_failed_pano st panoid, tile_tasks, none, [], requests⟩

/-- Embedding of `process_panorama(panoid, output_dir)`.  An exception escaping a
call of the `try` block is the input `env.fault`; the `cv::Exception` of a label
box (`stitch_panorama_throws`) is one of the stitch stage. -/
def process_panorama (cv : OpenCV) (cfg : Settings) (env : PanoEnv) (panoid : String)
    (st : RunState) : PanoRun :=
  if env.fault = some Stage.generation then pano_failed st panoid [] []
  else
    let gen_step := process_panorama_generation cv env.world panoid st.probe
    let generation := gen_step.1.1
    let st1 : RunState := { st with probe := gen_step.2 }
    if generation = 0 then pano_failed st1 panoid [] []
    else
      let config := get_generation_config generation
      if env.fault = some Stage.download then pano_failed st1 panoid [] []
      else
        let download :=
          download_tiles_parallel cv env.svc cfg.retry_count panoid config.zoom
            config.max_x config.max_y
        let tasks := download.submitted.map fun c => TileUrl.mk panoid config.zoom c.1 c.2
        let tiles := download.result
        if tiles.isEmpty then pano_failed st1 panoid tasks download.requests
        else
          let valid_tiles := tiles.length
          if valid_tiles = 0 then pano_failed st1 panoid tasks download.requests
          else if env.fault = some Stage.stitch then pano_failed st1 panoid tasks download.requests
          else
            let panorama :=
              stitch_panorama cv cfg.draw_tile_labels tiles config.max_x config.max_y config.zoom
            if panorama.empty then pano_failed st1 panoid tasks download.requests
            else
              let panorama :=
                if config.crop && cfg.auto_crop && !cfg.draw_tile_labels then
                  crop_panorama panorama generation
                else panorama
              if env.fault = some Stage.views then pano_failed st1 panoid tasks download.requests
              else
                ⟨true, st1, tasks, some panorama,
                  create_directional_views_with_jitter env.render env.jitter
                    cfg.include_gen_in_filename panorama panoid generation config.zoom,
                  download.requests⟩

/-! ## All scenes (`process_panoids`) on the worker pool -/

/-- The value an `int` takes for the arithmetic result `n`: reduction to 32 bits
in two's complement.  (Signed overflow is undefined in C++; the wrap is what
the usual targets do.) -/
def wrap32 (n : Int) : Int := (n + 2 ^ 31) % 2 ^ 32 - 2 ^ 31

/-- Why a call of `process_panoids` does not return: every worker of the pool
is held by a scene task that waits for its tile tasks (`future.get()` never
returns); `panoids[i]` is read outside the vector (undefined behaviour); or the
iterations allowed to the batch loop are used up. -/
inductive Halt where
  | deadlock
  | out_of_range
  | fuel
  deriving DecidableEq

/-- The indices `i` of `for (int i = start; i < end; ++i)`. -/
def batch_indices (start stop : Int) : List Int :=
  (List.range (stop - start).toNat).map fun (k : Nat) => start + (k : Int)

/-- What the pool is asked to do and what is waited for: `submit i` is the
`enqueue` of the task for `panoids[i]`, `collect i` the `future.get()` of it. -/
inductive PoolEvent where
  | submit (i : Int)
  | collect (i : Int)
  deriving DecidableEq

/-- The bookkeeping of `process_panoids`: the counters `successful`, `failed`
and `completed`, the shared state, the values `future.get()` returned (in
order), the batches of indices enqueued, and the trace of pool events. -/
structure PanoidsRun where
  successful : Nat
  failed : Nat
  completed : Nat
  state : RunState
  results : List Bool
  batches : List (List Int)
  events : List PoolEvent

/-- The start of `process_panoids`: all counters zero. -/
def PanoidsRun.start (st : RunState) : PanoidsRun := ⟨0, 0, 0, st, [], [], []⟩

/-- The scene tasks `process_panorama(panoids[i], output_dir)` of a list of
indices, each run to its end in submission order; task `i` meets `envs i`.
Returns the results in order and the shared state afterwards. -/
def scene_results (cv : OpenCV) (cfg : Settings) (envs : Nat → PanoEnv)
    (panoids : List String) : List Int → RunState → List Bool × RunState
  | [], st => ([], st)
  | i :: rest, st =>
    let run := process_panorama cv cfg (envs i.toNat) (panoids.getD i.toNat "") st
    let later := scene_results cv cfg envs panoids rest run.state
    (run.success :: later.1, later.2)

/-- The loop that enqueues the scene tasks of a batch,
`for (int i = start; i < end; ++i) { const std::string& panoid = panoids[i]; ... }`:
the indices enqueued, in order.  Reading `panoids[i]` outside the vector is
undefined behaviour. -/
def submit_batch (panoids : List String) (batch : List Int) : Except Halt (List Int) :=
  if batch.all fun i => decide (0 ≤ i) && decide (i < (panoids.length : Int)) then
    Except.ok batch
  else Except.error Halt.out_of_range

/-- The scene tasks of one batch on a pool of `pool_size` workers, in the
schedule where the batch loop has enqueued the whole batch before a worker pops
a task, so that in the FIFO queue every tile task stands behind the scene tasks
of the batch.  `held` workers are held by scene tasks that wait for their tile
tasks.  A scene task needs a free worker when its turn comes; it keeps the
worker when it has enqueued tile tasks, and frees it at once otherwise.  Once
all scene tasks have been popped, the tile tasks need a free worker.  Returns
the futures as (index, result of `process_panorama`), in order, and the shared
state afterwards, the scene tasks taking effect in submission order. -/
def process_batch (cv : OpenCV) (cfg : Settings) (envs : Nat → PanoEnv)
    (panoids : List String) (pool_size : Nat) :
    List Int → (held : Nat) → RunState → Except Halt (List (Int × Bool) × RunState)
  | [], held, st =>
    if held = 0 ∨ held < pool_size then Except.ok ([], st) else Except.error Halt.deadlock
  | i :: rest, held, st =>
    if held < pool_size then
      let run := process_panorama cv cfg (envs i.toNat) (panoids.getD i.toNat "") st
      let held_now := if run.tile_tasks.isEmpty then held else held + 1
      match process_batch cv cfg envs panoids pool_size rest held_now run.state with
      | Except.error e => Except.error e
      | Except.ok later => Except.ok ((i, run.success) :: later.1, later.2)
    else Except.error Halt.deadlock

/-- The loop `for (auto& future : futures)` over the results of one batch. -/
def collect_results : List Bool → Nat × Nat × Nat → Nat × Nat × Nat
  | [], counters => counters
  | success :: rest, (successful, failed, completed) =>
    collect_results rest
      (if success then (successful + 1, failed, completed + 1)
       else (successful, failed + 1, completed + 1))

/-- The batch loop `for (int start = 0; start < total; start += batch_size)` of
`process_panoids`, entered at `start`, with `int` arithmetic; `Halt.fuel` when
`fuel` iterations do not reach the end of the loop. -/
def batch_loop (cv : OpenCV) (cfg : Settings) (envs : Nat → PanoEnv) (panoids : List String)
    (pool_size : Nat) (total batch_size : Int) :
    (fuel : Nat) → (start : Int) → PanoidsRun → Except Halt PanoidsRun
  | 0, start, acc => if start < total then Except.error Halt.fuel else Except.ok acc
  | fuel + 1, start, acc =>
    if start < total then
      let stop := min (wrap32 (start + batch_size)) total
      let batch := batch_indices start stop
      match submit_batch panoids batch with
      | Except.error e => Except.error e
      | Except.ok submitted =>
        match process_batch cv cfg envs panoids pool_size submitted 0 acc.state with
        | Except.error e => Except.error e
        | Except.ok ran =>
          let results := ran.1.map Prod.snd
          let counters := collect_results results (acc.successful, acc.failed, acc.completed)
          batch_loop cv cfg envs panoids pool_size total batch_size fuel
            (wrap32 (start + batch_size))
            ⟨counters.1, counters.2.1, counters.2.2, ran.2, acc.results ++ results,
              acc.batches ++ [submitted],
              acc.events ++
                (submitted.map PoolEvent.submit ++ ran.1.map fun f => PoolEvent.collect f.1)⟩
    else Except.ok acc

/-- Embedding of `process_panoids(panoids, output_dir)` on a pool of `pool_size`
workers: the bookkeeping when the function returns `{successful, failed}`, or
the reason why it does not return.  A vector of 2^31 or more scene ids, on which
`futures.reserve(total)` throws, is outside the model. -/
def process_panoids (cv : OpenCV) (cfg : Settings) (envs : Nat → PanoEnv) (pool_size : Nat)
    (panoids : List String) (st : RunState) (fuel : Nat) : Except Halt PanoidsRun :=
  let total : Int := wrap32 panoids.length
  let batch_size := wrap32 (cfg.pano_thread_count * 2)
  batch_loop cv cfg envs panoids pool_size total batch_size fuel 0 (PanoidsRun.start st)

/-- The indices submitted to the pool, in order. -/
def submitted_indices : List PoolEvent → List Int
  | [] => []
  | PoolEvent.submit i :: rest => i :: submitted_indices rest
  | PoolEvent.collect _ :: rest => submitted_indices rest

/-- An environment with a curl handle in which the tile service is `good` for
probes and for downloads alike, with no exception and no jitter. -/
def env_of (good : TileUrl → Bool) : PanoEnv :=
  ⟨fun _ => (true, server_of good),
   ⟨fun _ => true, fun u _ => server_of good u, fun _ _ => 1 / 2⟩,
   sample_render, no_jitter, none⟩

/-! ## Derived observations used by the statements on retries and probes -/

/-- The durations of the sleeps of a trace, in order. -/
def sleep_times : List Event → List ℚ
  | [] => []
  | Event.sleep d :: rest => d :: sleep_times rest
  | Event.request _ :: rest => sleep_times rest

/-- Exactly the tiles of the generation-2 grid (13 x 6 at zoom 4) exist. -/
def gen2_grid : TileUrl → Bool :=
  fun u => u.zoom == 4 && decide (0 ≤ u.x) && decide (u.x < 13) && decide (0 ≤ u.y) &&
    decide (u.y < 6)

/-! ## The ray of an output pixel (`equirect_to_rectilinear`), over the reals -/

/-- The first half of the per-pixel loop body of `equirect_to_rectilinear`: the
ray (yx, py, yz) through the output pixel (x, y) after the pitch and yaw
rotations; its length is the `r` of the source. -/
noncomputable def equirect_ray (vfov_rad : ℝ) (output_size : Int) (pitch_rad yaw_rad : ℝ)
    (x y : Int) : ℝ × ℝ × ℝ :=
  let hfov_rad : ℝ := 90 * Real.pi / 180
  let tan_hfov_half := Real.tan (hfov_rad / 2)
  let tan_vfov_half := Real.tan (vfov_rad / 2)
  let nx := (2 * (x : ℝ) / (output_size : ℝ) - 1) * tan_hfov_half
  let ny := -(2 * (y : ℝ) / (output_size : ℝ) - 1) * tan_vfov_half
  let nz : ℝ := 1
  let py := ny * Real.cos pitch_rad - nz * Real.sin pitch_rad
  let pz := ny * Real.sin pitch_rad + nz * Real.cos pitch_rad
  let yx := nx * Real.cos yaw_rad + pz * Real.sin yaw_rad
  let yz := -nx * Real.sin yaw_rad + pz * Real.cos yaw_rad
  (yx, py, yz)

/-- The length `r = sqrt(yx * yx + py * py + yz * yz)` of a ray. -/
noncomputable def ray_length (ray : ℝ × ℝ × ℝ) : ℝ :=
  Real.sqrt (ray.1 * ray.1 + ray.2.1 * ray.2.1 + ray.2.2 * ray.2.2)

/-! ## The cleaned CSV (`CSVHandler::write_cleaned_csv`, `generate_cleaned_csv`) -/

/-- The members of a loaded `CSVHandler`.  Strings are taken to consist of
single-byte characters, so that `length` and `take` are the byte operations of
`std::string`. -/
structure CSVHandler where
  delimiter : Char
  file_path : String
  headers : List String
  rows : List (List String)
  has_headers : Bool
  panoid_column_index : Nat

/-- Embedding of `is_valid_panoid`: 22 characters, each alphanumeric, `_` or `-`. -/
def is_valid_panoid (str : String) : Bool :=
  if str.length ≠ 22 then false
  else str.toList.all fun c => !(!c.isAlphanum && c != '_' && c != '-')

/-- Embedding of `extract_panoid`. -/
def extract_panoid (str : String) : String :=
  if is_valid_panoid str then str
  else if str.length ≥ 22 ∧ is_valid_panoid (str.take 22) then str.take 22
  else str

/-- The loop that writes the fields of one line: every field, followed by the
delimiter unless it is the last one. -/
def write_fields (delimiter : Char) : List String → String
  | [] => ""
  | [field] => field
  | field :: next :: rest =>
    field ++ String.singleton delimiter ++ write_fields delimiter (next :: rest)

/-- The loop `for (const auto& row : rows)` of `write_cleaned_csv`, appending to
the text `out` written so far. -/
def write_rows (delimiter : Char) (panoid_column_index : Nat) (failed_panoids : List String) :
    List (List String) → String → String
  | [], out => out
  | row :: rest, out =>
    if row.length > panoid_column_index then
      let raw_panoid := row.getD panoid_column_index ""
      let panoid := extract_panoid raw_panoid
      if panoid ∉ failed_panoids then
        write_rows delimiter panoid_column_index failed_panoids rest
          (out ++ write_fields delimiter row ++ "\n")
      else write_rows delimiter panoid_column_index failed_panoids rest out
    else write_rows delimiter panoid_column_index failed_panoids rest out

/-- Embedding of `write_cleaned_csv(failed_panoids, output_path)`: the returned
`bool` and the text written; `open_ok` says whether the output file could be
opened. -/
def write_cleaned_csv (h : CSVHandler) (failed_panoids : List String) (open_ok : Bool) :
    Bool × String :=
  if !open_ok then (false, "")
  else
    let out := if h.has_headers then write_fields h.delimiter h.headers ++ "\n" else ""
    (true, write_rows h.delimiter h.panoid_column_index failed_panoids h.rows out)

/-- The text of a file made of the given lines, each ended by a newline. -/
def lines_text : List String → String
  | [] => ""
  | line :: rest => line ++ "\n" ++ lines_text rest

/-- The three `std::filesystem::path` operations `generate_cleaned_csv` uses:
`parent_path()`, `stem()` and `operator/`. -/
structure PathOps where
  parent_path : String → String
  stem : String → String
  join : String → String → String

/-- Embedding of `generate_cleaned_csv()`: the file it writes, as (path, text),
or `none` when it writes nothing.  `open_ok` says which paths can be opened
for writing. -/
def generate_cleaned_csv (paths : PathOps) (csv_handler : Option CSVHandler)
    (failed_panoids : List String) (csv_output_path : String) (open_ok : String → Bool) :
    Option (String × String) :=
  match csv_handler with
  | none => none
  | some h =>
    if failed_panoids.isEmpty || csv_output_path.isEmpty then none
    else
      let output_file :=
        if csv_output_path.isEmpty then
          paths.join (paths.parent_path h.file_path) (paths.stem h.file_path ++ "_cleaned.csv")
        else csv_output_path
      let written := write_cleaned_csv h failed_panoids (open_ok output_file)
      if written.1 then some (output_file, written.2) else none

/-- Path operations on `dir/name.ext` paths with a single directory level. -/
def sample_paths : PathOps :=
  ⟨fun p => (p.splitOn "/").headD "", fun p => (((p.splitOn "/").getLastD "").splitOn ".").headD "",
    fun dir name => dir ++ "/" ++ name⟩

/-- A loaded CSV with the scene id in column 0 and two rows. -/
def sample_csv : CSVHandler :=
  ⟨',', "data/input.csv", ["panoid", "lat"], [["scene_a", "1.5"], ["scene_b", "2.5"]], true, 0⟩

/-! ## Sample scenes for the crop gate -/

/-- A uniformly grey tile that is taller than wide: 10 columns and 20 rows. -/
def tall_tile : Mat := ⟨20, 10, fun _ _ => (128, 128, 128)⟩

/-- A decoder that turns every non-empty body into `tall_tile`, with a grey mean
of 128 and label drawing that leaves the pixels as they are. -/
def tall_cv : OpenCV :=
  ⟨fun bytes => if bytes.isEmpty then Mat.none else tall_tile, fun _ => 128,
    fun canvas _ _ _ _ => canvas.px⟩

/-- Only the first generation-4 probe tile, (15, 7) at zoom 4, exists. -/
def gen4_only : TileUrl → Bool :=
  fun u => u.zoom == 4 && u.x == 15 && u.y == 7

/-- Only the first generation-3 probe tile, (12, 6) at zoom 4, exists. -/
def gen3_only : TileUrl → Bool :=
  fun u => u.zoom == 4 && u.x == 12 && u.y == 6

/-! ## The pool scheduler during one batch (`ThreadPool`, `process_panoids`,
`download_tiles_parallel`) -/

/-- A task in the queue of the pool: `process_panorama` for the scene with index
`i`, or one `download_tile` of that scene. -/
inductive PoolTask where
  | scene (i : Int)
  | tile (i : Int)
  deriving DecidableEq

/-- What a worker thread is doing: blocked in `condition.wait`; running the
scene task `i` with `left` tile tasks still to enqueue; blocked in the
`future.get()` loop of `download_tiles_parallel` for scene `i`; or running a
tile task of scene `i`. -/
inductive Activity where
  | idle
  | scene_running (i : Int) (left : Nat)
  | scene_waiting (i : Int)
  | tile_running (i : Int)
  deriving DecidableEq

/-- State of the scheduler during one batch: the indices the batch loop has yet
to enqueue, the FIFO queue `tasks`, the activity of every worker, and for every
scene the number of its enqueued tile tasks that have not finished. -/
structure PoolState where
  unsubmitted : List Int
  queue : List PoolTask
  workers : List Activity
  pending : Int → Nat

/-- Number of tile tasks a scene of the given generation enqueues: none when no
generation was detected (`process_panorama` returns before the download), and
one per coordinate of the grid otherwise. -/
def tile_count (generation : Int) : Nat :=
  if generation = 0 then 0
  else
    (grid_tasks (get_generation_config generation).max_x
      (get_generation_config generation).max_y).length

/-- The activity of a worker that has popped `task` from the queue. -/
def start_task (gen : Int → Int) : PoolTask → Activity
  | PoolTask.scene i => Activity.scene_running i (tile_count (gen i))
  | PoolTask.tile i => Activity.tile_running i

/-- One step of the scheduler; `gen i` is the generation resolved for scene `i`.
The batch loop enqueues the next scene task at the tail; an idle worker pops
the task at the head; a running scene enqueues one tile task at the tail; a
scene that has enqueued all its tile tasks starts waiting for them; a tile task
finishes; a waiting scene whose tile tasks have all finished ends and frees its
worker. -/
inductive PoolStep (gen : Int → Int) : PoolState → PoolState → Prop where
  | enqueue_scene (st : PoolState) (i : Int) (rest : List Int)
      (hu : st.unsubmitted = i :: rest) :
      PoolStep gen st { st with unsubmitted := rest, queue := st.queue ++ [PoolTask.scene i] }
  | take (st : PoolState) (task : PoolTask) (rest : List PoolTask)
      (before after : List Activity)
      (hq : st.queue = task :: rest) (hw : st.workers = before ++ Activity.idle :: after) :
      PoolStep gen st
        { st with queue := rest, workers := before ++ start_task gen task :: after }
  | enqueue_tile (st : PoolState) (i : Int) (left : Nat) (before after : List Activity)
      (hw : st.workers = before ++ Activity.scene_running i (left + 1) :: after) :
      PoolStep gen st
        { st with
          queue := st.queue ++ [PoolTask.tile i],
          workers := before ++ Activity.scene_running i left :: after,
          pending := Function.update st.pending i (st.pending i + 1) }
  | wait_tiles (st : PoolState) (i : Int) (before after : List Activity)
      (hw : st.workers = before ++ Activity.scene_running i 0 :: after) :
      PoolStep gen st { st with workers := before ++ Activity.scene_waiting i :: after }
  | finish_tile (st : PoolState) (i : Int) (before after : List Activity)
      (hw : st.workers = before ++ Activity.tile_running i :: after) :
      PoolStep gen st
        { st with
          workers := before ++ Activity.idle :: after,
          pending := Function.update st.pending i (st.pending i - 1) }
  | finish_scene (st : PoolState) (i : Int) (before after : List Activity)
      (hw : st.workers = before ++ Activity.scene_waiting i :: after)
      (hdone : st.pending i = 0) :
      PoolStep gen st { st with workers := before ++ Activity.idle :: after }

/-- The pool when the batch loop starts a batch: nothing enqueued yet, an empty
queue, `pool_size` idle workers, no tile task pending. -/
def pool_init (batch : List Int) (pool_size : Nat) : PoolState :=
  ⟨batch, [], List.replicate pool_size Activity.idle, fun _ => 0⟩

/-- The states the scheduler can be in during the batch. -/
def PoolReachable (gen : Int → Int) (batch : List Int) (pool_size : Nat) (st : PoolState) :
    Prop :=
  Relation.ReflTransGen (PoolStep gen) (pool_init batch pool_size) st

/-- Every worker is held by a scene task that waits for its tile tasks. -/
def AllWaiting (st : PoolState) : Prop :=
  ∀ w ∈ st.workers, ∃ i : Int, w = Activity.scene_waiting i

/-- The state of the deadlock: every worker is held by a waiting scene task,
tile tasks remain queued, and no step is possible. -/
def PoolStuck (gen : Int → Int) (st : PoolState) : Prop :=
  AllWaiting st ∧ (∃ i : Int, PoolTask.tile i ∈ st.queue) ∧ ∀ st' : PoolState, ¬ PoolStep gen st st'

/-- Number of scene tasks in a queue. -/
def queued_scenes : List PoolTask → Nat
  | [] => 0
  | PoolTask.scene _ :: rest => queued_scenes rest + 1
  | PoolTask.tile _ :: rest => queued_scenes rest

/-- Number of workers that run or wait in a scene task. -/
def held_by_scenes : List Activity → Nat
  | [] => 0
  | Activity.scene_running _ _ :: rest => held_by_scenes rest + 1
  | Activity.scene_waiting _ :: rest => held_by_scenes rest + 1
  | _ :: rest => held_by_scenes rest

/-- The tile tasks of a scene, as they stand in the queue. -/
def tile_tasks_of (gen : Int → Int) (i : Int) : List PoolTask :=
  List.replicate (tile_count (gen i)) (PoolTask.tile i)

/-! ## Theorems -/

/-- C1: `get_generation_config` follows the fixed table for generations 1 to 4
(zoom 3 for generation 1, zoom 4 otherwise), every other integer gets the
profile of generation 4, and the zoom is always 3 or 4. -/
theorem get_generation_config_table (g : Int) :
    (g = 1 → (get_generation_config g).zoom = 3 ∧
        (get_generation_config g).max_x = 8 ∧ (get_generation_config g).max_y = 4) ∧
    (g = 2 → (get_generation_config g).zoom = 4 ∧
        (get_generation_config g).max_x = 13 ∧ (get_generation_config g).max_y = 6) ∧
    (g = 3 → (get_generation_config g).zoom = 4 ∧
        (get_generation_config g).max_x = 13 ∧ (get_generation_config g).max_y = 7) ∧
    (g = 4 → (get_generation_config g).zoom = 4 ∧
        (get_generation_config g).max_x = 16 ∧ (get_generation_config g).max_y = 8) ∧
    (g ≠ 1 ∧ g ≠ 2 ∧ g ≠ 3 ∧ g ≠ 4 →
        get_generation_config g = get_generation_config 4) ∧
    ((get_generation_config g).zoom = 3 ∨ (get_generation_config g).zoom = 4) := by
  by_cases h1 : g = 1
  · subst h1; decide
  by_cases h2 : g = 2
  · subst h2; decide
  by_cases h3 : g = 3
  · subst h3; decide
  by_cases h4 : g = 4
  · subst h4; decide
  have e1 : (g == 1) = false := by simpa using h1
  have e2 : (g == 2) = false := by simpa using h2
  have e3 : (g == 3) = false := by simpa using h3
  have e4 : (g == 4) = false := by simpa using h4
  have hg : get_generation_config g = get_generation_config 4 := by
    simp only [get_generation_config, configs, List.lookup, e1, e2, e3, e4]
    rfl
  refine ⟨fun h => absurd h h1, fun h => absurd h h2, fun h => absurd h h3,
    fun h => absurd h h4, fun _ => hg, ?_⟩
  rw [hg]; decide

/-- Witness for C1 at generation 2 (in the table) and generation 7 (fallback). -/
theorem get_generation_config_table_witness :
    ((get_generation_config 2).zoom = 4 ∧
        (get_generation_config 2).max_x = 13 ∧ (get_generation_config 2).max_y = 6) ∧
    get_generation_config 7 = get_generation_config 4 :=
  ⟨(get_generation_config_table 2).2.1 rfl,
   (get_generation_config_table 7).2.2.2.2.1 (by decide)⟩

/-- Closed form of `detect_generation` once a curl handle is available: the ten
probes in program order. -/
theorem detect_generation_closed (cv : OpenCV) (server : TileUrl → Response)
    (panoid : String) :
    detect_generation cv true server panoid =
      if tile_valid cv server panoid 4 15 7 || tile_valid cv server panoid 4 14 6 then
        (4, "Generation 4 (Zoom 4, 16x8)")
      else if tile_valid cv server panoid 4 12 6 || tile_valid cv server panoid 4 11 5 then
        (3, "Generation 3 (Zoom 4, 13x7)")
      else if tile_valid cv server panoid 4 12 5 || tile_valid cv server panoid 4 10 4 then
        (2, "Generation 2 (Zoom 4, 13x6)")
      else if tile_valid cv server panoid 3 7 3 || tile_valid cv server panoid 3 6 2 then
        (1, "Generation 1 (Zoom 3, 8x4)")
      else if tile_valid cv server panoid 4 8 4 then
        (4, "Generation 4 (Zoom 4, 16x8) - Default")
      else if tile_valid cv server panoid 3 4 2 then
        (1, "Generation 1 (Zoom 3, 8x4) - Default")
      else
        (0, "Unknown Generation") := by
  unfold tile_valid
  simp only [detect_generation, probe_patterns, probe_coords, test_patterns]
  cases probe_accepts cv (server ⟨panoid, 4, 15, 7⟩)
  · cases probe_accepts cv (server ⟨panoid, 4, 14, 6⟩)
    · cases probe_accepts cv (server ⟨panoid, 4, 12, 6⟩)
      · cases probe_accepts cv (server ⟨panoid, 4, 11, 5⟩)
        · cases probe_accepts cv (server ⟨panoid, 4, 12, 5⟩)
          · cases probe_accepts cv (server ⟨panoid, 4, 10, 4⟩)
            · cases probe_accepts cv (server ⟨panoid, 3, 7, 3⟩)
              · cases probe_accepts cv (server ⟨panoid, 3, 6, 2⟩)
                · cases probe_accepts cv (server ⟨panoid, 4, 8, 4⟩)
                  · cases probe_accepts cv (server ⟨panoid, 3, 4, 2⟩) <;> rfl
                  · rfl
                · rfl
              · rfl
            · rfl
          · rfl
        · rfl
      · rfl
    · rfl
  · rfl

/-- C2: with the tile service as a validity oracle, `detect_generation` returns
the first generation, in the order 4, 3, 2, 1, one of whose two test coordinates
is valid at its test zoom; a result below a generation means both test
coordinates of that generation are invalid. -/
theorem detect_generation_first_valid (cv : OpenCV) (server : TileUrl → Response)
    (panoid : String) :
    ((tile_valid cv server panoid 4 15 7 = true ∨ tile_valid cv server panoid 4 14 6 = true) →
      detect_generation cv true server panoid = (4, "Generation 4 (Zoom 4, 16x8)")) ∧
    (tile_valid cv server panoid 4 15 7 = false ∧ tile_valid cv server panoid 4 14 6 = false →
      (tile_valid cv server panoid 4 12 6 = true ∨ tile_valid cv server panoid 4 11 5 = true) →
      detect_generation cv true server panoid = (3, "Generation 3 (Zoom 4, 13x7)")) ∧
    (tile_valid cv server panoid 4 15 7 = false ∧ tile_valid cv server panoid 4 14 6 = false →
      tile_valid cv server panoid 4 12 6 = false ∧ tile_valid cv server panoid 4 11 5 = false →
      (tile_valid cv server panoid 4 12 5 = true ∨ tile_valid cv server panoid 4 10 4 = true) →
      detect_generation cv true server panoid = (2, "Generation 2 (Zoom 4, 13x6)")) ∧
    (tile_valid cv server panoid 4 15 7 = false ∧ tile_valid cv server panoid 4 14 6 = false →
      tile_valid cv server panoid 4 12 6 = false ∧ tile_valid cv server panoid 4 11 5 = false →
      tile_valid cv server panoid 4 12 5 = false ∧ tile_valid cv server panoid 4 10 4 = false →
      (tile_valid cv server panoid 3 7 3 = true ∨ tile_valid cv server panoid 3 6 2 = true) →
      detect_generation cv true server panoid = (1, "Generation 1 (Zoom 3, 8x4)")) ∧
    ((detect_generation cv true server panoid).1 < 4 →
      tile_valid cv server panoid 4 15 7 = false ∧ tile_valid cv server panoid 4 14 6 = false) ∧
    ((detect_generation cv true server panoid).1 < 3 →
      tile_valid cv server panoid 4 12 6 = false ∧ tile_valid cv server panoid 4 11 5 = false) ∧
    ((detect_generation cv true server panoid).1 < 2 →
      tile_valid cv server panoid 4 12 5 = false ∧ tile_valid cv server panoid 4 10 4 = false) := by
  rw [detect_generation_closed]
  cases tile_valid cv server panoid 4 15 7 <;>
  cases tile_valid cv server panoid 4 14 6 <;>
  cases tile_valid cv server panoid 4 12 6 <;>
  cases tile_valid cv server panoid 4 11 5 <;>
  cases tile_valid cv server panoid 4 12 5 <;>
  cases tile_valid cv server panoid 4 10 4 <;>
  cases tile_valid cv server panoid 3 7 3 <;>
  cases tile_valid cv server panoid 3 6 2 <;>
  simp

/-- Witness for C2: when only the two generation-2 probe tiles exist, the
result is generation 2, and being below 3 it shows both generation-3 probes
invalid. -/
theorem detect_generation_first_valid_witness :
    detect_generation sample_cv true (server_of gen2_only) "pano" =
        (2, "Generation 2 (Zoom 4, 13x6)") ∧
    (tile_valid sample_cv (server_of gen2_only) "pano" 4 12 6 = false ∧
      tile_valid sample_cv (server_of gen2_only) "pano" 4 11 5 = false) :=
  ⟨(detect_generation_first_valid sample_cv (server_of gen2_only) "pano").2.2.1
      ⟨by decide, by decide⟩ ⟨by decide, by decide⟩
      (Or.inl (by norm_num [tile_valid, probe_accepts, server_of, gen2_only, sample_cv,
        is_valid_tile, grey_tile, Mat.empty])),
   (detect_generation_first_valid sample_cv (server_of gen2_only) "pano").2.2.2.2.2.1
      (by norm_num [detect_generation_closed, tile_valid, probe_accepts, server_of, gen2_only,
        sample_cv, is_valid_tile, grey_tile, Mat.empty])⟩

/-- C3: when all eight test coordinates are invalid, `detect_generation` returns
4 if the zoom-4 central tile (8,4) is valid, else 1 if the zoom-3 central tile
(4,2) is valid, else 0; the generation is always within 0..4, and it is 0 exactly
when all ten probes are invalid. -/
theorem detect_generation_fallback (cv : OpenCV) (server : TileUrl → Response)
    (panoid : String) :
    (tile_valid cv server panoid 4 15 7 = false ∧ tile_valid cv server panoid 4 14 6 = false ∧
      tile_valid cv server panoid 4 12 6 = false ∧ tile_valid cv server panoid 4 11 5 = false ∧
      tile_valid cv server panoid 4 12 5 = false ∧ tile_valid cv server panoid 4 10 4 = false ∧
      tile_valid cv server panoid 3 7 3 = false ∧ tile_valid cv server panoid 3 6 2 = false →
      detect_generation cv true server panoid =
        if tile_valid cv server panoid 4 8 4 then (4, "Generation 4 (Zoom 4, 16x8) - Default")
        else if tile_valid cv server panoid 3 4 2 then
          (1, "Generation 1 (Zoom 3, 8x4) - Default")
        else (0, "Unknown Generation")) ∧
    (∀ curl_ok : Bool, 0 ≤ (detect_generation cv curl_ok server panoid).1 ∧
      (detect_generation cv curl_ok server panoid).1 ≤ 4) ∧
    ((detect_generation cv true server panoid).1 = 0 ↔
      tile_valid cv server panoid 4 15 7 = false ∧ tile_valid cv server panoid 4 14 6 = false ∧
      tile_valid cv server panoid 4 12 6 = false ∧ tile_valid cv server panoid 4 11 5 = false ∧
      tile_valid cv server panoid 4 12 5 = false ∧ tile_valid cv server panoid 4 10 4 = false ∧
      tile_valid cv server panoid 3 7 3 = false ∧ tile_valid cv server panoid 3 6 2 = false ∧
      tile_valid cv server panoid 4 8 4 = false ∧ tile_valid cv server panoid 3 4 2 = false) := by
  have hoff : detect_generation cv false server panoid = (0, "Unknown Generation") := rfl
  refine ⟨?_, ?_, ?_⟩
  · rintro ⟨h1, h2, h3, h4, h5, h6, h7, h8⟩
    rw [detect_generation_closed, h1, h2, h3, h4, h5, h6, h7, h8]
    rfl
  · intro curl_ok
    cases curl_ok
    · rw [hoff]; decide
    · rw [detect_generation_closed]
      split_ifs <;> decide
  · rw [detect_generation_closed]
    cases tile_valid cv server panoid 4 15 7 <;>
    cases tile_valid cv server panoid 4 14 6 <;>
    cases tile_valid cv server panoid 4 12 6 <;>
    cases tile_valid cv server panoid 4 11 5 <;>
    cases tile_valid cv server panoid 4 12 5 <;>
    cases tile_valid cv server panoid 4 10 4 <;>
    cases tile_valid cv server panoid 3 7 3 <;>
    cases tile_valid cv server panoid 3 6 2 <;>
    cases tile_valid cv server panoid 4 8 4 <;>
    cases tile_valid cv server panoid 3 4 2 <;>
    decide

/-- Witness for C3: when only the zoom-3 central tile exists, all eight test
coordinates are invalid and the fallback yields generation 1. -/
theorem detect_generation_fallback_witness :
    detect_generation sample_cv true (server_of zoom3_center_only) "pano" =
      if tile_valid sample_cv (server_of zoom3_center_only) "pano" 4 8 4 then
        (4, "Generation 4 (Zoom 4, 16x8) - Default")
      else if tile_valid sample_cv (server_of zoom3_center_only) "pano" 3 4 2 then
        (1, "Generation 1 (Zoom 3, 8x4) - Default")
      else (0, "Unknown Generation") :=
  (detect_generation_fallback sample_cv (server_of zoom3_center_only) "pano").1
    ⟨by decide, by decide, by decide, by decide, by decide, by decide, by decide, by decide⟩

/-- The generation step on a cache hit. -/
theorem generation_step_hit (cv : OpenCV) (world : World) (p : String) (st : ProbeState)
    (h : (get_cached_generation st.generation_cache p).1 ≠ 0) :
    process_panorama_generation cv world p st =
      (get_cached_generation st.generation_cache p, st) := by
  unfold process_panorama_generation
  exact if_pos h

/-- The generation step on a cache miss, or on a cached generation 0. -/
theorem generation_step_miss (cv : OpenCV) (world : World) (p : String) (st : ProbeState)
    (h : (get_cached_generation st.generation_cache p).1 = 0) :
    process_panorama_generation cv world p st =
      (detect_generation cv (world st.detect_calls.length).1 (world st.detect_calls.length).2 p,
        ⟨cache_generation st.generation_cache p
            (detect_generation cv (world st.detect_calls.length).1
              (world st.detect_calls.length).2 p).1
            (detect_generation cv (world st.detect_calls.length).1
              (world st.detect_calls.length).2 p).2,
          p :: st.detect_calls⟩) := by
  unfold process_panorama_generation
  exact if_neg (not_not.mpr h)

/-- A non-zero cached generation survives any generation step, and that step
does not probe the scene it is cached for. -/
theorem cached_nonzero_step (cv : OpenCV) (world : World) (s p : String) (st : ProbeState)
    (r : Int × String) (hr : r.1 ≠ 0) (hc : st.generation_cache s = some r) :
    (process_panorama_generation cv world p st).2.generation_cache s = some r ∧
    (process_panorama_generation cv world p st).2.detect_calls.count s =
      st.detect_calls.count s := by
  by_cases hp : (get_cached_generation st.generation_cache p).1 = 0
  · have hne : p ≠ s := by
      rintro rfl
      simp [get_cached_generation, hc] at hp
      exact hr hp
    rw [generation_step_miss cv world p st hp]
    refine ⟨?_, ?_⟩
    · simp [cache_generation, Ne.symm hne, hc]
    · simp [List.count_cons, hne]
  · rw [generation_step_hit cv world p st hp]
    exact ⟨hc, rfl⟩

/-- A non-zero cached generation survives any sequence of generation steps. -/
theorem cached_nonzero_run (cv : OpenCV) (world : World) (s : String) (r : Int × String)
    (hr : r.1 ≠ 0) (calls : List String) :
    ∀ st : ProbeState, st.generation_cache s = some r →
      (run_generation_steps cv world calls st).generation_cache s = some r ∧
      (run_generation_steps cv world calls st).detect_calls.count s =
        st.detect_calls.count s := by
  induction calls with
  | nil => intro st hc; exact ⟨hc, rfl⟩
  | cons p rest ih =>
    intro st hc
    have h1 := cached_nonzero_step cv world s p st r hr hc
    have h2 := ih _ h1.1
    simp only [run_generation_steps]
    exact ⟨h2.1, h2.2.trans h1.2⟩

/-- After a generation step the cache holds exactly the returned pair. -/
theorem step_caches_result (cv : OpenCV) (world : World) (s : String) (st : ProbeState) :
    (process_panorama_generation cv world s st).2.generation_cache s =
      some (process_panorama_generation cv world s st).1 := by
  by_cases hp : (get_cached_generation st.generation_cache s).1 = 0
  · rw [generation_step_miss cv world s st hp]
    simp [cache_generation]
  · rw [generation_step_hit cv world s st hp]
    unfold get_cached_generation at hp ⊢
    cases h : st.generation_cache s with
    | none => simp [h] at hp
    | some v => rfl

/-- C4 (amended): once a call for scene `s` has resolved a non-zero generation,
every later call for `s`, after any sequence of calls in between, returns the
same (generation, description) pair and runs no further `detect_generation` for
`s`. -/
theorem generation_cached_once (cv : OpenCV) (world : World) (s : String) (st : ProbeState)
    (calls : List String)
    (hr : (process_panorama_generation cv world s st).1.1 ≠ 0) :
    (process_panorama_generation cv world s
        (run_generation_steps cv world calls (process_panorama_generation cv world s st).2)).1 =
      (process_panorama_generation cv world s st).1 ∧
    (process_panorama_generation cv world s
        (run_generation_steps cv world calls
          (process_panorama_generation cv world s st).2)).2.detect_calls.count s =
      (process_panorama_generation cv world s st).2.detect_calls.count s := by
  have hc := step_caches_result cv world s st
  have hrun := cached_nonzero_run cv world s _ hr calls _ hc
  have hstep := cached_nonzero_step cv world s s _ _ hr hrun.1
  refine ⟨?_, hstep.2.trans hrun.2⟩
  have hget : get_cached_generation
      (run_generation_steps cv world calls
        (process_panorama_generation cv world s st).2).generation_cache s =
      (process_panorama_generation cv world s st).1 := by
    simp [get_cached_generation, hrun.1]
  rw [generation_step_hit cv world s _ (by rw [hget]; exact hr)]
  exact hget

/-- On the sample server where only the generation-2 probe tiles exist,
detection yields generation 2. -/
theorem detect_generation_gen2_sample :
    detect_generation sample_cv true (server_of gen2_only) "pano" =
      (2, "Generation 2 (Zoom 4, 13x6)") := by
  norm_num [detect_generation_closed, tile_valid, probe_accepts, server_of, gen2_only,
    sample_cv, is_valid_tile, grey_tile, Mat.empty]

/-- Witness for C4 (amended): generation 2 is resolved for "pano", then "other"
and "pano" are processed, and a further call for "pano" reuses the pair. -/
theorem generation_cached_once_witness :
    (process_panorama_generation sample_cv gen2_world "pano" ProbeState.init).1.1 ≠ 0 ∧
    (process_panorama_generation sample_cv gen2_world "pano"
        (run_generation_steps sample_cv gen2_world ["other", "pano"]
          (process_panorama_generation sample_cv gen2_world "pano" ProbeState.init).2)).1 =
      (process_panorama_generation sample_cv gen2_world "pano" ProbeState.init).1 ∧
    (process_panorama_generation sample_cv gen2_world "pano"
        (run_generation_steps sample_cv gen2_world ["other", "pano"]
          (process_panorama_generation sample_cv gen2_world "pano"
            ProbeState.init).2)).2.detect_calls.count "pano" =
      (process_panorama_generation sample_cv gen2_world "pano"
        ProbeState.init).2.detect_calls.count "pano" := by
  have h : (process_panorama_generation sample_cv gen2_world "pano" ProbeState.init).1.1 ≠ 0 := by
    rw [generation_step_miss sample_cv gen2_world "pano" ProbeState.init rfl]
    show (detect_generation sample_cv true (server_of gen2_only) "pano").1 ≠ 0
    rw [detect_generation_gen2_sample]
    decide
  exact ⟨h, generation_cached_once sample_cv gen2_world "pano" ProbeState.init
    ["other", "pano"] h⟩

/-- C4 (as stated) fails for generation 0: in a world without tiles the first
call for "pano" probes and caches generation 0, and the second call for "pano"
runs `detect_generation` again instead of using the cached pair. -/
theorem generation_zero_probed_again :
    (process_panorama_generation sample_cv dead_world "pano" ProbeState.init).1 =
      (0, "Unknown Generation") ∧
    (process_panorama_generation sample_cv dead_world "pano"
      ProbeState.init).2.generation_cache "pano" = some (0, "Unknown Generation") ∧
    (process_panorama_generation sample_cv dead_world "pano"
      ProbeState.init).2.detect_calls = ["pano"] ∧
    (process_panorama_generation sample_cv dead_world "pano"
      (process_panorama_generation sample_cv dead_world "pano"
        ProbeState.init).2).2.detect_calls = ["pano", "pano"] := by
  decide

/-- C5: one attempt of `download_tile` accepts the response exactly when the
transfer succeeded with status 200, the body is non-empty, it decodes to a
non-empty image and that image passes `is_valid_tile` (non-empty, at least
10x10, grey mean above 0.1); the probes of `detect_generation` use the same
predicate. -/
theorem attempt_accepts_iff (cv : OpenCV) (r : Response) :
    ((attempt_accepts cv r).isSome = true ↔
      r.res_ok = true ∧ r.response_code = 200 ∧ r.response_data ≠ [] ∧
      (cv.imdecode r.response_data).empty = false ∧
      is_valid_tile cv (cv.imdecode r.response_data) = true) ∧
    (∀ img : Mat, is_valid_tile cv img = true ↔
      img.empty = false ∧ 10 ≤ img.cols ∧ 10 ≤ img.rows ∧ cv.gray_mean img > 1 / 10) ∧
    probe_accepts cv r = (attempt_accepts cv r).isSome := by
  refine ⟨?_, ?_, ?_⟩
  · unfold attempt_accepts
    cases h1 : r.res_ok <;> cases h3 : r.response_data <;>
      by_cases h2 : r.response_code = 200 <;>
      cases h4 : (cv.imdecode r.response_data).empty <;>
      cases h5 : is_valid_tile cv (cv.imdecode r.response_data) <;>
      simp_all
  · intro img
    unfold is_valid_tile
    cases h4 : img.empty <;> simp [h4, Nat.not_lt, and_assoc]
  · unfold attempt_accepts probe_accepts
    dsimp only
    split_ifs <;> rfl

/-- One step of the retry loop when the attempt is accepted. -/
theorem download_attempts_accept (cv : OpenCV) (respond : Nat → Response) (jitter : Nat → ℚ)
    (x y : Int) (n a : Nat) (img : Mat) (h : attempt_accepts cv (respond a) = some img) :
    download_attempts cv respond jitter x y (n + 1) a =
      (⟨x, y, img, true⟩,
        (if a > 0 then [Event.sleep (backoff_time a (jitter a))] else []) ++
          [Event.request a]) := by
  simp only [download_attempts, h]

/-- One step of the retry loop when the attempt is not accepted. -/
theorem download_attempts_reject (cv : OpenCV) (respond : Nat → Response) (jitter : Nat → ℚ)
    (x y : Int) (n a : Nat) (h : attempt_accepts cv (respond a) = none) :
    download_attempts cv respond jitter x y (n + 1) a =
      ((download_attempts cv respond jitter x y n (a + 1)).1,
        (if a > 0 then [Event.sleep (backoff_time a (jitter a))] else []) ++
          Event.request a :: (download_attempts cv respond jitter x y n (a + 1)).2) := by
  simp only [download_attempts, h]

/-- The optional sleep before an attempt adds no request. -/
theorem request_count_pause (a : Nat) (d : ℚ) (rest : List Event) :
    request_count ((if a > 0 then [Event.sleep d] else []) ++ rest) = request_count rest := by
  split_ifs <;> simp [request_count]

/-- The retry loop returns a tile tagged with the requested coordinates. -/
theorem download_attempts_tag (cv : OpenCV) (respond : Nat → Response) (jitter : Nat → ℚ)
    (x y : Int) (n : Nat) : ∀ a : Nat,
    (download_attempts cv respond jitter x y n a).1.x = x ∧
    (download_attempts cv respond jitter x y n a).1.y = y := by
  induction n with
  | zero => intro a; exact ⟨rfl, rfl⟩
  | succ n ih =>
    intro a
    cases h : attempt_accepts cv (respond a) with
    | some img => rw [download_attempts_accept _ _ _ _ _ _ _ _ h]; exact ⟨rfl, rfl⟩
    | none => rw [download_attempts_reject _ _ _ _ _ _ _ h]; exact ih (a + 1)

/-- The retry loop returns a valid tile exactly when one of its attempts is accepted. -/
theorem download_attempts_valid (cv : OpenCV) (respond : Nat → Response) (jitter : Nat → ℚ)
    (x y : Int) (n : Nat) : ∀ a : Nat,
    ((download_attempts cv respond jitter x y n a).1.valid = true ↔
      ∃ k, a ≤ k ∧ k < a + n ∧ accepted cv respond k = true) := by
  induction n with
  | zero =>
    intro a
    constructor
    · intro h; simp [download_attempts, Tile.mk2] at h
    · rintro ⟨k, h1, h2, _⟩; omega
  | succ n ih =>
    intro a
    cases h : attempt_accepts cv (respond a) with
    | some img =>
      rw [download_attempts_accept _ _ _ _ _ _ _ _ h]
      simp only [true_iff]
      exact ⟨a, le_refl a, by omega, by simp [accepted, h]⟩
    | none =>
      rw [download_attempts_reject _ _ _ _ _ _ _ h]
      simp only
      rw [ih (a + 1)]
      constructor
      · rintro ⟨k, h1, h2, h3⟩; exact ⟨k, by omega, by omega, h3⟩
      · rintro ⟨k, h1, h2, h3⟩
        have hk : k ≠ a := by
          rintro rfl
          simp [accepted, h] at h3
        exact ⟨k, by omega, by omega, h3⟩

/-- The retry loop stops right after its first accepted attempt. -/
theorem download_attempts_requests_hit (cv : OpenCV) (respond : Nat → Response)
    (jitter : Nat → ℚ) (x y : Int) (n : Nat) : ∀ a k : Nat, a ≤ k → k < a + n →
    accepted cv respond k = true → (∀ j, a ≤ j → j < k → accepted cv respond j = false) →
    request_count (download_attempts cv respond jitter x y n a).2 = k - a + 1 := by
  induction n with
  | zero => intro a k h1 h2; omega
  | succ n ih =>
    intro a k h1 h2 hk hbefore
    cases h : attempt_accepts cv (respond a) with
    | some img =>
      rw [download_attempts_accept _ _ _ _ _ _ _ _ h, request_count_pause]
      have hka : k = a := by
        by_contra hne
        have := hbefore a (le_refl a) (by omega)
        simp [accepted, h] at this
      subst hka
      simp [request_count]
    | none =>
      rw [download_attempts_reject _ _ _ _ _ _ _ h, request_count_pause]
      have hka : k ≠ a := by
        rintro rfl
        simp [accepted, h] at hk
      simp only [request_count]
      rw [ih (a + 1) k (by omega) (by omega) hk (fun j hj1 hj2 => hbefore j (by omega) hj2)]
      omega

/-- The retry loop uses all its attempts when none is accepted. -/
theorem download_attempts_requests_miss (cv : OpenCV) (respond : Nat → Response)
    (jitter : Nat → ℚ) (x y : Int) (n : Nat) : ∀ a : Nat,
    (∀ k, a ≤ k → k < a + n → accepted cv respond k = false) →
    request_count (download_attempts cv respond jitter x y n a).2 = n := by
  induction n with
  | zero => intro a _; rfl
  | succ n ih =>
    intro a hnone
    have h : attempt_accepts cv (respond a) = none := by
      have := hnone a (le_refl a) (by omega)
      simpa [accepted] using this
    rw [download_attempts_reject _ _ _ _ _ _ _ h, request_count_pause]
    simp only [request_count]
    rw [ih (a + 1) (fun k h1 h2 => hnone k (by omega) (by omega))]

/-- C6: with a curl handle, `download_tile(x, y, ...)` returns a tile tagged with
(x, y) that is valid exactly when one of the first `retry_count` attempts is
accepted; it issues k+1 requests when attempt k is the first accepted one,
`retry_count` requests when none is accepted, and none when `retry_count <= 0`
(the tile then being invalid). -/
theorem download_tile_retry (cv : OpenCV) (svc : TileService) (retry_count x y : Int)
    (panoid : String) (zoom : Int) (hcurl : svc.curl_ok ⟨panoid, zoom, x, y⟩ = true) :
    (download_tile cv svc retry_count x y panoid zoom).1.x = x ∧
    (download_tile cv svc retry_count x y panoid zoom).1.y = y ∧
    ((download_tile cv svc retry_count x y panoid zoom).1.valid = true ↔
      ∃ k : Nat, (k : Int) < retry_count ∧
        accepted cv (svc.respond ⟨panoid, zoom, x, y⟩) k = true) ∧
    (∀ k : Nat, (k : Int) < retry_count →
      accepted cv (svc.respond ⟨panoid, zoom, x, y⟩) k = true →
      (∀ j : Nat, j < k → accepted cv (svc.respond ⟨panoid, zoom, x, y⟩) j = false) →
      request_count (download_tile cv svc retry_count x y panoid zoom).2 = k + 1) ∧
    ((∀ k : Nat, (k : Int) < retry_count →
        accepted cv (svc.respond ⟨panoid, zoom, x, y⟩) k = false) →
      0 ≤ retry_count →
      (request_count (download_tile cv svc retry_count x y panoid zoom).2 : Int) = retry_count) ∧
    (retry_count ≤ 0 →
      request_count (download_tile cv svc retry_count x y panoid zoom).2 = 0 ∧
      (download_tile cv svc retry_count x y panoid zoom).1.valid = false) := by
  have hdef : download_tile cv svc retry_count x y panoid zoom =
      download_attempts cv (svc.respond ⟨panoid, zoom, x, y⟩) (svc.jitter ⟨panoid, zoom, x, y⟩)
        x y retry_count.toNat 0 := by
    simp [download_tile, hcurl]
  rw [hdef]
  refine ⟨(download_attempts_tag _ _ _ _ _ _ 0).1, (download_attempts_tag _ _ _ _ _ _ 0).2,
    ?_, ?_, ?_, ?_⟩
  · rw [download_attempts_valid]
    constructor
    · rintro ⟨k, _, h2, h3⟩; exact ⟨k, by omega, h3⟩
    · rintro ⟨k, h2, h3⟩; exact ⟨k, Nat.zero_le k, by omega, h3⟩
  · intro k hk hacc hbefore
    rw [download_attempts_requests_hit _ _ _ _ _ _ 0 k (Nat.zero_le k) (by omega) hacc
      (fun j _ hj => hbefore j hj)]
    omega
  · intro hnone hpos
    rw [download_attempts_requests_miss _ _ _ _ _ _ 0 (fun k _ hk => hnone k (by omega))]
    omega
  · intro hle
    have h0 : retry_count.toNat = 0 := by omega
    rw [h0]
    exact ⟨rfl, rfl⟩

/-- Witness for C6: the service starts answering at request 2 and three
attempts are allowed, so the tile is valid after 3 requests; with
`retry_count = 0` nothing is requested. -/
theorem download_tile_retry_witness :
    ((download_tile sample_cv (flaky_service 2) 3 5 6 "pano" 4).1.valid = true ∧
      request_count (download_tile sample_cv (flaky_service 2) 3 5 6 "pano" 4).2 = 2 + 1) ∧
    (request_count (download_tile sample_cv (flaky_service 2) 0 5 6 "pano" 4).2 = 0 ∧
      (download_tile sample_cv (flaky_service 2) 0 5 6 "pano" 4).1.valid = false) := by
  have hacc : accepted sample_cv ((flaky_service 2).respond ⟨"pano", 4, 5, 6⟩) 2 = true := by
    norm_num [accepted, attempt_accepts, flaky_service, sample_cv, is_valid_tile, grey_tile,
      Mat.empty]
  have hbefore : ∀ j : Nat, j < 2 →
      accepted sample_cv ((flaky_service 2).respond ⟨"pano", 4, 5, 6⟩) j = false := by
    intro j hj
    interval_cases j <;> rfl
  exact ⟨⟨(download_tile_retry sample_cv (flaky_service 2) 3 5 6 "pano" 4 rfl).2.2.1.mpr
      ⟨2, by decide, hacc⟩,
    (download_tile_retry sample_cv (flaky_service 2) 3 5 6 "pano" 4 rfl).2.2.2.1 2 (by decide)
      hacc hbefore⟩,
    (download_tile_retry sample_cv (flaky_service 2) 0 5 6 "pano" 4 rfl).2.2.2.2.2 (le_refl 0)⟩

/-- Every sleep of the retry loop entered at attempt `a` precedes an attempt
`i >= 1` and lasts `backoff_time i (jitter i)`. -/
theorem download_attempts_sleeps (cv : OpenCV) (respond : Nat → Response) (jitter : Nat → ℚ)
    (x y : Int) (n : Nat) : ∀ (a : Nat) (d : ℚ),
    Event.sleep d ∈ (download_attempts cv respond jitter x y n a).2 →
    ∃ i, 1 ≤ i ∧ d = backoff_time i (jitter i) := by
  induction n with
  | zero => intro a d h; simp [download_attempts] at h
  | succ n ih =>
    intro a d h
    cases hacc : attempt_accepts cv (respond a) with
    | some img =>
      rw [download_attempts_accept _ _ _ _ _ _ _ _ hacc] at h
      by_cases ha : a > 0
      · simp [ha] at h
        exact ⟨a, ha, h⟩
      · simp [ha] at h
    | none =>
      rw [download_attempts_reject _ _ _ _ _ _ _ hacc] at h
      by_cases ha : a > 0
      · simp [ha] at h
        rcases h with h | h
        · exact ⟨a, ha, h⟩
        · exact ih (a + 1) d h
      · simp [ha] at h
        exact ih (a + 1) d h

/-- The retry loop entered at attempt 0 starts with a request, not a sleep. -/
theorem download_attempts_first (cv : OpenCV) (respond : Nat → Response) (jitter : Nat → ℚ)
    (x y : Int) (n : Nat) :
    (download_attempts cv respond jitter x y n 0).2 = [] ∨
    (download_attempts cv respond jitter x y n 0).2.head? = some (Event.request 0) := by
  cases n with
  | zero => left; rfl
  | succ n =>
    right
    cases hacc : attempt_accepts cv (respond 0) with
    | some img => rw [download_attempts_accept _ _ _ _ _ _ _ _ hacc]; rfl
    | none => rw [download_attempts_reject _ _ _ _ _ _ _ hacc]; rfl

/-- C7: for every attempt index i >= 1 and jitter 0 <= j < 1 the backoff delay
`min(2^i + j, 10)` lies in [0, 10], is at least `min(2^i, 10)` (hence at least
2) and below `2^i + 1`, and equals 10 from i = 4 on; in `download_tile` the first event is the request of attempt 0,
never a sleep, and every sleep lasts the backoff of an attempt k >= 1. -/
theorem backoff_time_bounds (i : Nat) (j : ℚ) (hi : 1 ≤ i) (hj0 : 0 ≤ j) (hj1 : j < 1) :
    0 ≤ backoff_time i j ∧ backoff_time i j ≤ 10 ∧
    min ((2 : ℚ) ^ i) 10 ≤ backoff_time i j ∧
    2 ≤ backoff_time i j ∧ backoff_time i j < (2 : ℚ) ^ i + 1 ∧
    (4 ≤ i → backoff_time i j = 10) ∧
    (∀ (cv : OpenCV) (svc : TileService) (retry_count x y : Int) (panoid : String) (zoom : Int),
      ((download_tile cv svc retry_count x y panoid zoom).2 = [] ∨
        (download_tile cv svc retry_count x y panoid zoom).2.head? = some (Event.request 0)) ∧
      ∀ d, Event.sleep d ∈ (download_tile cv svc retry_count x y panoid zoom).2 →
        ∃ k, 1 ≤ k ∧ d = backoff_time k (svc.jitter ⟨panoid, zoom, x, y⟩ k)) := by
  have hpow : (2 : ℚ) ^ 1 ≤ 2 ^ i := pow_le_pow_right₀ (by norm_num) hi
  rw [pow_one] at hpow
  refine ⟨le_min (by linarith) (by norm_num), min_le_right _ _,
    min_le_min (by linarith) le_rfl, le_min (by linarith) (by norm_num),
    lt_of_le_of_lt (min_le_left _ _) (by linarith), ?_, ?_⟩
  · intro h4
    have h16 : (2 : ℚ) ^ 4 ≤ 2 ^ i := pow_le_pow_right₀ (by norm_num) h4
    unfold backoff_time
    apply min_eq_right
    norm_num at h16
    linarith
  · intro cv svc retry_count x y panoid zoom
    unfold download_tile
    cases svc.curl_ok ⟨panoid, zoom, x, y⟩
    · exact ⟨Or.inl rfl, fun d h => by simp at h⟩
    · exact ⟨download_attempts_first _ _ _ _ _ _, fun d h => download_attempts_sleeps _ _ _ _ _ _ 0 d h⟩

/-- Witness for C7: attempt 2 with jitter one half stays within the bounds, and
attempt 5 sleeps exactly 10 seconds. -/
theorem backoff_time_bounds_witness :
    (0 ≤ backoff_time 2 (1 / 2) ∧ backoff_time 2 (1 / 2) ≤ 10 ∧
      min ((2 : ℚ) ^ 2) 10 ≤ backoff_time 2 (1 / 2)) ∧
    backoff_time 5 (1 / 2) = 10 :=
  ⟨⟨(backoff_time_bounds 2 (1 / 2) (by decide) (by norm_num) (by norm_num)).1,
    (backoff_time_bounds 2 (1 / 2) (by decide) (by norm_num) (by norm_num)).2.1,
    (backoff_time_bounds 2 (1 / 2) (by decide) (by norm_num) (by norm_num)).2.2.1⟩,
   (backoff_time_bounds 5 (1 / 2) (by decide) (by norm_num) (by norm_num)).2.2.2.2.2.1
    (by decide)⟩

/-- The order `key_lt` is the lexicographic order on pairs. -/
theorem key_lt_iff (a b : Int × Int) :
    key_lt a b = true ↔ a.1 < b.1 ∨ (a.1 = b.1 ∧ a.2 < b.2) := by
  unfold key_lt
  simp only [Bool.or_eq_true, Bool.and_eq_true, Bool.not_eq_true', decide_eq_true_eq,
    decide_eq_false_iff_not]
  constructor
  · rintro (h | ⟨h1, h2⟩)
    · exact Or.inl h
    · rcases lt_or_eq_of_le (not_lt.mp h1) with h | h
      · exact Or.inl h
      · exact Or.inr ⟨h, h2⟩
  · rintro (h | ⟨h1, h2⟩)
    · exact Or.inl h
    · exact Or.inr ⟨by omega, h2⟩

/-- Keys that are not ordered either way are equal. -/
theorem key_lt_trichotomy (a b : Int × Int) (h1 : key_lt a b = false) (h2 : key_lt b a = false) :
    a = b := by
  have n1 : ¬ (key_lt a b = true) := by simp [h1]
  have n2 : ¬ (key_lt b a = true) := by simp [h2]
  rw [key_lt_iff] at n1 n2
  have e1 : a.1 = b.1 := by omega
  have e2 : a.2 = b.2 := by omega
  exact Prod.ext e1 e2

/-- The order `key_lt` is transitive. -/
theorem key_lt_trans (a b c : Int × Int) (h1 : key_lt a b = true) (h2 : key_lt b c = true) :
    key_lt a c = true := by
  rw [key_lt_iff] at *
  omega

/-- The order `key_lt` is irreflexive. -/
theorem key_lt_irrefl (a : Int × Int) : key_lt a a = false := by
  have : ¬ (key_lt a a = true) := by rw [key_lt_iff]; omega
  simpa using this

/-- Looking up after `m[k] = img`. -/
theorem find_assign (m : TileMap) (k k' : Int × Int) (img : Mat) :
    TileMap.find (TileMap.assign m k img) k' =
      if k = k' then some img else TileMap.find m k' := by
  induction m with
  | nil => simp [TileMap.assign, TileMap.find]
  | cons e rest ih =>
    obtain ⟨ke, v⟩ := e
    simp only [TileMap.assign]
    by_cases h1 : key_lt k ke = true
    · simp only [h1, if_true, TileMap.find]
    · by_cases h2 : key_lt ke k = true
      · have hne : ke ≠ k := by
          rintro rfl
          simp [key_lt_irrefl] at h2
        simp only [h1, h2, if_true, if_false, TileMap.find, ih]
        by_cases h3 : k = k'
        · subst h3; simp [hne]
        · simp [h3]
      · have : k = ke := key_lt_trichotomy k ke (by simpa using h1) (by simpa using h2)
        subst this
        simp only [h1, h2, if_false, TileMap.find]
        by_cases h3 : k = k'
        · simp [h3]
        · simp [h3]

/-- Number of submitted tasks. -/
theorem grid_tasks_length (max_x max_y : Int) :
    (grid_tasks max_x max_y).length = max_x.toNat * max_y.toNat := by
  simp [grid_tasks, List.length_flatMap, Function.comp_def]

/-- The submitted tasks are the coordinates of the grid. -/
theorem mem_grid_tasks (max_x max_y : Int) (k : Int × Int) :
    k ∈ grid_tasks max_x max_y ↔ 0 ≤ k.1 ∧ k.1 < max_x ∧ 0 ≤ k.2 ∧ k.2 < max_y := by
  obtain ⟨x, y⟩ := k
  simp only [grid_tasks, List.mem_flatMap, List.mem_map, List.mem_range, Prod.mk.injEq]
  constructor
  · rintro ⟨a, ha, b, hb, rfl, rfl⟩
    omega
  · rintro ⟨h1, h2, h3, h4⟩
    exact ⟨x.toNat, by omega, y.toNat, by omega, by omega, by omega⟩

/-- No coordinate is submitted twice. -/
theorem grid_tasks_nodup (max_x max_y : Int) : (grid_tasks max_x max_y).Nodup := by
  unfold grid_tasks
  rw [List.nodup_flatMap]
  constructor
  · intro x _
    apply List.Nodup.map _ (List.nodup_range _)
    intro a b h
    simpa using h
  · apply List.Pairwise.imp _ (List.nodup_range _)
    intro a b hab
    simp only [Function.onFun, List.disjoint_left, List.mem_map, List.mem_range]
    rintro ⟨x, y⟩ ⟨c, _, hc⟩ ⟨d, _, hd⟩
    simp only [Prod.mk.injEq] at hc hd
    omega

/-- The collection loop counts every future. -/
theorem collect_tiles_completed (ts : List Tile) : ∀ (m : TileMap) (n : Nat),
    (collect_tiles ts (m, n)).2 = n + ts.length := by
  induction ts with
  | nil => intro m n; rfl
  | cons t rest ih =>
    intro m n
    simp only [collect_tiles, ih, List.length_cons]
    omega

/-- The map after the collection loop, for futures that carry the coordinates
they were submitted for. -/
theorem collect_tiles_find (f : Int × Int → Tile) (hx : ∀ c, (f c).x = c.1)
    (hy : ∀ c, (f c).y = c.2) (l : List (Int × Int)) (k : Int × Int) :
    ∀ (m : TileMap) (n : Nat),
    TileMap.find (collect_tiles (l.map f) (m, n)).1 k =
      if k ∈ l ∧ (f k).valid = true then some (f k).image else TileMap.find m k := by
  induction l with
  | nil => intro m n; simp [collect_tiles]
  | cons c rest ih =>
    intro m n
    simp only [List.map_cons, collect_tiles, ih, List.mem_cons]
    by_cases h1 : k ∈ rest ∧ (f k).valid = true
    · have h2 : (k = c ∨ k ∈ rest) ∧ (f k).valid = true := ⟨Or.inr h1.1, h1.2⟩
      rw [if_pos h1, if_pos h2]
    · rw [if_neg h1]
      by_cases hv : (f c).valid = true
      · rw [if_pos hv, find_assign, hx, hy]
        by_cases hk : c = k
        · subst hk
          simp [hv]
        · have hk' : ¬ (k = c) := fun h => hk h.symm
          have : ¬ ((k = c ∨ k ∈ rest) ∧ (f k).valid = true) := by
            rintro ⟨h | h, h'⟩
            · exact hk' h
            · exact h1 ⟨h, h'⟩
          rw [if_neg this, if_neg hk]
      · rw [if_neg hv]
        have : ¬ ((k = c ∨ k ∈ rest) ∧ (f k).valid = true) := by
          rintro ⟨h | h, h'⟩
          · subst h; exact hv h'
          · exact h1 ⟨h, h'⟩
        rw [if_neg this]

/-- A key is in the map exactly when looking it up succeeds. -/
theorem mem_keys_iff (m : TileMap) (k : Int × Int) :
    k ∈ m.keys ↔ (TileMap.find m k).isSome = true := by
  induction m with
  | nil => simp [TileMap.keys, TileMap.find]
  | cons e rest ih =>
    obtain ⟨ke, v⟩ := e
    simp only [TileMap.keys, List.map_cons, List.mem_cons, TileMap.find] at ih ⊢
    by_cases h : ke = k
    · simp [h]
    · have h' : ¬ (k = ke) := fun e => h e.symm
      simp [h, h', ih]

/-- The keys after `m[k] = img` are `k` and the keys of `m`. -/
theorem keys_assign (m : TileMap) (k : Int × Int) (img : Mat) (k' : Int × Int) :
    k' ∈ (TileMap.assign m k img).keys ↔ k' = k ∨ k' ∈ m.keys := by
  rw [mem_keys_iff, mem_keys_iff, find_assign]
  by_cases h : k = k'
  · simp [h]
  · have h' : ¬ (k' = k) := fun e => h e.symm
    simp [h, h']

/-- The assignment `m[k] = img` keeps the keys strictly increasing. -/
theorem assign_wf (m : TileMap) (k : Int × Int) (img : Mat) (h : TileMap.WF m) :
    TileMap.WF (TileMap.assign m k img) := by
  induction m with
  | nil => simp [TileMap.assign, TileMap.WF]
  | cons e rest ih =>
    obtain ⟨ke, v⟩ := e
    unfold TileMap.WF at h ih ⊢
    rw [List.pairwise_cons] at h
    simp only [TileMap.assign]
    by_cases h1 : key_lt k ke = true
    · rw [if_pos h1]
      refine List.pairwise_cons.mpr ⟨?_, List.pairwise_cons.mpr h⟩
      intro e he
      rcases List.mem_cons.mp he with rfl | he
      · exact h1
      · exact key_lt_trans _ _ _ h1 (h.1 e he)
    · rw [if_neg h1]
      by_cases h2 : key_lt ke k = true
      · rw [if_pos h2]
        refine List.pairwise_cons.mpr ⟨?_, ih h.2⟩
        intro e he
        have hk : e.1 ∈ (TileMap.assign rest k img).keys := List.mem_map_of_mem _ he
        rcases (keys_assign rest k img e.1).mp hk with hk | hk
        · rw [hk]; exact h2
        · obtain ⟨e', he', hee⟩ := List.mem_map.mp hk
          rw [← hee]
          exact h.1 e' he'
      · rw [if_neg h2]
        exact List.pairwise_cons.mpr ⟨h.1, h.2⟩

/-- The collection loop keeps the keys strictly increasing. -/
theorem collect_tiles_wf (ts : List Tile) : ∀ (m : TileMap) (n : Nat), TileMap.WF m →
    TileMap.WF (collect_tiles ts (m, n)).1 := by
  induction ts with
  | nil => intro m n h; exact h
  | cons t rest ih =>
    intro m n h
    simp only [collect_tiles]
    apply ih
    split_ifs
    · exact assign_wf _ _ _ h
    · exact h

/-- The tile of `download_tile` is tagged with the requested coordinates, with
or without a curl handle. -/
theorem download_tile_tag (cv : OpenCV) (svc : TileService) (retry_count x y : Int)
    (panoid : String) (zoom : Int) :
    (download_tile cv svc retry_count x y panoid zoom).1.x = x ∧
    (download_tile cv svc retry_count x y panoid zoom).1.y = y := by
  unfold download_tile
  cases svc.curl_ok ⟨panoid, zoom, x, y⟩
  · exact ⟨rfl, rfl⟩
  · exact download_attempts_tag _ _ _ _ _ _ 0

/-- The map and the counter of `download_tiles_parallel` are collected from the
tiles its tasks return. -/
theorem download_tiles_parallel_collected (cv : OpenCV) (svc : TileService) (retry_count : Int)
    (panoid : String) (zoom max_x max_y : Int) :
    (download_tiles_parallel cv svc retry_count panoid zoom max_x max_y).result =
      (collect_tiles
        ((grid_tasks max_x max_y).map fun c =>
          (download_tile cv svc retry_count c.1 c.2 panoid zoom).1) ([], 0)).1 ∧
    (download_tiles_parallel cv svc retry_count panoid zoom max_x max_y).completed =
      (collect_tiles
        ((grid_tasks max_x max_y).map fun c =>
          (download_tile cv svc retry_count c.1 c.2 panoid zoom).1) ([], 0)).2 := by
  unfold download_tiles_parallel
  simp only [List.map_map]
  exact ⟨rfl, rfl⟩

/-- C8: run in submission order, `download_tiles_parallel` submits exactly
`max_x * max_y` tasks, one per grid coordinate and none twice, collects as many
results, and returns a well-formed map whose keys are exactly the coordinates
whose `download_tile` returned a valid tile, each mapped to that tile's image. -/
theorem download_tiles_parallel_grid (cv : OpenCV) (svc : TileService) (retry_count : Int)
    (panoid : String) (zoom max_x max_y : Int) (hx : 0 ≤ max_x) (hy : 0 ≤ max_y) :
    ((download_tiles_parallel cv svc retry_count panoid zoom max_x max_y).submitted.length : Int)
      = max_x * max_y ∧
    (∀ k : Int × Int,
      k ∈ (download_tiles_parallel cv svc retry_count panoid zoom max_x max_y).submitted ↔
        0 ≤ k.1 ∧ k.1 < max_x ∧ 0 ≤ k.2 ∧ k.2 < max_y) ∧
    (download_tiles_parallel cv svc retry_count panoid zoom max_x max_y).submitted.Nodup ∧
    (download_tiles_parallel cv svc retry_count panoid zoom max_x max_y).completed =
      (download_tiles_parallel cv svc retry_count panoid zoom max_x max_y).submitted.length ∧
    (∀ k : Int × Int,
      k ∈ (download_tiles_parallel cv svc retry_count panoid zoom max_x max_y).result.keys ↔
        (0 ≤ k.1 ∧ k.1 < max_x ∧ 0 ≤ k.2 ∧ k.2 < max_y) ∧
        (download_tile cv svc retry_count k.1 k.2 panoid zoom).1.valid = true) ∧
    (∀ k : Int × Int,
      k ∈ (download_tiles_parallel cv svc retry_count panoid zoom max_x max_y).result.keys →
      TileMap.find (download_tiles_parallel cv svc retry_count panoid zoom max_x max_y).result k
        = some (download_tile cv svc retry_count k.1 k.2 panoid zoom).1.image) ∧
    TileMap.WF (download_tiles_parallel cv svc retry_count panoid zoom max_x max_y).result := by
  have hfind : ∀ k : Int × Int,
      TileMap.find (download_tiles_parallel cv svc retry_count panoid zoom max_x max_y).result k
        = if k ∈ grid_tasks max_x max_y ∧
            (download_tile cv svc retry_count k.1 k.2 panoid zoom).1.valid = true then
          some (download_tile cv svc retry_count k.1 k.2 panoid zoom).1.image
        else none := by
    intro k
    rw [(download_tiles_parallel_collected cv svc retry_count panoid zoom max_x max_y).1]
    exact collect_tiles_find
      (fun c => (download_tile cv svc retry_count c.1 c.2 panoid zoom).1)
      (fun c => (download_tile_tag cv svc retry_count c.1 c.2 panoid zoom).1)
      (fun c => (download_tile_tag cv svc retry_count c.1 c.2 panoid zoom).2)
      (grid_tasks max_x max_y) k [] 0
  refine ⟨?_, mem_grid_tasks max_x max_y, grid_tasks_nodup max_x max_y, ?_, ?_, ?_, ?_⟩
  · show ((grid_tasks max_x max_y).length : Int) = max_x * max_y
    rw [grid_tasks_length]
    push_cast
    rw [Int.toNat_of_nonneg hx, Int.toNat_of_nonneg hy]
  · rw [(download_tiles_parallel_collected cv svc retry_count panoid zoom max_x max_y).2,
      collect_tiles_completed]
    simp
    rfl
  · intro k
    rw [mem_keys_iff, hfind k, ← mem_grid_tasks max_x max_y k]
    split_ifs with h
    · simpa using h
    · simpa using h
  · intro k hk
    rw [mem_keys_iff, hfind k] at hk
    rw [hfind k]
    split_ifs with h
    · rfl
    · rw [if_neg h] at hk
      simp at hk
  · rw [(download_tiles_parallel_collected cv svc retry_count panoid zoom max_x max_y).1]
    exact collect_tiles_wf _ [] 0 List.Pairwise.nil

/-- Witness for C8: a 2 x 3 grid on a service that answers at once. -/
theorem download_tiles_parallel_grid_witness :
    ((download_tiles_parallel sample_cv (flaky_service 0) 3 "pano" 4 2 3).submitted.length : Int)
      = 2 * 3 ∧
    (download_tiles_parallel sample_cv (flaky_service 0) 3 "pano" 4 2 3).completed =
      (download_tiles_parallel sample_cv (flaky_service 0) 3 "pano" 4 2 3).submitted.length :=
  ⟨(download_tiles_parallel_grid sample_cv (flaky_service 0) 3 "pano" 4 2 3
      (by decide) (by decide)).1,
   (download_tiles_parallel_grid sample_cv (flaky_service 0) 3 "pano" 4 2 3
      (by decide) (by decide)).2.2.2.1⟩

/-- The column of a rectangle of width `t` that contains pixel `p`. -/
theorem roi_contains_iff (x : Int) (p t : Nat) (ht : 0 < t) :
    (x * (t : Int) ≤ (p : Int) ∧ (p : Int) < x * (t : Int) + (t : Int)) ↔
      x = ((p / t : Nat) : Int) := by
  have htz : (0 : Int) < (t : Int) := by exact_mod_cast ht
  have e1 : x * (t : Int) ≤ (p : Int) ↔ x ≤ (p : Int) / (t : Int) :=
    (Int.le_ediv_iff_mul_le htz).symm
  have e2 : (p : Int) < x * (t : Int) + (t : Int) ↔ (p : Int) / (t : Int) < x + 1 := by
    rw [Int.ediv_lt_iff_lt_mul htz]
    constructor <;> intro h <;> linarith
  rw [e1, e2, Int.natCast_div]
  omega

/-- The offset of pixel `p` inside its rectangle of width `t`. -/
theorem roi_offset (p t : Nat) :
    ((p : Int) - ((p / t : Nat) : Int) * (t : Int)).toNat = p % t := by
  have h := Nat.div_add_mod p t
  have h2 : ((p / t : Nat) : Int) * (t : Int) = ((t * (p / t) : Nat) : Int) := by
    push_cast; ring
  rw [h2]
  omega

/-- Pasting a tile keeps the size of the canvas. -/
theorem paste_tile_size (cv : OpenCV) (labels : Bool) (z tw th : Int) (c : Mat)
    (e : (Int × Int) × Mat) :
    (paste_tile cv labels z tw th c e).rows = c.rows ∧
    (paste_tile cv labels z tw th c e).cols = c.cols := by
  unfold paste_tile copy_to_roi
  dsimp only
  split_ifs <;> exact ⟨rfl, rfl⟩

/-- The paste loop keeps the size of the canvas. -/
theorem foldl_paste_size (cv : OpenCV) (labels : Bool) (z tw th : Int) (l : TileMap) :
    ∀ c : Mat,
    (l.foldl (paste_tile cv labels z tw th) c).rows = c.rows ∧
    (l.foldl (paste_tile cv labels z tw th) c).cols = c.cols := by
  induction l with
  | nil => intro c; exact ⟨rfl, rfl⟩
  | cons e rest ih =>
    intro c
    rw [List.foldl_cons]
    exact ⟨(ih _).1.trans (paste_tile_size cv labels z tw th c e).1,
      (ih _).2.trans (paste_tile_size cv labels z tw th c e).2⟩

/-- Size of the stitched canvas in terms of the first entry of the map. -/
theorem stitch_panorama_size_cons (cv : OpenCV) (labels : Bool) (k : Int × Int) (t : Mat)
    (rest : TileMap) (max_x max_y z : Int) :
    (stitch_panorama cv labels ((k, t) :: rest) max_x max_y z).rows
      = (max_y * (t.rows : Int)).toNat ∧
    (stitch_panorama cv labels ((k, t) :: rest) max_x max_y z).cols
      = (max_x * (t.cols : Int)).toNat := by
  unfold stitch_panorama
  exact foldl_paste_size cv labels z _ _ _ _

/-- In a well-formed map the first entry is the only one whose key is minimal. -/
theorem wf_min_is_head (e : (Int × Int) × Mat) (rest : TileMap) (h : TileMap.WF (e :: rest))
    (k0 : Int × Int) (t0 : Mat) (hmem : (k0, t0) ∈ e :: rest)
    (hmin : ∀ e' ∈ e :: rest, e'.1 = k0 ∨ key_lt k0 e'.1 = true) : e = (k0, t0) := by
  unfold TileMap.WF at h
  rw [List.pairwise_cons] at h
  rcases List.mem_cons.mp hmem with heq | hin
  · exact heq.symm
  · exfalso
    have h1 : key_lt e.1 k0 = true := h.1 (k0, t0) hin
    rcases hmin e (List.mem_cons_self _ _) with h2 | h2
    · rw [h2, key_lt_irrefl] at h1
      exact Bool.false_ne_true h1
    · have := key_lt_trans _ _ _ h1 h2
      rw [key_lt_irrefl] at this
      exact Bool.false_ne_true this

/-- With labels disabled the paste loop never throws, and with labels enabled
it does not throw when the first tile, whose size is the cell size, is at least
125 x 50: then the label box of a pasted tile lies inside its cell. -/
theorem stitch_panorama_throws_spec (labels : Bool) (max_x max_y : Int) :
    (∀ tiles : TileMap, stitch_panorama_throws false tiles max_x max_y = false) ∧
    (∀ (k : Int × Int) (t : Mat) (rest : TileMap), 125 ≤ t.cols → 50 ≤ t.rows →
      stitch_panorama_throws labels ((k, t) :: rest) max_x max_y = false) := by
  constructor
  · intro tiles
    cases tiles with
    | nil => rfl
    | cons e rest =>
      obtain ⟨k, t⟩ := e
      unfold stitch_panorama_throws
      dsimp only
      rw [List.any_eq_false]
      intro e _
      simp [paste_tile_throws]
  · intro k t rest hc hr
    unfold stitch_panorama_throws
    dsimp only
    rw [List.any_eq_false]
    intro e _
    unfold paste_tile_throws
    dsimp only
    split_ifs with h1 h2
    · obtain ⟨g1, g2, g3, g4⟩ := h1
      have hc2 : (125 : Int) ≤ (t.cols : Int) := by exact_mod_cast hc
      have hr2 : (50 : Int) ≤ (t.rows : Int) := by exact_mod_cast hr
      simp only [ge_iff_le] at g1 g2
      have hin : label_box_inside
          ⟨(max_y * (t.rows : Int)).toNat, (max_x * (t.cols : Int)).toNat, fun _ _ => magenta⟩
          (e.1.1 * (t.cols : Int)) (e.1.2 * (t.rows : Int)) = true := by
        unfold label_box_inside
        simp only [Bool.and_eq_true, decide_eq_true_eq]
        exact ⟨⟨⟨by omega, by omega⟩, by omega⟩, by omega⟩
      rw [hin]
      simp
    · simp
    · simp

/-- C9 (the part the code satisfies, and where it fails): whenever
`stitch_panorama` returns, that is unless a label box leaves the canvas, it
returns for a non-empty (well-formed) tile map and a grid `max_x` x `max_y` a
canvas `max_x * tile_w` wide and `max_y * tile_h` high, `tile_w` x `tile_h` being
the size of the tile with the smallest key; it returns whenever labels are
disabled, and with labels enabled when that tile is at least 125 x 50; for the
empty map it returns the empty `Mat`.  With labels enabled, the valid 10 x 10
tile at (0, 0) and a 1 x 1 grid it throws instead of returning a canvas. -/
theorem stitch_panorama_size (cv : OpenCV) (labels : Bool) (max_x max_y z : Int)
    (hx : 0 ≤ max_x) (hy : 0 ≤ max_y) :
    (∀ (tiles : TileMap) (k0 : Int × Int) (t0 : Mat), TileMap.WF tiles → (k0, t0) ∈ tiles →
      (∀ e ∈ tiles, e.1 = k0 ∨ key_lt k0 e.1 = true) →
      stitch_panorama_throws labels tiles max_x max_y = false →
      ((stitch_panorama cv labels tiles max_x max_y z).cols : Int) = max_x * (t0.cols : Int) ∧
      ((stitch_panorama cv labels tiles max_x max_y z).rows : Int) = max_y * (t0.rows : Int)) ∧
    (∀ tiles : TileMap, stitch_panorama_throws false tiles max_x max_y = false) ∧
    (∀ (tiles : TileMap) (k0 : Int × Int) (t0 : Mat), TileMap.WF tiles → (k0, t0) ∈ tiles →
      (∀ e ∈ tiles, e.1 = k0 ∨ key_lt k0 e.1 = true) → 125 ≤ t0.cols → 50 ≤ t0.rows →
      stitch_panorama_throws labels tiles max_x max_y = false) ∧
    stitch_panorama_throws labels [] max_x max_y = false ∧
    (stitch_panorama cv labels [] max_x max_y z).empty = true ∧
    (stitch_panorama cv labels [] max_x max_y z).cols = 0 ∧
    (stitch_panorama cv labels [] max_x max_y z).rows = 0 ∧
    is_valid_tile sample_cv small_tile = true ∧
    stitch_panorama_throws true [((0, 0), small_tile)] 1 1 = true := by
  refine ⟨?_, (stitch_panorama_throws_spec labels max_x max_y).1, ?_, rfl, rfl, rfl, rfl, ?_, ?_⟩
  · intro tiles k0 t0 hwf hmem hmin _
    cases tiles with
    | nil => simp at hmem
    | cons e rest =>
      have he := wf_min_is_head e rest hwf k0 t0 hmem hmin
      subst he
      have hs := stitch_panorama_size_cons cv labels k0 t0 rest max_x max_y z
      rw [hs.1, hs.2]
      have h1 : 0 ≤ max_x * (t0.cols : Int) := mul_nonneg hx (Int.ofNat_nonneg _)
      have h2 : 0 ≤ max_y * (t0.rows : Int) := mul_nonneg hy (Int.ofNat_nonneg _)
      exact ⟨Int.toNat_of_nonneg h1, Int.toNat_of_nonneg h2⟩
  · intro tiles k0 t0 hwf hmem hmin hc hr
    cases tiles with
    | nil => simp at hmem
    | cons e rest =>
      have he := wf_min_is_head e rest hwf k0 t0 hmem hmin
      subst he
      exact (stitch_panorama_throws_spec labels max_x max_y).2 k0 t0 rest hc hr
  · norm_num [is_valid_tile, sample_cv, small_tile, Mat.empty]
  · decide

/-- Witness for C9: two 512x512 tiles on a 2 x 1 grid give a 1024 x 512 canvas. -/
theorem stitch_panorama_size_witness :
    ((stitch_panorama sample_cv false [((0, 0), grey_tile), ((1, 0), grey_tile)] 2 1 4).cols : Int)
      = 2 * (grey_tile.cols : Int) ∧
    ((stitch_panorama sample_cv false [((0, 0), grey_tile), ((1, 0), grey_tile)] 2 1 4).rows : Int)
      = 1 * (grey_tile.rows : Int) :=
  (stitch_panorama_size sample_cv false 2 1 4 (by decide) (by decide)).1
    [((0, 0), grey_tile), ((1, 0), grey_tile)] (0, 0) grey_tile
    (by unfold TileMap.WF; decide) (List.mem_cons_self _ _) (by decide) (by decide)

/-- One paste without labels, seen from a canvas pixel: the pixel is taken from
the tile exactly when the tile's key is the pixel's grid cell. -/
theorem paste_tile_px (cv : OpenCV) (z : Int) (tw th mx my : Nat) (c : Mat)
    (hc : c.cols = mx * tw) (hr : c.rows = my * th) (k : Int × Int) (t : Mat)
    (htc : t.cols = tw) (htr : t.rows = th) (px py : Nat) (hpx : px < mx * tw)
    (hpy : py < my * th) :
    (paste_tile cv false z tw th c (k, t)).px py px =
      if k = (((px / tw : Nat) : Int), ((py / th : Nat) : Int)) then t.px (py % th) (px % tw)
      else c.px py px := by
  have htw : 0 < tw := Nat.pos_of_ne_zero (by rintro rfl; simp at hpx)
  have hth : 0 < th := Nat.pos_of_ne_zero (by rintro rfl; simp at hpy)
  obtain ⟨kx, ky⟩ := k
  have hkx := roi_contains_iff kx px tw htw
  have hky := roi_contains_iff ky py th hth
  unfold paste_tile copy_to_roi
  simp only [htc, htr, and_self, if_true, Bool.false_eq_true, if_false]
  by_cases hk : (kx, ky) = (((px / tw : Nat) : Int), ((py / th : Nat) : Int))
  · rw [if_pos hk]
    simp only [Prod.mk.injEq] at hk
    obtain ⟨h1, h2⟩ := hk
    have g1 := hkx.mpr h1
    have g2 := hky.mpr h2
    have hqx : px / tw < mx := Nat.div_lt_of_lt_mul (by rw [Nat.mul_comm]; exact hpx)
    have hqy : py / th < my := Nat.div_lt_of_lt_mul (by rw [Nat.mul_comm]; exact hpy)
    have b1 : kx * (tw : Int) + (tw : Int) ≤ ((c.cols : Nat) : Int) := by
      rw [hc, h1]
      have : (px / tw + 1) * tw ≤ mx * tw := Nat.mul_le_mul_right tw hqx
      have : (((px / tw + 1) * tw : Nat) : Int) ≤ ((mx * tw : Nat) : Int) := by exact_mod_cast this
      push_cast at this ⊢
      linarith
    have b2 : ky * (th : Int) + (th : Int) ≤ ((c.rows : Nat) : Int) := by
      rw [hr, h2]
      have : (py / th + 1) * th ≤ my * th := Nat.mul_le_mul_right th hqy
      have : (((py / th + 1) * th : Nat) : Int) ≤ ((my * th : Nat) : Int) := by exact_mod_cast this
      push_cast at this ⊢
      linarith
    have b3 : kx * (tw : Int) ≥ 0 := by
      rw [h1]; positivity
    have b4 : ky * (th : Int) ≥ 0 := by
      rw [h2]; positivity
    rw [if_pos ⟨b3, b4, b1, b2⟩]
    simp only
    rw [if_pos ⟨g2.1, g2.2, g1.1, g1.2⟩, h1, h2, roi_offset, roi_offset]
  · rw [if_neg hk]
    have hout : ¬ (ky * (th : Int) ≤ (py : Int) ∧ (py : Int) < ky * (th : Int) + (th : Int) ∧
        kx * (tw : Int) ≤ (px : Int) ∧ (px : Int) < kx * (tw : Int) + (tw : Int)) := by
      rintro ⟨a1, a2, a3, a4⟩
      exact hk (Prod.ext (hkx.mp ⟨a3, a4⟩) (hky.mp ⟨a1, a2⟩))
    split_ifs with hg
    · simp only
      rw [if_neg hout]
    · rfl

/-- Looking up a key that is not in the map. -/
theorem find_eq_none (m : TileMap) (k : Int × Int) (h : k ∉ m.keys) :
    TileMap.find m k = none := by
  rw [mem_keys_iff] at h
  simpa using h

/-- A well-formed map has no key twice. -/
theorem wf_head_not_in_rest (e : (Int × Int) × Mat) (rest : TileMap)
    (h : TileMap.WF (e :: rest)) : e.1 ∉ TileMap.keys rest ∧ TileMap.WF rest := by
  unfold TileMap.WF at h ⊢
  rw [List.pairwise_cons] at h
  refine ⟨?_, h.2⟩
  intro hin
  obtain ⟨e', he', hee⟩ := List.mem_map.mp hin
  have := h.1 e' he'
  rw [hee, key_lt_irrefl] at this
  exact Bool.false_ne_true this

/-- The paste loop without labels, seen from a canvas pixel. -/
theorem foldl_paste_px (cv : OpenCV) (z : Int) (tw th mx my : Nat) (px py : Nat)
    (hpx : px < mx * tw) (hpy : py < my * th) (l : TileMap) :
    TileMap.WF l → (∀ e ∈ l, e.2.cols = tw ∧ e.2.rows = th) →
    ∀ c : Mat, c.cols = mx * tw → c.rows = my * th →
    (l.foldl (paste_tile cv false z tw th) c).px py px =
      match TileMap.find l (((px / tw : Nat) : Int), ((py / th : Nat) : Int)) with
      | some t => t.px (py % th) (px % tw)
      | none => c.px py px := by
  induction l with
  | nil => intro _ _ c _ _; rfl
  | cons e rest ih =>
    intro hwf hsize c hc hr
    obtain ⟨k, t⟩ := e
    have hw := wf_head_not_in_rest (k, t) rest hwf
    have hst := hsize (k, t) (List.mem_cons_self _ _)
    have hsz := paste_tile_size cv false z tw th c (k, t)
    rw [List.foldl_cons,
      ih hw.2 (fun e he => hsize e (List.mem_cons_of_mem _ he)) _
        (hsz.2.trans hc) (hsz.1.trans hr),
      paste_tile_px cv z tw th mx my c hc hr k t hst.1 hst.2 px py hpx hpy]
    simp only [TileMap.find]
    by_cases hk : k = (((px / tw : Nat) : Int), ((py / th : Nat) : Int))
    · rw [if_pos hk, if_pos hk, find_eq_none rest _ (hk ▸ hw.1)]
    · rw [if_neg hk, if_neg hk]

/-- A tile whose key is outside the grid is not pasted. -/
theorem paste_tile_outside (cv : OpenCV) (z : Int) (tw th : Nat) (max_x max_y : Int)
    (htw : 0 < tw) (hth : 0 < th) (c : Mat)
    (hc : c.cols = (max_x * (tw : Int)).toNat) (hr : c.rows = (max_y * (th : Int)).toNat)
    (labels : Bool) (k : Int × Int) (t : Mat)
    (hout : ¬ (0 ≤ k.1 ∧ k.1 < max_x ∧ 0 ≤ k.2 ∧ k.2 < max_y)) :
    paste_tile cv labels z tw th c (k, t) = c := by
  have htz : (0 : Int) < (tw : Int) := by exact_mod_cast htw
  have hhz : (0 : Int) < (th : Int) := by exact_mod_cast hth
  unfold paste_tile
  dsimp only
  rw [if_neg]
  rintro ⟨g1, g2, g3, g4⟩
  apply hout
  have k1 : 0 ≤ k.1 := by
    by_contra hneg
    have : k.1 * (tw : Int) < 0 := mul_neg_of_neg_of_pos (by omega) htz
    omega
  have k2 : 0 ≤ k.2 := by
    by_contra hneg
    have : k.2 * (th : Int) < 0 := mul_neg_of_neg_of_pos (by omega) hhz
    omega
  have p1 : 0 ≤ k.1 * (tw : Int) := mul_nonneg k1 htz.le
  have p2 : 0 ≤ k.2 * (th : Int) := mul_nonneg k2 hhz.le
  have c1 : (k.1 + 1) * (tw : Int) ≤ max_x * (tw : Int) := by
    have : ((c.cols : Nat) : Int) = max_x * (tw : Int) := by
      rw [hc]; apply Int.toNat_of_nonneg
      by_contra hneg
      have : (max_x * (tw : Int)).toNat = 0 := Int.toNat_eq_zero.mpr (by omega)
      rw [hc, this] at g3
      simp only [Nat.cast_zero] at g3
      omega
    rw [← this]
    linarith
  have c2 : (k.2 + 1) * (th : Int) ≤ max_y * (th : Int) := by
    have : ((c.rows : Nat) : Int) = max_y * (th : Int) := by
      rw [hr]; apply Int.toNat_of_nonneg
      by_contra hneg
      have : (max_y * (th : Int)).toNat = 0 := Int.toNat_eq_zero.mpr (by omega)
      rw [hr, this] at g4
      simp only [Nat.cast_zero] at g4
      omega
    rw [← this]
    linarith
  have d1 := le_of_mul_le_mul_right c1 htz
  have d2 := le_of_mul_le_mul_right c2 hhz
  exact ⟨k1, by omega, k2, by omega⟩

/-- C10: without debug labels and with all tiles of size `tw` x `th`, every
canvas pixel (px, py) of `stitch_panorama` equals the pixel (px mod tw,
py mod th) of the tile stored under (px div tw, py div th) when the map has
that key, and magenta (255, 0, 255) otherwise; pasting a tile whose key is
outside the `max_x` x `max_y` grid leaves the canvas as it is. -/
theorem stitch_panorama_pixels (cv : OpenCV) (tiles : TileMap) (max_x max_y z : Int)
    (tw th : Nat) (hwf : TileMap.WF tiles)
    (hsize : ∀ e ∈ tiles, e.2.cols = tw ∧ e.2.rows = th) :
    (∀ px py : Nat, px < (stitch_panorama cv false tiles max_x max_y z).cols →
      py < (stitch_panorama cv false tiles max_x max_y z).rows →
      (stitch_panorama cv false tiles max_x max_y z).px py px =
        match TileMap.find tiles (((px / tw : Nat) : Int), ((py / th : Nat) : Int)) with
        | some t => t.px (py % th) (px % tw)
        | none => magenta) ∧
    (∀ (canvas : Mat) (k : Int × Int) (t : Mat), 0 < tw → 0 < th →
      canvas.cols = (max_x * (tw : Int)).toNat → canvas.rows = (max_y * (th : Int)).toNat →
      ¬ (0 ≤ k.1 ∧ k.1 < max_x ∧ 0 ≤ k.2 ∧ k.2 < max_y) →
      paste_tile cv false z tw th canvas (k, t) = canvas) := by
  refine ⟨?_, fun canvas k t htw hth hc hr hout =>
    paste_tile_outside cv z tw th max_x max_y htw hth canvas hc hr false k t hout⟩
  intro px py hpx hpy
  cases tiles with
  | nil => simp [stitch_panorama, Mat.none] at hpx
  | cons e rest =>
    obtain ⟨k0, t0⟩ := e
    have hs := stitch_panorama_size_cons cv false k0 t0 rest max_x max_y z
    have ht0 := hsize (k0, t0) (List.mem_cons_self _ _)
    rw [hs.2, ht0.1] at hpx
    rw [hs.1, ht0.2] at hpy
    have hmx : 0 ≤ max_x := by
      by_contra hneg
      have : max_x * (tw : Int) ≤ 0 :=
        mul_nonpos_of_nonpos_of_nonneg (by omega) (Int.ofNat_nonneg _)
      have : (max_x * (tw : Int)).toNat = 0 := Int.toNat_eq_zero.mpr this
      omega
    have hmy : 0 ≤ max_y := by
      by_contra hneg
      have : max_y * (th : Int) ≤ 0 :=
        mul_nonpos_of_nonpos_of_nonneg (by omega) (Int.ofNat_nonneg _)
      have : (max_y * (th : Int)).toNat = 0 := Int.toNat_eq_zero.mpr this
      omega
    have ex : (max_x * (tw : Int)).toNat = max_x.toNat * tw := by
      have : max_x * (tw : Int) = ((max_x.toNat * tw : Nat) : Int) := by
        push_cast; rw [Int.toNat_of_nonneg hmx]
      rw [this, Int.toNat_natCast]
    have ey : (max_y * (th : Int)).toNat = max_y.toNat * th := by
      have : max_y * (th : Int) = ((max_y.toNat * th : Nat) : Int) := by
        push_cast; rw [Int.toNat_of_nonneg hmy]
      rw [this, Int.toNat_natCast]
    rw [ex] at hpx
    rw [ey] at hpy
    have ht0c : t0.cols = tw := ht0.1
    have ht0r : t0.rows = th := ht0.2
    unfold stitch_panorama
    simp only [ht0c, ht0r]
    exact foldl_paste_px cv z tw th max_x.toNat max_y.toNat px py hpx hpy ((k0, t0) :: rest) hwf
      hsize ⟨(max_y * (th : Int)).toNat, (max_x * (tw : Int)).toNat, fun _ _ => magenta⟩ ex ey

/-- Witness for C10: a 2 x 1 grid with only tile (0, 0) present; pixel (600, 3)
lies in the missing cell (1, 0) and is magenta, pixel (5, 3) comes from the tile. -/
theorem stitch_panorama_pixels_witness :
    (stitch_panorama sample_cv false [((0, 0), grey_tile)] 2 1 4).px 3 600 = magenta ∧
    (stitch_panorama sample_cv false [((0, 0), grey_tile)] 2 1 4).px 3 5 = (128, 128, 128) :=
  ⟨(stitch_panorama_pixels sample_cv [((0, 0), grey_tile)] 2 1 4 512 512
      (by unfold TileMap.WF; decide)
      (by intro e he; rw [List.mem_singleton] at he; subst he; exact ⟨rfl, rfl⟩)).1
      600 3 (by decide) (by decide),
   (stitch_panorama_pixels sample_cv [((0, 0), grey_tile)] 2 1 4 512 512
      (by unfold TileMap.WF; decide)
      (by intro e he; rw [List.mem_singleton] at he; subst he; exact ⟨rfl, rfl⟩)).1
      5 3 (by decide) (by decide)⟩

/-- C11: for generation 1, `crop_panorama` returns a panorama of width
min(w, 3328) and height min(h, 1664). -/
theorem crop_panorama_gen1 (panorama : Mat) :
    (crop_panorama panorama 1).cols = min panorama.cols 3328 ∧
    (crop_panorama panorama 1).rows = min panorama.rows 1664 :=
  ⟨rfl, rfl⟩

/-- C12: for a generation g >= 2, `crop_panorama` trims a panorama higher than
w/2 (integer division) to width w and height exactly w/2, and returns any other
panorama unchanged. -/
theorem crop_panorama_gen2 (panorama : Mat) (g : Int) (hg : 2 ≤ g) :
    (panorama.rows > panorama.cols / 2 →
      (crop_panorama panorama g).cols = panorama.cols ∧
      (crop_panorama panorama g).rows = panorama.cols / 2) ∧
    (¬ panorama.rows > panorama.cols / 2 → crop_panorama panorama g = panorama) := by
  have hg1 : ¬ g = 1 := by omega
  unfold crop_panorama
  simp only [hg1, if_false]
  constructor
  · intro h
    rw [if_pos h]
    exact ⟨rfl, rfl⟩
  · intro h
    rw [if_neg h]

/-- Witness for C12: a 1024 x 1000 panorama of generation 4 is trimmed to
1024 x 512, a 1024 x 512 one is returned as it is. -/
theorem crop_panorama_gen2_witness :
    ((crop_panorama (grey_canvas 1000 1024) 4).cols = (grey_canvas 1000 1024).cols ∧
      (crop_panorama (grey_canvas 1000 1024) 4).rows = (grey_canvas 1000 1024).cols / 2) ∧
    crop_panorama (grey_canvas 512 1024) 4 = grey_canvas 512 1024 :=
  ⟨(crop_panorama_gen2 (grey_canvas 1000 1024) 4 (by decide)).1 (by decide),
   (crop_panorama_gen2 (grey_canvas 512 1024) 4 (by decide)).2 (by decide)⟩

/-- C13: for every generation, `crop_panorama` never upscales and keeps the
top-left region: the output is at most as wide and as high as the input, and
every output pixel equals the input pixel at the same position. -/
theorem crop_panorama_top_left (panorama : Mat) (generation : Int) :
    (crop_panorama panorama generation).cols ≤ panorama.cols ∧
    (crop_panorama panorama generation).rows ≤ panorama.rows ∧
    (∀ x y : Nat, x < (crop_panorama panorama generation).cols →
      y < (crop_panorama panorama generation).rows →
      (crop_panorama panorama generation).px y x = panorama.px y x) := by
  unfold crop_panorama
  dsimp only
  split_ifs with h1 h2
  · exact ⟨Nat.min_le_left _ _, Nat.min_le_left _ _, fun _ _ _ _ => rfl⟩
  · exact ⟨le_refl _, le_of_lt h2, fun _ _ _ _ => rfl⟩
  · exact ⟨le_refl _, le_refl _, fun _ _ _ _ => rfl⟩

/-- Witness for C13: pixel (5, 3) of a cropped 1024 x 1000 panorama of
generation 2 is the pixel (5, 3) of the input. -/
theorem crop_panorama_top_left_witness :
    (crop_panorama (grey_canvas 1000 1024) 2).px 3 5 = (grey_canvas 1000 1024).px 3 5 :=
  (crop_panorama_top_left (grey_canvas 1000 1024) 2).2.2 5 3 (by decide) (by decide)

/-- The fixed horizontal FOV of 90 degrees is printed as `90.0`. -/
theorem fixed1_ninety : fixed1 90 = "90.0" := by
  have h : ((90 : ℚ) * 10 + 1 / 2).floor = 900 := by
    show ⌊((90 : ℚ) * 10 + 1 / 2)⌋ = 900
    rw [Int.floor_eq_iff]
    norm_num
  unfold fixed1
  simp only [h]
  rfl

/-- Appending to the same prefix keeps different suffixes different. -/
theorem append_left_ne (p a b : String) (h : a ≠ b) : p ++ a ≠ p ++ b := by
  intro hab
  apply h
  have hd := congrArg String.data hab
  simp only [String.data_append] at hd
  exact String.ext (List.append_cancel_left hd)

/-- The file names of the eight views. -/
theorem view_filenames (render : Mat → ℚ → ℚ → Mat) (jit : ViewJitter) (flag : Bool)
    (panorama : Mat) (panoid : String) (generation zoom : Int) :
    (create_directional_views_with_jitter render jit flag panorama panoid generation
        zoom).map DirectionalView.filename =
      [ panoid ++ "_View1_N_FOV90.0.jpg", panoid ++ "_View2_NE_FOV90.0.jpg",
        panoid ++ "_View3_E_FOV90.0.jpg", panoid ++ "_View4_SE_FOV90.0.jpg",
        panoid ++ "_View5_S_FOV90.0.jpg", panoid ++ "_View6_SW_FOV90.0.jpg",
        panoid ++ "_View7_W_FOV90.0.jpg", panoid ++ "_View8_NW_FOV90.0.jpg" ] := by
  have hr : List.range 8 = [0, 1, 2, 3, 4, 5, 6, 7] := by decide
  simp only [create_directional_views_with_jitter, hr, List.map_cons, List.map_nil,
    directional_view, fixed1_ninety, String.append_assoc]
  rfl

/-- C14: `create_directional_views_with_jitter` writes exactly eight files, the
i-th named `<scene_id>_View<i>_<label_i>_FOV90.0.jpg` with the labels N, NE, E,
SE, S, SW, W, NW in this order; the eight names are pairwise distinct. -/
theorem create_directional_views_files (render : Mat → ℚ → ℚ → Mat) (jit : ViewJitter)
    (include_gen_in_filename : Bool) (panorama : Mat) (panoid : String)
    (generation zoom : Int) :
    (create_directional_views_with_jitter render jit include_gen_in_filename panorama panoid
        generation zoom).length = 8 ∧
    (create_directional_views_with_jitter render jit include_gen_in_filename panorama panoid
        generation zoom).map DirectionalView.filename =
      [ panoid ++ "_View1_N_FOV90.0.jpg", panoid ++ "_View2_NE_FOV90.0.jpg",
        panoid ++ "_View3_E_FOV90.0.jpg", panoid ++ "_View4_SE_FOV90.0.jpg",
        panoid ++ "_View5_S_FOV90.0.jpg", panoid ++ "_View6_SW_FOV90.0.jpg",
        panoid ++ "_View7_W_FOV90.0.jpg", panoid ++ "_View8_NW_FOV90.0.jpg" ] ∧
    (create_directional_views_with_jitter render jit include_gen_in_filename panorama panoid
        generation zoom).map (fun v => (v.index, v.direction_name)) =
      [ (1, "N"), (2, "NE"), (3, "E"), (4, "SE"), (5, "S"), (6, "SW"), (7, "W"), (8, "NW") ] ∧
    ((create_directional_views_with_jitter render jit include_gen_in_filename panorama panoid
        generation zoom).map DirectionalView.filename).Nodup := by
  refine ⟨by simp [create_directional_views_with_jitter], view_filenames _ _ _ _ _ _ _, rfl, ?_⟩
  rw [view_filenames]
  have hsuf : (["_View1_N_FOV90.0.jpg", "_View2_NE_FOV90.0.jpg", "_View3_E_FOV90.0.jpg",
      "_View4_SE_FOV90.0.jpg", "_View5_S_FOV90.0.jpg", "_View6_SW_FOV90.0.jpg",
      "_View7_W_FOV90.0.jpg", "_View8_NW_FOV90.0.jpg"] : List String).Nodup := by decide
  have hmap := List.Nodup.map (f := fun s => panoid ++ s)
    (fun a b hab => by
      by_contra hne
      exact append_left_ne panoid a b hne hab) hsuf
  simpa using hmap

/-- The value of `fmod(t + 1, 1)` for `t` in [0, 1). -/
theorem fmod_add_one (t : ℝ) (h0 : 0 ≤ t) (h1 : t < 1) : fmod (t + 1) 1 = t := by
  unfold fmod
  have hpos : (0 : ℝ) ≤ (t + 1) / 1 := by rw [div_one]; linarith
  have hfl : ⌊(t + 1) / 1⌋ = 1 := by
    rw [div_one, Int.floor_eq_iff]
    constructor
    · push_cast; linarith
    · push_cast; linarith
  rw [if_pos hpos, hfl]
  push_cast
  ring

/-- C20: over the reals, with pitch = yaw = 0, a view direction d in [0, 2π), any
vertical FOV (in particular one in (0, π)) and an even positive output size, the
centre output pixel (x = y = output_size / 2) is mapped to u = d / (2π) * W and
v = H / 2. -/
theorem equirect_map_centre (pano_width pano_height : Nat) (d vfov : ℝ) (output_size : Int)
    (hd0 : 0 ≤ d) (hd1 : d < 2 * Real.pi)
    (hsize : 0 < output_size) (heven : output_size % 2 = 0) :
    equirect_map pano_width pano_height d vfov output_size 0 0
        (output_size / 2) (output_size / 2) =
      (d / (2 * Real.pi) * (pano_width : ℝ), (pano_height : ℝ) / 2) := by
  have hs : output_size = 2 * (output_size / 2) := by omega
  have hsr : (output_size : ℝ) = 2 * ((output_size / 2 : Int) : ℝ) := by
    exact_mod_cast hs
  have hne : (output_size : ℝ) ≠ 0 := by
    have : (0 : ℝ) < (output_size : ℝ) := by exact_mod_cast hsize
    exact ne_of_gt this
  have hone : 2 * ((output_size / 2 : Int) : ℝ) / (output_size : ℝ) = 1 := by
    rw [← hsr]; exact div_self hne
  have harg : atan2 0 1 = 0 := by
    unfold atan2
    have : (⟨1, 0⟩ : ℂ) = 1 := rfl
    rw [this, Complex.arg_one]
  have hpi : (0 : ℝ) < 2 * Real.pi := Real.two_pi_pos
  have hfm : fmod (d / (2 * Real.pi) + 1) 1 = d / (2 * Real.pi) :=
    fmod_add_one _ (div_nonneg hd0 hpi.le) ((div_lt_one hpi).mpr hd1)
  unfold equirect_map
  simp only [hone, sub_self, zero_mul, neg_zero, Real.cos_zero, Real.sin_zero, mul_zero,
    mul_one, sub_zero, zero_add, add_zero, Real.sqrt_one, zero_div, Real.arcsin_zero, harg,
    hfm, neg_zero, div_one]
  ext
  · rfl
  · simp only; ring

/-- Witness for C20: direction 0, vertical FOV π/2, a 512 x 512 output and a
1024 x 512 panorama. -/
theorem equirect_map_centre_witness :
    equirect_map 1024 512 0 (Real.pi / 2) 512 0 0 (512 / 2) (512 / 2) =
      (0 / (2 * Real.pi) * ((1024 : Nat) : ℝ), ((512 : Nat) : ℝ) / 2) :=
  equirect_map_centre 1024 512 0 (Real.pi / 2) 512 (le_refl 0) Real.two_pi_pos
    (by decide) (by decide)

/-- The conversion to `size_t` keeps a value in the non-negative `int` range. -/
theorem thread_pool_workers_nonneg (threads : Int) (h0 : 0 ≤ threads)
    (h1 : threads < 2 ^ 31) : (thread_pool_workers threads : Int) = threads := by
  unfold thread_pool_workers
  have hlt : threads < 2 ^ 64 := lt_trans h1 (by norm_num)
  rw [Int.emod_eq_of_lt h0 hlt, Int.toNat_of_nonneg h0]

/-- C18 (amended): during a run started through `run()` the pool has
min(max_total_threads, max(tile_thread_count, pano_thread_count)) workers (for a
value in the non-negative `int` range), whatever the host concurrency; the pools
built by the constructor and by `set_pano_thread_count`, both replaced by
`run()`, have min(max_total_threads, host_concurrency) workers. -/
theorem run_pool_size (cfg : ThreadSettings) (host_concurrency count : Int)
    (h0 : 0 ≤ min cfg.max_total_threads (max cfg.tile_thread_count cfg.pano_thread_count))
    (h1 : min cfg.max_total_threads (max cfg.tile_thread_count cfg.pano_thread_count) < 2 ^ 31)
    (g0 : 0 ≤ min cfg.max_total_threads host_concurrency)
    (g1 : min cfg.max_total_threads host_concurrency < 2 ^ 31) :
    (run_pool cfg : Int) =
      min cfg.max_total_threads (max cfg.tile_thread_count cfg.pano_thread_count) ∧
    ((set_pano_thread_count cfg host_concurrency count).2 : Int) =
      min cfg.max_total_threads host_concurrency ∧
    (0 ≤ host_concurrency → host_concurrency < 2 ^ 31 →
      (constructor_pool host_concurrency : Int) = min 512 host_concurrency) := by
  refine ⟨thread_pool_workers_nonneg _ h0 h1, thread_pool_workers_nonneg _ g0 g1, ?_⟩
  intro k0 k1
  exact thread_pool_workers_nonneg _ (le_min (by decide) k0)
    (lt_of_le_of_lt (min_le_right _ _) k1)

/-- Witness for C18 (amended): the default settings on a host with 8 hardware
threads; `run()` installs 128 workers. -/
theorem run_pool_size_witness :
    (run_pool default_threads : Int) =
      min default_threads.max_total_threads
        (max default_threads.tile_thread_count default_threads.pano_thread_count) ∧
    ((set_pano_thread_count default_threads 8 4).2 : Int) =
      min default_threads.max_total_threads 8 ∧
    (0 ≤ (8 : Int) → (8 : Int) < 2 ^ 31 → (constructor_pool 8 : Int) = min 512 8) :=
  run_pool_size default_threads 8 4 (by decide) (by decide) (by decide) (by decide)

/-- C18 (as stated) fails: with the default settings on a host with 8 hardware
threads, the pool that `run()` installs has 128 workers, not min(512, 8) = 8. -/
theorem run_pool_ignores_host_concurrency :
    run_pool default_threads = 128 ∧
    (run_pool default_threads : Int) ≠ min default_threads.max_total_threads 8 := by
  decide

/-- The configuration of any generation is one of the four table rows. -/
theorem get_generation_config_cases (g : Int) :
    get_generation_config g = ⟨3, 8, 4, true⟩ ∨ get_generation_config g = ⟨4, 13, 6, true⟩ ∨
    get_generation_config g = ⟨4, 13, 7, true⟩ ∨ get_generation_config g = ⟨4, 16, 8, false⟩ := by
  by_cases h1 : g = 1
  · subst h1; exact Or.inl rfl
  by_cases h2 : g = 2
  · subst h2; exact Or.inr (Or.inl rfl)
  by_cases h3 : g = 3
  · subst h3; exact Or.inr (Or.inr (Or.inl rfl))
  by_cases h4 : g = 4
  · subst h4; exact Or.inr (Or.inr (Or.inr rfl))
  have e1 : (g == 1) = false := by simpa using h1
  have e2 : (g == 2) = false := by simpa using h2
  have e3 : (g == 3) = false := by simpa using h3
  have e4 : (g == 4) = false := by simpa using h4
  right; right; right
  simp only [get_generation_config, configs, List.lookup, e1, e2, e3, e4]
  rfl

/-- Every grid of the table has at least one column and one row. -/
theorem get_generation_config_pos (g : Int) :
    1 ≤ (get_generation_config g).max_x ∧ 1 ≤ (get_generation_config g).max_y := by
  rcases get_generation_config_cases g with h | h | h | h <;> rw [h] <;> decide

/-- A valid tile of the retry loop carries an image that passed `is_valid_tile`. -/
theorem download_attempts_image (cv : OpenCV) (respond : Nat → Response) (jitter : Nat → ℚ)
    (x y : Int) (n : Nat) : ∀ a : Nat,
    (download_attempts cv respond jitter x y n a).1.valid = true →
    is_valid_tile cv (download_attempts cv respond jitter x y n a).1.image = true := by
  induction n with
  | zero => intro a h; simp [download_attempts, Tile.mk2] at h
  | succ n ih =>
    intro a
    cases h : attempt_accepts cv (respond a) with
    | some img =>
      rw [download_attempts_accept _ _ _ _ _ _ _ _ h]
      intro _
      unfold attempt_accepts at h
      dsimp only at h
      split_ifs at h with h1 h2 h3
      have himg := Option.some.inj h
      rw [Bool.and_eq_true] at h3
      show is_valid_tile cv img = true
      rw [← himg]
      exact h3.2
    | none =>
      rw [download_attempts_reject _ _ _ _ _ _ _ h]
      exact ih (a + 1)

/-- A valid tile of `download_tile` carries an image that passed `is_valid_tile`. -/
theorem download_tile_image (cv : OpenCV) (svc : TileService) (retry_count x y : Int)
    (panoid : String) (zoom : Int)
    (h : (download_tile cv svc retry_count x y panoid zoom).1.valid = true) :
    is_valid_tile cv (download_tile cv svc retry_count x y panoid zoom).1.image = true := by
  unfold download_tile at h ⊢
  cases hc : svc.curl_ok ⟨panoid, zoom, x, y⟩
  · simp [hc, Tile.mk2] at h
  · simp only [hc, Bool.not_true, Bool.false_eq_true, if_false] at h ⊢
    exact download_attempts_image _ _ _ _ _ _ 0 h

/-- The map returned by `download_tiles_parallel`, key by key. -/
theorem download_tiles_parallel_find (cv : OpenCV) (svc : TileService) (retry_count : Int)
    (panoid : String) (zoom max_x max_y : Int) (k : Int × Int) :
    TileMap.find (download_tiles_parallel cv svc retry_count panoid zoom max_x max_y).result k
      = if k ∈ grid_tasks max_x max_y ∧
          (download_tile cv svc retry_count k.1 k.2 panoid zoom).1.valid = true then
        some (download_tile cv svc retry_count k.1 k.2 panoid zoom).1.image
      else none := by
  rw [(download_tiles_parallel_collected cv svc retry_count panoid zoom max_x max_y).1]
  exact collect_tiles_find
    (fun c => (download_tile cv svc retry_count c.1 c.2 panoid zoom).1)
    (fun c => (download_tile_tag cv svc retry_count c.1 c.2 panoid zoom).1)
    (fun c => (download_tile_tag cv svc retry_count c.1 c.2 panoid zoom).2)
    (grid_tasks max_x max_y) k [] 0

/-- The map returned by `download_tiles_parallel` is well-formed. -/
theorem download_tiles_parallel_wf (cv : OpenCV) (svc : TileService) (retry_count : Int)
    (panoid : String) (zoom max_x max_y : Int) :
    TileMap.WF (download_tiles_parallel cv svc retry_count panoid zoom max_x max_y).result := by
  rw [(download_tiles_parallel_collected cv svc retry_count panoid zoom max_x max_y).1]
  exact collect_tiles_wf _ [] 0 List.Pairwise.nil

/-- In a well-formed map, looking up the key of an entry gives its value. -/
theorem find_of_mem (m : TileMap) (h : TileMap.WF m) (e : (Int × Int) × Mat) (he : e ∈ m) :
    TileMap.find m e.1 = some e.2 := by
  induction m with
  | nil => simp at he
  | cons e0 rest ih =>
    have hw := wf_head_not_in_rest e0 rest h
    obtain ⟨k0, t0⟩ := e0
    simp only [TileMap.find]
    rcases List.mem_cons.mp he with heq | hin
    · subst heq
      simp
    · have hne : k0 ≠ e.1 := by
        intro hk
        apply hw.1
        show k0 ∈ List.map Prod.fst rest
        rw [hk]
        exact List.mem_map_of_mem _ hin
      rw [if_neg hne]
      exact ih hw.2 hin

/-- Every tile in the map returned by `download_tiles_parallel` passed
`is_valid_tile`. -/
theorem download_tiles_parallel_valid (cv : OpenCV) (svc : TileService) (retry_count : Int)
    (panoid : String) (zoom max_x max_y : Int) (e : (Int × Int) × Mat)
    (he : e ∈ (download_tiles_parallel cv svc retry_count panoid zoom max_x max_y).result) :
    is_valid_tile cv e.2 = true := by
  have hf := find_of_mem _ (download_tiles_parallel_wf cv svc retry_count panoid zoom max_x max_y)
    e he
  rw [download_tiles_parallel_find] at hf
  split_ifs at hf with h
  have himg := Option.some.inj hf
  rw [← himg]
  exact download_tile_image _ _ _ _ _ _ _ h.2

/-- A tile that passed `is_valid_tile` has at least 10 rows and 10 columns. -/
theorem is_valid_tile_size (cv : OpenCV) (img : Mat) (h : is_valid_tile cv img = true) :
    10 ≤ img.cols ∧ 10 ≤ img.rows := by
  unfold is_valid_tile at h
  split_ifs at h with hc
  simp only [Bool.or_eq_true, decide_eq_true_eq, not_or, not_lt] at hc
  exact ⟨hc.1.2, hc.2⟩

/-- Stitching a non-empty map of valid tiles on a grid with at least one row and
one column gives a non-empty canvas. -/
theorem stitch_panorama_nonempty (cv : OpenCV) (labels : Bool) (tiles : TileMap)
    (max_x max_y z : Int) (hx : 1 ≤ max_x) (hy : 1 ≤ max_y) (hne : tiles ≠ [])
    (hvalid : ∀ e ∈ tiles, is_valid_tile cv e.2 = true) :
    (stitch_panorama cv labels tiles max_x max_y z).empty = false := by
  cases tiles with
  | nil => exact absurd rfl hne
  | cons e rest =>
    obtain ⟨k0, t0⟩ := e
    have hs := stitch_panorama_size_cons cv labels k0 t0 rest max_x max_y z
    have hv := is_valid_tile_size cv t0 (hvalid (k0, t0) (List.mem_cons_self _ _))
    have hr : 0 < (max_y * (t0.rows : Int)).toNat := by
      have : 0 < max_y * (t0.rows : Int) := mul_pos (by omega) (by omega)
      omega
    have hc : 0 < (max_x * (t0.cols : Int)).toNat := by
      have : 0 < max_x * (t0.cols : Int) := mul_pos (by omega) (by omega)
      omega
    unfold Mat.empty
    rw [hs.1, hs.2]
    have := Nat.mul_pos hr hc
    simp only [beq_eq_false_iff_ne, ne_eq]
    omega

/-- The returned `bool` of `process_panorama` as a chain of its failure tests. -/
theorem process_panorama_success (cv : OpenCV) (cfg : Settings) (env : PanoEnv)
    (panoid : String) (st : RunState) (g : Int) (config : GenerationConfig) (tiles : TileMap)
    (canvas : Mat)
    (hg : (process_panorama_generation cv env.world panoid st.probe).1.1 = g)
    (hcfg : get_generation_config g = config)
    (htiles : (download_tiles_parallel cv env.svc cfg.retry_count panoid
      config.zoom config.max_x config.max_y).result = tiles)
    (hcanvas : stitch_panorama cv cfg.draw_tile_labels tiles config.max_x config.max_y
      config.zoom = canvas) :
    (process_panorama cv cfg env panoid st).success =
      if env.fault = some Stage.generation then false
      else if g = 0 then false
      else if env.fault = some Stage.download then false
      else if tiles.isEmpty then false
      else if tiles.length = 0 then false
      else if env.fault = some Stage.stitch then false
      else if canvas.empty then false
      else if env.fault = some Stage.views then false
      else true := by
  subst hcanvas htiles hcfg hg
  unfold process_panorama
  dsimp only
  by_cases h1 : env.fault = some Stage.generation
  · rw [if_pos h1, if_pos h1]; rfl
  rw [if_neg h1, if_neg h1]
  by_cases h2 : (process_panorama_generation cv env.world panoid st.probe).1.1 = 0
  · rw [if_pos h2, if_pos h2]; rfl
  rw [if_neg h2, if_neg h2]
  by_cases h3 : env.fault = some Stage.download
  · rw [if_pos h3, if_pos h3]; rfl
  rw [if_neg h3, if_neg h3]
  split_ifs <;> rfl

/-- A `process_panorama` call either fails through `pano_failed` on a state with
the failure set it started from, or succeeds and leaves the failure set alone. -/
theorem process_panorama_cases (cv : OpenCV) (cfg : Settings) (env : PanoEnv)
    (panoid : String) (st : RunState) :
    (∃ (st1 : RunState) (tasks requests : List TileUrl),
      process_panorama cv cfg env panoid st = pano_failed st1 panoid tasks requests ∧
      st1.failed_panoids = st.failed_panoids) ∨
    ((process_panorama cv cfg env panoid st).success = true ∧
      (process_panorama cv cfg env panoid st).state.failed_panoids = st.failed_panoids) := by
  unfold process_panorama
  dsimp only
  by_cases h1 : env.fault = some Stage.generation
  · simp only [if_pos h1]; exact Or.inl ⟨_, _, _, rfl, rfl⟩
  simp only [if_neg h1]
  by_cases h2 : (process_panorama_generation cv env.world panoid st.probe).1.1 = 0
  · simp only [if_pos h2]; exact Or.inl ⟨_, _, _, rfl, rfl⟩
  simp only [if_neg h2]
  by_cases h3 : env.fault = some Stage.download
  · simp only [if_pos h3]; exact Or.inl ⟨_, _, _, rfl, rfl⟩
  simp only [if_neg h3]
  split_ifs
  all_goals first
    | exact Or.inl ⟨_, _, _, rfl, rfl⟩
    | exact Or.inr ⟨rfl, rfl⟩

/-- Recording a failure puts the scene into the failure set. -/
theorem pano_failed_spec (st : RunState) (panoid : String) (tasks requests : List TileUrl) :
    (pano_failed st panoid tasks requests).success = false ∧
    panoid ∈ (pano_failed st panoid tasks requests).state.failed_panoids ∧
    (pano_failed st panoid tasks requests).state.probe = st.probe := by
  refine ⟨rfl, ?_, rfl⟩
  simp [pano_failed, record_failed_pano]

/-- C15: `process_panorama` returns false exactly when the generation resolves
to 0, or the downloaded tile map is empty, or the stitched canvas is empty, or
an exception is thrown; a false return leaves the scene id in the failure set, a
true return leaves the failure set unchanged; and a scene with a non-zero
generation and at least one valid tile succeeds when nothing throws. -/
theorem process_panorama_outcome (cv : OpenCV) (cfg : Settings) (env : PanoEnv)
    (panoid : String) (st : RunState) :
    ((process_panorama cv cfg env panoid st).success = false ↔
      (process_panorama_generation cv env.world panoid st.probe).1.1 = 0 ∨
      (download_tiles_parallel cv env.svc cfg.retry_count panoid
        (get_generation_config
          (process_panorama_generation cv env.world panoid st.probe).1.1).zoom
        (get_generation_config
          (process_panorama_generation cv env.world panoid st.probe).1.1).max_x
        (get_generation_config
          (process_panorama_generation cv env.world panoid st.probe).1.1).max_y).result = [] ∨
      (stitch_panorama cv cfg.draw_tile_labels
        (download_tiles_parallel cv env.svc cfg.retry_count panoid
          (get_generation_config
            (process_panorama_generation cv env.world panoid st.probe).1.1).zoom
          (get_generation_config
            (process_panorama_generation cv env.world panoid st.probe).1.1).max_x
          (get_generation_config
            (process_panorama_generation cv env.world panoid st.probe).1.1).max_y).result
        (get_generation_config
          (process_panorama_generation cv env.world panoid st.probe).1.1).max_x
        (get_generation_config
          (process_panorama_generation cv env.world panoid st.probe).1.1).max_y
        (get_generation_config
          (process_panorama_generation cv env.world panoid st.probe).1.1).zoom).empty = true ∨
      env.fault ≠ none) ∧
    ((process_panorama cv cfg env panoid st).success = false →
      panoid ∈ (process_panorama cv cfg env panoid st).state.failed_panoids) ∧
    ((process_panorama cv cfg env panoid st).success = true →
      (process_panorama cv cfg env panoid st).state.failed_panoids = st.failed_panoids) ∧
    ((process_panorama_generation cv env.world panoid st.probe).1.1 ≠ 0 →
      env.fault = none →
      (∃ k : Int × Int,
        k ∈ grid_tasks
          (get_generation_config
            (process_panorama_generation cv env.world panoid st.probe).1.1).max_x
          (get_generation_config
            (process_panorama_generation cv env.world panoid st.probe).1.1).max_y ∧
        (download_tile cv env.svc cfg.retry_count k.1 k.2 panoid
          (get_generation_config
            (process_panorama_generation cv env.world panoid st.probe).1.1).zoom).1.valid
          = true) →
      (process_panorama cv cfg env panoid st).success = true) := by
  have hvalid : ∀ e ∈ (download_tiles_parallel cv env.svc cfg.retry_count panoid
      (get_generation_config (process_panorama_generation cv env.world panoid st.probe).1.1).zoom
      (get_generation_config (process_panorama_generation cv env.world panoid st.probe).1.1).max_x
      (get_generation_config
        (process_panorama_generation cv env.world panoid st.probe).1.1).max_y).result,
      is_valid_tile cv e.2 = true :=
    fun e he => download_tiles_parallel_valid _ _ _ _ _ _ _ e he
  have hfind := download_tiles_parallel_find cv env.svc cfg.retry_count panoid
      (get_generation_config (process_panorama_generation cv env.world panoid st.probe).1.1).zoom
      (get_generation_config (process_panorama_generation cv env.world panoid st.probe).1.1).max_x
      (get_generation_config (process_panorama_generation cv env.world panoid st.probe).1.1).max_y
  have hpos := get_generation_config_pos
    (process_panorama_generation cv env.world panoid st.probe).1.1
  have hsucc := process_panorama_success cv cfg env panoid st _ _ _ _ rfl rfl rfl rfl
  have hcases := process_panorama_cases cv cfg env panoid st
  generalize (process_panorama_generation cv env.world panoid st.probe).1.1 = g at *
  generalize get_generation_config g = config at *
  generalize (download_tiles_parallel cv env.svc cfg.retry_count panoid
    config.zoom config.max_x config.max_y).result = tiles at *
  generalize hcanvas : stitch_panorama cv cfg.draw_tile_labels tiles config.max_x config.max_y
    config.zoom = canvas at *
  have hempty : tiles.isEmpty = true ↔ tiles = [] := List.isEmpty_iff
  have hlen : tiles.length = 0 ↔ tiles = [] := List.length_eq_zero
  refine ⟨?_, ?_, ?_, ?_⟩
  · rw [hsucc]
    cases hfault : env.fault with
    | none =>
      simp only [reduceCtorEq, if_false, ne_eq, not_true_eq_false, or_false]
      split_ifs with h2 h4 h5 h7
      · simp [h2]
      · simp [hempty.mp h4]
      · simp [hlen.mp h5]
      · simp [h7]
      · have ht : tiles ≠ [] := fun h => h4 (hempty.mpr h)
        simp [h2, ht, h7]
    | some s =>
      have hchain : (if some s = some Stage.generation then false
          else if g = 0 then false
          else if some s = some Stage.download then false
          else if tiles.isEmpty then false
          else if tiles.length = 0 then false
          else if some s = some Stage.stitch then false
          else if canvas.empty then false
          else if some s = some Stage.views then false
          else true) = false := by
        cases s <;> simp
      rw [hchain]
      simp
  · intro h
    rcases hcases with ⟨st1, tasks, requests, hrun, _⟩ | ⟨hs, _⟩
    · rw [hrun]
      exact (pano_failed_spec st1 panoid tasks requests).2.1
    · rw [hs] at h
      exact absurd h (by decide)
  · intro h
    rcases hcases with ⟨st1, tasks, requests, hrun, _⟩ | ⟨_, hkeep⟩
    · rw [hrun] at h
      exact absurd h (by simp [pano_failed])
    · exact hkeep
  · intro hgne hfault hex
    obtain ⟨k, hk, hkv⟩ := hex
    have hfk := hfind k
    rw [if_pos ⟨hk, hkv⟩] at hfk
    have ht : tiles ≠ [] := by
      rintro rfl
      simp [TileMap.find] at hfk
    have hcan : canvas.empty = false := by
      rw [← hcanvas]
      exact stitch_panorama_nonempty cv cfg.draw_tile_labels tiles config.max_x config.max_y
        config.zoom hpos.1 hpos.2 ht hvalid
    have h4 : ¬ tiles.isEmpty = true := fun h => ht (hempty.mp h)
    have h5 : ¬ tiles.length = 0 := fun h => ht (hlen.mp h)
    rw [hsucc, hfault]
    simp [hgne, h4, h5, hcan]

/-- On the sample decoder, a probe of `server_of good` is valid exactly on the
good URLs. -/
theorem tile_valid_server_of (good : TileUrl → Bool) (panoid : String) (zoom x y : Int) :
    tile_valid sample_cv (server_of good) panoid zoom x y = good ⟨panoid, zoom, x, y⟩ := by
  unfold tile_valid server_of
  cases good ⟨panoid, zoom, x, y⟩
  · rfl
  · norm_num [probe_accepts, sample_cv, is_valid_tile, grey_tile, Mat.empty]

/-- In the environment `env_of good`, the download of a good tile is valid. -/
theorem download_tile_env_of (good : TileUrl → Bool) (retry_count x y : Int) (panoid : String)
    (zoom : Int) (hretry : 1 ≤ retry_count) (hgood : good ⟨panoid, zoom, x, y⟩ = true) :
    (download_tile sample_cv (env_of good).svc retry_count x y panoid zoom).1.valid = true := by
  obtain ⟨n, hn⟩ : ∃ n : Nat, retry_count.toNat = n + 1 := ⟨retry_count.toNat - 1, by omega⟩
  have hacc : attempt_accepts sample_cv (server_of good ⟨panoid, zoom, x, y⟩) = some grey_tile := by
    unfold server_of
    rw [hgood]
    norm_num [attempt_accepts, sample_cv, is_valid_tile, grey_tile, Mat.empty]
  unfold download_tile
  simp only [env_of, Bool.not_true, Bool.false_eq_true, if_false, hn]
  rw [download_attempts_accept _ _ _ _ _ _ _ _ hacc]

/-- In a fresh process and the environment `env_of gen2_only`, the generation
step resolves generation 2. -/
theorem generation_step_gen2_sample :
    process_panorama_generation sample_cv (env_of gen2_only).world "pano" RunState.init.probe =
      ((2, "Generation 2 (Zoom 4, 13x6)"),
        ⟨cache_generation (fun _ => none) "pano" 2 "Generation 2 (Zoom 4, 13x6)", ["pano"]⟩) := by
  rw [generation_step_miss sample_cv (env_of gen2_only).world "pano" RunState.init.probe rfl]
  show ((detect_generation sample_cv true (server_of gen2_only) "pano",
    (⟨cache_generation (fun _ => none) "pano"
      (detect_generation sample_cv true (server_of gen2_only) "pano").1
      (detect_generation sample_cv true (server_of gen2_only) "pano").2, ["pano"]⟩ : ProbeState)) :
      (Int × String) × ProbeState) = _
  rw [detect_generation_gen2_sample]

/-- Witness for C15: in a fresh process where only the two generation-2 probe
tiles exist, generation 2 is detected, tile (12, 5) downloads, and the scene
succeeds although every other tile is missing. -/
theorem process_panorama_outcome_witness :
    (process_panorama sample_cv default_settings (env_of gen2_only) "pano"
      RunState.init).success = true := by
  have hgen := generation_step_gen2_sample
  refine (process_panorama_outcome sample_cv default_settings (env_of gen2_only) "pano"
    RunState.init).2.2.2 ?_ rfl ⟨(12, 5), ?_, ?_⟩
  · rw [hgen]; decide
  · rw [hgen]; decide
  · rw [hgen]
    exact download_tile_env_of gen2_only 3 12 5 "pano" 4 (by decide) rfl

/-- The tile tasks `process_panorama` submits once a non-zero generation is
resolved and nothing throws before the download. -/
theorem process_panorama_tile_tasks (cv : OpenCV) (cfg : Settings) (env : PanoEnv)
    (panoid : String) (st : RunState)
    (hg : (process_panorama_generation cv env.world panoid st.probe).1.1 ≠ 0)
    (hfault : env.fault = none) :
    (process_panorama cv cfg env panoid st).tile_tasks =
      (grid_tasks
        (get_generation_config
          (process_panorama_generation cv env.world panoid st.probe).1.1).max_x
        (get_generation_config
          (process_panorama_generation cv env.world panoid st.probe).1.1).max_y).map
        fun c => TileUrl.mk panoid
          (get_generation_config
            (process_panorama_generation cv env.world panoid st.probe).1.1).zoom c.1 c.2 := by
  unfold process_panorama
  dsimp only
  have h1 : ¬ env.fault = some Stage.generation := by rw [hfault]; simp
  have h3 : ¬ env.fault = some Stage.download := by rw [hfault]; simp
  rw [if_neg h1, if_neg hg, if_neg h3]
  split_ifs <;> rfl

/-- A probe and a download attempt accept the same responses. -/
theorem probe_accepts_eq (cv : OpenCV) (r : Response) :
    probe_accepts cv r = (attempt_accepts cv r).isSome := by
  unfold attempt_accepts probe_accepts
  dsimp only
  split_ifs <;> rfl

/-- One `download_tile` call on a service with a curl handle that answers every
request for the URL as `server` does: with at least one attempt allowed the
tile is valid exactly when the probe of that URL is, and the call sends one
request when it is and `retry_count` requests when it is not. -/
theorem download_tile_steady (cv : OpenCV) (svc : TileService) (server : TileUrl → Response)
    (retry_count x y : Int) (panoid : String) (zoom : Int)
    (hcurl : svc.curl_ok ⟨panoid, zoom, x, y⟩ = true)
    (hresp : ∀ n, svc.respond ⟨panoid, zoom, x, y⟩ n = server ⟨panoid, zoom, x, y⟩)
    (hretry : 1 ≤ retry_count) :
    (download_tile cv svc retry_count x y panoid zoom).1.valid =
      tile_valid cv server panoid zoom x y ∧
    request_count (download_tile cv svc retry_count x y panoid zoom).2 =
      if tile_valid cv server panoid zoom x y = true then 1 else retry_count.toNat := by
  obtain ⟨n, hn⟩ : ∃ n : Nat, retry_count.toNat = n + 1 := ⟨retry_count.toNat - 1, by omega⟩
  have hacc : ∀ k, accepted cv (svc.respond ⟨panoid, zoom, x, y⟩) k =
      tile_valid cv server panoid zoom x y := by
    intro k
    unfold accepted tile_valid
    rw [hresp k, probe_accepts_eq]
  unfold download_tile
  simp only [hcurl, Bool.not_true, Bool.false_eq_true, if_false]
  cases hv : tile_valid cv server panoid zoom x y
  · have hnone : ∀ k, 0 ≤ k → k < 0 + retry_count.toNat →
        accepted cv (svc.respond ⟨panoid, zoom, x, y⟩) k = false :=
      fun k _ _ => by rw [hacc k, hv]
    refine ⟨?_, ?_⟩
    · rw [Bool.eq_false_iff]
      intro h
      obtain ⟨k, _, _, hk⟩ := (download_attempts_valid _ _ _ _ _ _ 0).mp h
      rw [hacc k, hv] at hk
      exact Bool.false_ne_true hk
    · rw [download_attempts_requests_miss _ _ _ _ _ _ 0 hnone]
      simp
  · refine ⟨?_, ?_⟩
    · exact (download_attempts_valid _ _ _ _ _ _ 0).mpr
        ⟨0, le_refl 0, by omega, by rw [hacc 0, hv]⟩
    · rw [download_attempts_requests_hit _ _ _ _ _ _ 0 0 (le_refl 0) (by omega)
        (by rw [hacc 0, hv]) (fun j _ hj => by omega)]
      simp

/-- Without an attempt allowed, `download_tile` sends no request. -/
theorem download_tile_no_attempt (cv : OpenCV) (svc : TileService) (retry_count x y : Int)
    (panoid : String) (zoom : Int) (hretry : retry_count ≤ 0) :
    request_count (download_tile cv svc retry_count x y panoid zoom).2 = 0 := by
  have hn : retry_count.toNat = 0 := by omega
  unfold download_tile
  split_ifs
  · rfl
  · rw [hn]; rfl

/-- The requests of `download_tiles_parallel`, task by task. -/
theorem download_tiles_parallel_requests (cv : OpenCV) (svc : TileService) (retry_count : Int)
    (panoid : String) (zoom max_x max_y : Int) :
    (download_tiles_parallel cv svc retry_count panoid zoom max_x max_y).requests =
      (grid_tasks max_x max_y).flatMap fun c =>
        List.replicate (request_count (download_tile cv svc retry_count c.1 c.2 panoid zoom).2)
          (TileUrl.mk panoid zoom c.1 c.2) := by
  unfold download_tiles_parallel
  simp only [List.flatMap_map, download_tile_tag]

/-- Sum of a two-valued weight over a list. -/
theorem sum_two_valued {α : Type} (p : α → Bool) (n : Nat) (l : List α) :
    (l.map fun c => if p c = true then 1 else n).sum =
      l.countP p + (l.length - l.countP p) * n := by
  induction l with
  | nil => simp
  | cons a l ih =>
    have hle := List.countP_le_length p (l := l)
    rw [List.map_cons, List.sum_cons, ih, List.countP_cons, List.length_cons]
    cases hp : p a
    · simp only [Bool.false_eq_true, if_false, Nat.add_zero]
      have : l.length + 1 - List.countP p l = (l.length - List.countP p l) + 1 := by omega
      rw [this]
      ring
    · simp only [if_true]
      have : l.length + 1 - (List.countP p l + 1) = l.length - List.countP p l := by omega
      rw [this]
      ring

/-- The requests of a `process_panorama` call that reaches the download are
those of its `download_tiles_parallel` call. -/
theorem process_panorama_requests (cv : OpenCV) (cfg : Settings) (env : PanoEnv)
    (panoid : String) (st : RunState)
    (hg : (process_panorama_generation cv env.world panoid st.probe).1.1 ≠ 0)
    (hfault : env.fault = none) :
    (process_panorama cv cfg env panoid st).requests =
      (download_tiles_parallel cv env.svc cfg.retry_count panoid
        (get_generation_config
          (process_panorama_generation cv env.world panoid st.probe).1.1).zoom
        (get_generation_config
          (process_panorama_generation cv env.world panoid st.probe).1.1).max_x
        (get_generation_config
          (process_panorama_generation cv env.world panoid st.probe).1.1).max_y).requests := by
  unfold process_panorama
  dsimp only
  have h1 : ¬ env.fault = some Stage.generation := by rw [hfault]; simp
  have h3 : ¬ env.fault = some Stage.download := by rw [hfault]; simp
  rw [if_neg h1, if_neg hg, if_neg h3]
  split_ifs <;> rfl

/-- C19: when the tile service is valid exactly at the two generation-2 probe
coordinates (12, 5) and (10, 4) at zoom 4, `detect_generation` returns
generation 2 and its configuration is zoom 4 with a 13 x 6 grid.
`download_tiles_parallel`, also as called by `process_panorama`, submits
exactly the 78 coordinates of that grid, each once and at zoom 4.  When the
downloads meet the same service with a curl handle and `retry_count >= 1`, the
HTTP requests sent go exactly to the 78 URLs of that grid at zoom 4: one request
for each of the two valid tiles and `retry_count` for each of the 76 others;
78 futures are collected and the returned map has exactly the keys (12, 5) and
(10, 4).  With `retry_count <= 0` no request is sent. -/
theorem gen2_scenario (cv : OpenCV) (server : TileUrl → Response) (panoid : String)
    (horacle : ∀ zoom x y : Int, tile_valid cv server panoid zoom x y = true ↔
      zoom = 4 ∧ ((x = 12 ∧ y = 5) ∨ (x = 10 ∧ y = 4))) :
    detect_generation cv true server panoid = (2, "Generation 2 (Zoom 4, 13x6)") ∧
    get_generation_config (detect_generation cv true server panoid).1 = ⟨4, 13, 6, true⟩ ∧
    (∀ (svc : TileService) (retry_count : Int),
      (download_tiles_parallel cv svc retry_count panoid
        (get_generation_config (detect_generation cv true server panoid).1).zoom
        (get_generation_config (detect_generation cv true server panoid).1).max_x
        (get_generation_config (detect_generation cv true server panoid).1).max_y).submitted.length
          = 78 ∧
      (download_tiles_parallel cv svc retry_count panoid
        (get_generation_config (detect_generation cv true server panoid).1).zoom
        (get_generation_config (detect_generation cv true server panoid).1).max_x
        (get_generation_config (detect_generation cv true server panoid).1).max_y).submitted.Nodup ∧
      ∀ k : Int × Int,
        k ∈ (download_tiles_parallel cv svc retry_count panoid
          (get_generation_config (detect_generation cv true server panoid).1).zoom
          (get_generation_config (detect_generation cv true server panoid).1).max_x
          (get_generation_config (detect_generation cv true server panoid).1).max_y).submitted ↔
        0 ≤ k.1 ∧ k.1 < 13 ∧ 0 ≤ k.2 ∧ k.2 < 6) ∧
    (∀ (svc : TileService) (retry_count : Int),
      (∀ u, svc.curl_ok u = true) → (∀ u n, svc.respond u n = server u) → 1 ≤ retry_count →
      (∀ u : TileUrl,
        u ∈ (download_tiles_parallel cv svc retry_count panoid
          (get_generation_config (detect_generation cv true server panoid).1).zoom
          (get_generation_config (detect_generation cv true server panoid).1).max_x
          (get_generation_config (detect_generation cv true server panoid).1).max_y).requests ↔
        u.panoid = panoid ∧ u.zoom = 4 ∧ 0 ≤ u.x ∧ u.x < 13 ∧ 0 ≤ u.y ∧ u.y < 6) ∧
      (download_tiles_parallel cv svc retry_count panoid
        (get_generation_config (detect_generation cv true server panoid).1).zoom
        (get_generation_config (detect_generation cv true server panoid).1).max_x
        (get_generation_config (detect_generation cv true server panoid).1).max_y).requests.length
          = 2 + 76 * retry_count.toNat ∧
      (download_tiles_parallel cv svc retry_count panoid
        (get_generation_config (detect_generation cv true server panoid).1).zoom
        (get_generation_config (detect_generation cv true server panoid).1).max_x
        (get_generation_config (detect_generation cv true server panoid).1).max_y).completed
          = 78 ∧
      ∀ k : Int × Int,
        k ∈ (download_tiles_parallel cv svc retry_count panoid
          (get_generation_config (detect_generation cv true server panoid).1).zoom
          (get_generation_config (detect_generation cv true server panoid).1).max_x
          (get_generation_config (detect_generation cv true server panoid).1).max_y).result.keys ↔
        k = (12, 5) ∨ k = (10, 4)) ∧
    (∀ (svc : TileService) (retry_count : Int), retry_count ≤ 0 →
      (download_tiles_parallel cv svc retry_count panoid
        (get_generation_config (detect_generation cv true server panoid).1).zoom
        (get_generation_config (detect_generation cv true server panoid).1).max_x
        (get_generation_config (detect_generation cv true server panoid).1).max_y).requests
          = []) ∧
    (∀ (cfg : Settings) (env : PanoEnv) (st : RunState), env.fault = none →
      (get_cached_generation st.probe.generation_cache panoid).1 = 0 →
      env.world st.probe.detect_calls.length = (true, server) →
      (process_panorama cv cfg env panoid st).tile_tasks =
        (grid_tasks 13 6).map (fun c => TileUrl.mk panoid 4 c.1 c.2) ∧
      (process_panorama cv cfg env panoid st).tile_tasks.length = 78 ∧
      (process_panorama cv cfg env panoid st).requests =
        (download_tiles_parallel cv env.svc cfg.retry_count panoid 4 13 6).requests) := by
  have f1 : tile_valid cv server panoid 4 15 7 = false :=
    Bool.eq_false_iff.mpr fun h => by have := (horacle 4 15 7).mp h; omega
  have f2 : tile_valid cv server panoid 4 14 6 = false :=
    Bool.eq_false_iff.mpr fun h => by have := (horacle 4 14 6).mp h; omega
  have f3 : tile_valid cv server panoid 4 12 6 = false :=
    Bool.eq_false_iff.mpr fun h => by have := (horacle 4 12 6).mp h; omega
  have f4 : tile_valid cv server panoid 4 11 5 = false :=
    Bool.eq_false_iff.mpr fun h => by have := (horacle 4 11 5).mp h; omega
  have t5 : tile_valid cv server panoid 4 12 5 = true :=
    (horacle 4 12 5).mpr ⟨rfl, Or.inl ⟨rfl, rfl⟩⟩
  have hdet : detect_generation cv true server panoid = (2, "Generation 2 (Zoom 4, 13x6)") := by
    rw [detect_generation_closed, f1, f2, f3, f4, t5]
    rfl
  have hcfg : get_generation_config (2 : Int) = ⟨4, 13, 6, true⟩ := rfl
  have hlen : (grid_tasks 13 6).length = 78 := by rw [grid_tasks_length]; rfl
  refine ⟨hdet, by rw [hdet]; exact hcfg, ?_, ?_, ?_, ?_⟩
  · intro svc retry_count
    rw [hdet]
    simp only [hcfg]
    exact ⟨hlen, grid_tasks_nodup 13 6, mem_grid_tasks 13 6⟩
  · intro svc retry_count hcurl hresp hretry
    rw [hdet]
    simp only [hcfg]
    have hsteady : ∀ c : Int × Int,
        (download_tile cv svc retry_count c.1 c.2 panoid 4).1.valid =
          decide (c = (12, 5) ∨ c = (10, 4)) ∧
        request_count (download_tile cv svc retry_count c.1 c.2 panoid 4).2 =
          if decide (c = (12, 5) ∨ c = (10, 4)) = true then 1 else retry_count.toNat := by
      intro c
      have hs := download_tile_steady cv svc server retry_count c.1 c.2 panoid 4 (hcurl _)
        (fun n => hresp _ n) hretry
      have hv : tile_valid cv server panoid 4 c.1 c.2 = decide (c = (12, 5) ∨ c = (10, 4)) := by
        rw [Bool.eq_iff_iff, horacle, decide_eq_true_eq]
        obtain ⟨c1, c2⟩ := c
        simp
      rw [hv] at hs
      exact hs
    have hreq := download_tiles_parallel_requests cv svc retry_count panoid 4 13 6
    simp only [fun c => (hsteady c).2] at hreq
    refine ⟨?_, ?_, ?_, ?_⟩
    · intro u
      rw [hreq, List.mem_flatMap]
      constructor
      · rintro ⟨c, hc, hu⟩
        have := (List.mem_replicate.mp hu).2
        have hg := (mem_grid_tasks 13 6 c).mp hc
        subst this
        exact ⟨rfl, rfl, hg⟩
      · rintro ⟨h1, h2, h3⟩
        refine ⟨(u.x, u.y), (mem_grid_tasks 13 6 _).mpr h3, List.mem_replicate.mpr ⟨?_, ?_⟩⟩
        · split_ifs
          · exact one_ne_zero
          · omega
        · obtain ⟨p, z, x, y⟩ := u
          simp only at h1 h2
          rw [h1, h2]
    · rw [hreq, List.length_flatMap]
      have hfun : (fun c : Int × Int =>
          (List.replicate (if decide (c = (12, 5) ∨ c = (10, 4)) = true then 1
            else retry_count.toNat) (TileUrl.mk panoid 4 c.1 c.2)).length) =
          fun c => if decide (c = (12, 5) ∨ c = (10, 4)) = true then 1
            else retry_count.toNat := by
        funext c
        rw [List.length_replicate]
      rw [show (List.length ∘ fun c : Int × Int =>
          List.replicate (if decide (c = (12, 5) ∨ c = (10, 4)) = true then 1
            else retry_count.toNat) (TileUrl.mk panoid 4 c.1 c.2)) =
          fun c => if decide (c = (12, 5) ∨ c = (10, 4)) = true then 1
            else retry_count.toNat from hfun]
      rw [sum_two_valued (fun c => decide (c = ((12 : Int), (5 : Int)) ∨ c = (10, 4)))
        retry_count.toNat (grid_tasks 13 6), hlen]
      have hcount : (grid_tasks 13 6).countP
          (fun c => decide (c = ((12 : Int), (5 : Int)) ∨ c = (10, 4))) = 2 := by decide
      rw [hcount]
    · rw [(download_tiles_parallel_collected cv svc retry_count panoid 4 13 6).2,
        collect_tiles_completed, List.length_map, hlen]
    · intro k
      rw [mem_keys_iff, download_tiles_parallel_find, (hsteady k).1]
      constructor
      · intro h
        by_cases hc : k ∈ grid_tasks 13 6 ∧ decide (k = (12, 5) ∨ k = (10, 4)) = true
        · simpa using hc.2
        · rw [if_neg hc] at h
          exact absurd h (by simp)
      · intro h
        have hin : k ∈ grid_tasks 13 6 := by
          rw [mem_grid_tasks]
          rcases h with rfl | rfl <;> decide
        rw [if_pos ⟨hin, by simpa using h⟩]
        rfl
  · intro svc retry_count hretry
    rw [hdet]
    simp only [hcfg]
    rw [download_tiles_parallel_requests]
    simp only [download_tile_no_attempt cv svc retry_count _ _ panoid 4 hretry,
      List.replicate_zero]
    simp
  · intro cfg env st hfault hmiss hworld
    have hstep : (process_panorama_generation cv env.world panoid st.probe).1.1 = 2 := by
      rw [generation_step_miss cv env.world panoid st.probe hmiss, hworld]
      show (detect_generation cv true server panoid).1 = 2
      rw [hdet]
    have htasks := process_panorama_tile_tasks cv cfg env panoid st (by rw [hstep]; decide) hfault
    have hreqs := process_panorama_requests cv cfg env panoid st (by rw [hstep]; decide) hfault
    rw [hstep] at htasks hreqs
    simp only [hcfg] at htasks hreqs
    refine ⟨htasks, ?_, hreqs⟩
    rw [htasks, List.length_map, hlen]

/-- The validity oracle of the sample server `server_of gen2_only`. -/
theorem gen2_only_oracle (zoom x y : Int) :
    tile_valid sample_cv (server_of gen2_only) "pano" zoom x y = true ↔
      zoom = 4 ∧ ((x = 12 ∧ y = 5) ∨ (x = 10 ∧ y = 4)) := by
  rw [tile_valid_server_of]
  simp [gen2_only]

/-- Witness for C19: the sample server on which only the two generation-2 probe
tiles exist, met by the probes and by the downloads with three attempts per
tile: 2 + 76 * 3 requests are sent. -/
theorem gen2_scenario_witness :
    detect_generation sample_cv true (server_of gen2_only) "pano" =
      (2, "Generation 2 (Zoom 4, 13x6)") ∧
    get_generation_config (detect_generation sample_cv true (server_of gen2_only) "pano").1 =
      ⟨4, 13, 6, true⟩ ∧
    (download_tiles_parallel sample_cv (env_of gen2_only).svc 3 "pano"
      (get_generation_config
        (detect_generation sample_cv true (server_of gen2_only) "pano").1).zoom
      (get_generation_config
        (detect_generation sample_cv true (server_of gen2_only) "pano").1).max_x
      (get_generation_config
        (detect_generation sample_cv true (server_of gen2_only) "pano").1).max_y).requests.length
        = 2 + 76 * (3 : Int).toNat :=
  ⟨(gen2_scenario sample_cv (server_of gen2_only) "pano" gen2_only_oracle).1,
   (gen2_scenario sample_cv (server_of gen2_only) "pano" gen2_only_oracle).2.1,
   ((gen2_scenario sample_cv (server_of gen2_only) "pano" gen2_only_oracle).2.2.2.1
      (env_of gen2_only).svc 3 (fun _ => rfl) (fun _ _ => rfl) (by decide)).2.1⟩

/-- No index when the loop bounds are empty. -/
theorem batch_indices_empty (start stop : Int) (h : stop ≤ start) :
    batch_indices start stop = [] := by
  unfold batch_indices
  have : (stop - start).toNat = 0 := by omega
  rw [this]
  rfl

/-- Number of indices of a batch. -/
theorem batch_indices_length (start stop : Int) :
    (batch_indices start stop).length = (stop - start).toNat := by
  simp [batch_indices]

/-- Two consecutive index ranges make one. -/
theorem batch_indices_append (start mid stop : Int) (h1 : start ≤ mid) (h2 : mid ≤ stop) :
    batch_indices start mid ++ batch_indices mid stop = batch_indices start stop := by
  unfold batch_indices
  have hsplit : (stop - start).toNat = (mid - start).toNat + (stop - mid).toNat := by omega
  rw [hsplit, List.range_add, List.map_append, List.map_map]
  congr 1
  apply List.map_congr_left
  intro k _
  simp only [Function.comp]
  push_cast
  omega

/-- The index at position `j` of the range from 0. -/
theorem batch_indices_zero_get (n : Nat) (j : Nat) (hj : j < n) :
    (batch_indices 0 (n : Int)).getD j 0 = (j : Int) := by
  unfold batch_indices
  have : ((n : Int) - 0).toNat = n := by omega
  rw [this]
  simp [List.getD, List.getElem?_map, List.getElem?_range hj]

/-- Running the tasks of two lists of indices one after the other. -/
theorem scene_results_append (cv : OpenCV) (cfg : Settings) (envs : Nat → PanoEnv)
    (panoids : List String) (l1 l2 : List Int) : ∀ st : RunState,
    scene_results cv cfg envs panoids (l1 ++ l2) st =
      ((scene_results cv cfg envs panoids l1 st).1 ++
        (scene_results cv cfg envs panoids l2 (scene_results cv cfg envs panoids l1 st).2).1,
       (scene_results cv cfg envs panoids l2 (scene_results cv cfg envs panoids l1 st).2).2) := by
  induction l1 with
  | nil => intro st; rfl
  | cons i rest ih =>
    intro st
    rw [List.cons_append]
    show (_ :: (scene_results cv cfg envs panoids (rest ++ l2) _).1,
      (scene_results cv cfg envs panoids (rest ++ l2) _).2) = _
    rw [ih]
    rfl

/-- One result per task. -/
theorem scene_results_length (cv : OpenCV) (cfg : Settings) (envs : Nat → PanoEnv)
    (panoids : List String) (l : List Int) : ∀ st : RunState,
    (scene_results cv cfg envs panoids l st).1.length = l.length := by
  induction l with
  | nil => intro st; rfl
  | cons i rest ih =>
    intro st
    simp only [scene_results, List.length_cons, ih]

/-- The counters after the collection loop. -/
theorem collect_results_spec (rs : List Bool) : ∀ s f c : Nat,
    collect_results rs (s, f, c) = (s + rs.count true, f + rs.count false, c + rs.length) := by
  induction rs with
  | nil => intro s f c; rfl
  | cons r rest ih =>
    intro s f c
    cases r
    · simp only [collect_results, Bool.false_eq_true, if_false, ih, List.count_cons,
        List.length_cons, beq_self_eq_true, if_true]
      simp
      omega
    · simp only [collect_results, if_true, ih, List.count_cons, List.length_cons,
        beq_self_eq_true]
      simp
      omega

/-- An `int` value is not changed by the reduction to 32 bits. -/
theorem wrap32_of_range (n : Int) (h1 : -2 ^ 31 ≤ n) (h2 : n < 2 ^ 31) : wrap32 n = n := by
  unfold wrap32
  omega

/-- The value of an `int` lies in the range of `int`. -/
theorem wrap32_range (n : Int) : -2 ^ 31 ≤ wrap32 n ∧ wrap32 n < 2 ^ 31 := by
  unfold wrap32
  omega

/-- The indices of a batch lie between the loop bounds. -/
theorem mem_batch_indices (start stop i : Int) :
    i ∈ batch_indices start stop ↔ start ≤ i ∧ i < stop := by
  unfold batch_indices
  rw [List.mem_map]
  constructor
  · rintro ⟨k, hk, rfl⟩
    have := List.mem_range.mp hk
    omega
  · rintro ⟨h1, h2⟩
    exact ⟨(i - start).toNat, List.mem_range.mpr (by omega), by omega⟩

/-- The enqueue loop reads `panoids[i]` inside the vector when every index of
the batch is one of the vector. -/
theorem submit_batch_ok (panoids : List String) (batch : List Int)
    (h : ∀ i ∈ batch, 0 ≤ i ∧ i < (panoids.length : Int)) :
    submit_batch panoids batch = Except.ok batch := by
  unfold submit_batch
  rw [if_pos]
  rw [List.all_eq_true]
  intro i hi
  simpa using h i hi

/-- The enqueue loop reads outside the vector when an index of the batch is not
one of the vector. -/
theorem submit_batch_out_of_range (panoids : List String) (batch : List Int) (i : Int)
    (hi : i ∈ batch) (h : ¬ (0 ≤ i ∧ i < (panoids.length : Int))) :
    submit_batch panoids batch = Except.error Halt.out_of_range := by
  unfold submit_batch
  rw [if_neg]
  rw [List.all_eq_true]
  intro hall
  apply h
  simpa using hall i hi

/-- One result per task. -/
theorem scene_results_zip (cv : OpenCV) (cfg : Settings) (envs : Nat → PanoEnv)
    (panoids : List String) (l : List Int) (st : RunState) :
    (l.zip (scene_results cv cfg envs panoids l st).1).map Prod.snd =
      (scene_results cv cfg envs panoids l st).1 ∧
    (l.zip (scene_results cv cfg envs panoids l st).1).map Prod.fst = l :=
  ⟨List.map_snd_zip _ _ (by rw [scene_results_length]),
    List.map_fst_zip _ _ (by rw [scene_results_length])⟩

/-- A batch with fewer scene tasks than the pool has free workers runs to its
end: every future holds the result of its own task, and results and state are
those of the tasks taking effect in submission order. -/
theorem process_batch_ok (cv : OpenCV) (cfg : Settings) (envs : Nat → PanoEnv)
    (panoids : List String) (pool_size : Nat) (l : List Int) :
    ∀ (held : Nat) (st : RunState), held + l.length < pool_size →
    process_batch cv cfg envs panoids pool_size l held st =
      Except.ok (l.zip (scene_results cv cfg envs panoids l st).1,
        (scene_results cv cfg envs panoids l st).2) := by
  induction l with
  | nil =>
    intro held st h
    simp only [process_batch, scene_results, List.zip_nil_left]
    rw [if_pos (Or.inr (by simpa using h))]
  | cons i rest ih =>
    intro held st h
    have hheld : held < pool_size := by
      rw [List.length_cons] at h
      omega
    simp only [process_batch, if_pos hheld, scene_results, List.zip_cons_cons]
    rw [ih]
    rw [List.length_cons] at h
    split_ifs <;> omega

/-- A batch in which every scene task enqueues tile tasks, on a pool with no
more workers than the batch has tasks left and held workers together: the
workers are all held by waiting scene tasks before a tile task is run. -/
theorem process_batch_deadlock (cv : OpenCV) (cfg : Settings) (envs : Nat → PanoEnv)
    (panoids : List String) (pool_size : Nat) (l : List Int)
    (htiles : ∀ i ∈ l, ∀ st : RunState,
      (process_panorama cv cfg (envs i.toNat) (panoids.getD i.toNat "") st).tile_tasks ≠ []) :
    ∀ (held : Nat) (st : RunState), pool_size ≤ held + l.length → held ≤ pool_size →
    0 < held + l.length →
    process_batch cv cfg envs panoids pool_size l held st = Except.error Halt.deadlock := by
  induction l with
  | nil =>
    intro held st h1 h2 h3
    simp only [process_batch]
    rw [if_neg]
    simp only [List.length_nil, Nat.add_zero] at h1 h3
    omega
  | cons i rest ih =>
    intro held st h1 h2 h3
    rw [List.length_cons] at h1
    simp only [process_batch]
    by_cases hheld : held < pool_size
    · rw [if_pos hheld]
      have hne := htiles i (List.mem_cons_self _ _) st
      have hemp : (process_panorama cv cfg (envs i.toNat) (panoids.getD i.toNat "")
          st).tile_tasks.isEmpty = false := by
        cases hq : (process_panorama cv cfg (envs i.toNat) (panoids.getD i.toNat "")
          st).tile_tasks with
        | nil => exact absurd hq hne
        | cons _ _ => rfl
      simp only [hemp, Bool.false_eq_true, if_false]
      rw [ih (fun j hj => htiles j (List.mem_cons_of_mem _ hj)) (held + 1) _ (by omega)
        (by omega) (by omega)]
    · rw [if_neg hheld]

/-- A scene of a world in which the probes always find a generation enqueues
tile tasks, whatever the cache holds, when nothing throws. -/
theorem scene_enqueues_tiles (cv : OpenCV) (cfg : Settings) (env : PanoEnv) (panoid : String)
    (hfault : env.fault = none)
    (hworld : ∀ n, (detect_generation cv (env.world n).1 (env.world n).2 panoid).1 ≠ 0) :
    ∀ st : RunState, (process_panorama cv cfg env panoid st).tile_tasks ≠ [] := by
  intro st
  have hg : (process_panorama_generation cv env.world panoid st.probe).1.1 ≠ 0 := by
    unfold process_panorama_generation
    dsimp only
    split_ifs with h
    · exact h
    · exact hworld _
  rw [process_panorama_tile_tasks cv cfg env panoid st hg hfault]
  have hpos := get_generation_config_pos
    (process_panorama_generation cv env.world panoid st.probe).1.1
  intro hnil
  have hlen := congrArg List.length hnil
  rw [List.length_map, grid_tasks_length] at hlen
  have : 0 < (get_generation_config
      (process_panorama_generation cv env.world panoid st.probe).1.1).max_x.toNat *
    (get_generation_config
      (process_panorama_generation cv env.world panoid st.probe).1.1).max_y.toNat :=
    Nat.mul_pos (by omega) (by omega)
  simp only [List.length_nil] at hlen
  omega

/-- One iteration of the batch loop whose arithmetic stays in the range of
`int`, whose indices are indices of the vector and whose batch is smaller than
the pool: the bookkeeping is that of the tasks of the batch taking effect in
submission order. -/
theorem batch_loop_step (cv : OpenCV) (cfg : Settings) (envs : Nat → PanoEnv)
    (panoids : List String) (pool_size : Nat) (total batch_size : Int) (fuel : Nat)
    (start : Int) (acc : PanoidsRun) (hlt : start < total)
    (hwrap : wrap32 (start + batch_size) = start + batch_size)
    (hrange : ∀ i ∈ batch_indices start (min (start + batch_size) total),
      0 ≤ i ∧ i < (panoids.length : Int))
    (hpool : (batch_indices start (min (start + batch_size) total)).length < pool_size) :
    batch_loop cv cfg envs panoids pool_size total batch_size (fuel + 1) start acc =
      batch_loop cv cfg envs panoids pool_size total batch_size fuel (start + batch_size)
        ⟨(collect_results
            (scene_results cv cfg envs panoids
              (batch_indices start (min (start + batch_size) total)) acc.state).1
            (acc.successful, acc.failed, acc.completed)).1,
          (collect_results
            (scene_results cv cfg envs panoids
              (batch_indices start (min (start + batch_size) total)) acc.state).1
            (acc.successful, acc.failed, acc.completed)).2.1,
          (collect_results
            (scene_results cv cfg envs panoids
              (batch_indices start (min (start + batch_size) total)) acc.state).1
            (acc.successful, acc.failed, acc.completed)).2.2,
          (scene_results cv cfg envs panoids
            (batch_indices start (min (start + batch_size) total)) acc.state).2,
          acc.results ++ (scene_results cv cfg envs panoids
            (batch_indices start (min (start + batch_size) total)) acc.state).1,
          acc.batches ++ [batch_indices start (min (start + batch_size) total)],
          acc.events ++
            ((batch_indices start (min (start + batch_size) total)).map PoolEvent.submit ++
             (batch_indices start (min (start + batch_size) total)).map PoolEvent.collect)⟩ := by
  have hzip := scene_results_zip cv cfg envs panoids
    (batch_indices start (min (start + batch_size) total)) acc.state
  have hcol : ((batch_indices start (min (start + batch_size) total)).zip
      (scene_results cv cfg envs panoids
        (batch_indices start (min (start + batch_size) total)) acc.state).1).map
      (fun f => PoolEvent.collect f.1) =
      (batch_indices start (min (start + batch_size) total)).map PoolEvent.collect := by
    conv_rhs => rw [← hzip.2]
    rw [List.map_map]
    rfl
  have hpb := process_batch_ok cv cfg envs panoids pool_size
    (batch_indices start (min (start + batch_size) total)) 0 acc.state (by omega)
  simp only [batch_loop, if_pos hlt, hwrap, submit_batch_ok panoids _ hrange, hpb, hzip.1, hcol]

/-- The batch loop with a positive batch size, arithmetic that stays in the
range of `int`, indices inside the vector and a pool with more workers than a
batch has scenes: with enough fuel it returns, its batches cut the remaining
indices into consecutive full batches and a last one that may be shorter, and
its bookkeeping is that of the remaining tasks taking effect in index order. -/
theorem batch_loop_spec (cv : OpenCV) (cfg : Settings) (envs : Nat → PanoEnv)
    (panoids : List String) (pool_size : Nat) (total batch_size : Int) (hB : 1 ≤ batch_size)
    (hov : total + batch_size < 2 ^ 31) (htot : total ≤ (panoids.length : Int))
    (hpool : min batch_size total < (pool_size : Int)) :
    ∀ (fuel : Nat) (start : Int) (acc : PanoidsRun), 0 ≤ start → (total - start).toNat ≤ fuel →
    ∃ (r : PanoidsRun) (bs : List (List Int)),
      batch_loop cv cfg envs panoids pool_size total batch_size fuel start acc = Except.ok r ∧
      r.batches = acc.batches ++ bs ∧
      bs.flatten = batch_indices start total ∧
      (∀ b ∈ bs, 1 ≤ b.length ∧ (b.length : Int) ≤ batch_size) ∧
      (∀ b ∈ bs.dropLast, (b.length : Int) = batch_size) ∧
      r.events = acc.events ++
        bs.flatMap (fun b => b.map PoolEvent.submit ++ b.map PoolEvent.collect) ∧
      r.results = acc.results ++
        (scene_results cv cfg envs panoids (batch_indices start total) acc.state).1 ∧
      r.state = (scene_results cv cfg envs panoids (batch_indices start total) acc.state).2 ∧
      r.successful = acc.successful +
        (scene_results cv cfg envs panoids (batch_indices start total) acc.state).1.count true ∧
      r.failed = acc.failed +
        (scene_results cv cfg envs panoids (batch_indices start total) acc.state).1.count false ∧
      r.completed = acc.completed + (batch_indices start total).length := by
  have hdone : ∀ (start : Int) (acc : PanoidsRun), ¬ start < total →
      ∃ (r : PanoidsRun) (bs : List (List Int)),
        (Except.ok acc : Except Halt PanoidsRun) = Except.ok r ∧
        r.batches = acc.batches ++ bs ∧
        bs.flatten = batch_indices start total ∧
        (∀ b ∈ bs, 1 ≤ b.length ∧ (b.length : Int) ≤ batch_size) ∧
        (∀ b ∈ bs.dropLast, (b.length : Int) = batch_size) ∧
        r.events = acc.events ++
          bs.flatMap (fun b => b.map PoolEvent.submit ++ b.map PoolEvent.collect) ∧
        r.results = acc.results ++
          (scene_results cv cfg envs panoids (batch_indices start total) acc.state).1 ∧
        r.state = (scene_results cv cfg envs panoids (batch_indices start total) acc.state).2 ∧
        r.successful = acc.successful +
          (scene_results cv cfg envs panoids (batch_indices start total) acc.state).1.count true ∧
        r.failed = acc.failed +
          (scene_results cv cfg envs panoids (batch_indices start total) acc.state).1.count false ∧
        r.completed = acc.completed + (batch_indices start total).length := by
    intro start acc hlt
    have hnil : batch_indices start total = [] := batch_indices_empty _ _ (by omega)
    refine ⟨acc, [], rfl, by simp, by simp [hnil], by simp, by simp, by simp, ?_, ?_, ?_, ?_, ?_⟩
    all_goals rw [hnil]
    all_goals simp [scene_results]
  intro fuel
  induction fuel with
  | zero =>
    intro start acc _ hfuel
    have hlt : ¬ start < total := by omega
    have hret : batch_loop cv cfg envs panoids pool_size total batch_size 0 start acc =
        Except.ok acc := by
      simp only [batch_loop, if_neg hlt]
    rw [hret]
    exact hdone start acc hlt
  | succ fuel ih =>
    intro start acc hstart hfuel
    by_cases hlt : start < total
    · obtain ⟨r, bs', hrun, hbat, hflat, hlen, hfull, hev, hres, hst, hs, hf, hc⟩ :=
        ih (start + batch_size)
          ⟨(collect_results
              (scene_results cv cfg envs panoids
                (batch_indices start (min (start + batch_size) total)) acc.state).1
              (acc.successful, acc.failed, acc.completed)).1,
            (collect_results
              (scene_results cv cfg envs panoids
                (batch_indices start (min (start + batch_size) total)) acc.state).1
              (acc.successful, acc.failed, acc.completed)).2.1,
            (collect_results
              (scene_results cv cfg envs panoids
                (batch_indices start (min (start + batch_size) total)) acc.state).1
              (acc.successful, acc.failed, acc.completed)).2.2,
            (scene_results cv cfg envs panoids
              (batch_indices start (min (start + batch_size) total)) acc.state).2,
            acc.results ++ (scene_results cv cfg envs panoids
              (batch_indices start (min (start + batch_size) total)) acc.state).1,
            acc.batches ++ [batch_indices start (min (start + batch_size) total)],
            acc.events ++
              ((batch_indices start (min (start + batch_size) total)).map PoolEvent.submit ++
               (batch_indices start (min (start + batch_size) total)).map PoolEvent.collect)⟩
          (by omega) (by omega)
      have hret : batch_loop cv cfg envs panoids pool_size total batch_size (fuel + 1) start
          acc = Except.ok r := by
        rw [batch_loop_step cv cfg envs panoids pool_size total batch_size fuel start acc hlt
          (wrap32_of_range _ (by omega) (by omega))
          (fun i hi => by
            have := (mem_batch_indices _ _ i).mp hi
            have hm : min (start + batch_size) total ≤ total := min_le_right _ _
            omega)
          (by rw [batch_indices_length]; omega)]
        exact hrun
      have hsplit : batch_indices start (min (start + batch_size) total) ++
          batch_indices (start + batch_size) total = batch_indices start total := by
        by_cases hle : start + batch_size ≤ total
        · rw [min_eq_left hle]
          exact batch_indices_append _ _ _ (by omega) hle
        · rw [min_eq_right (by omega), batch_indices_empty (start + batch_size) total (by omega),
            List.append_nil]
      have hblen : (batch_indices start (min (start + batch_size) total)).length =
          (min (start + batch_size) total - start).toNat := batch_indices_length _ _
      have hpb := scene_results_append cv cfg envs panoids
        (batch_indices start (min (start + batch_size) total))
        (batch_indices (start + batch_size) total) acc.state
      rw [hsplit] at hpb
      have hcol := collect_results_spec
        (scene_results cv cfg envs panoids
          (batch_indices start (min (start + batch_size) total)) acc.state).1
        acc.successful acc.failed acc.completed
      simp only [hcol] at hs hf hc hst hres
      refine ⟨r, batch_indices start (min (start + batch_size) total) :: bs', hret, ?_, ?_, ?_,
        ?_, ?_, ?_, ?_, ?_, ?_, ?_⟩
      · rw [hbat]; simp
      · rw [List.flatten_cons, hflat, hsplit]
      · intro b hb
        rcases List.mem_cons.mp hb with rfl | hb
        · rw [hblen]
          constructor
          · have : start < min (start + batch_size) total := lt_min (by omega) hlt
            omega
          · have : min (start + batch_size) total ≤ start + batch_size := min_le_left _ _
            omega
        · exact hlen b hb
      · intro b hb
        cases bs' with
        | nil => simp at hb
        | cons b' bs'' =>
          rw [List.dropLast_cons₂] at hb
          rcases List.mem_cons.mp hb with rfl | hb
          · have hb'len := (hlen b' (List.mem_cons_self _ _)).1
            have hne : batch_indices (start + batch_size) total ≠ [] := by
              rw [← hflat, List.flatten_cons]
              intro hnil
              have hb'nil : b' = [] := (List.append_eq_nil.mp hnil).1
              rw [hb'nil] at hb'len
              simp at hb'len
            have hlt2 : start + batch_size < total := by
              by_contra hge
              exact hne (batch_indices_empty _ _ (by omega))
            rw [hblen, min_eq_left (by omega)]
            omega
          · exact hfull b hb
      · rw [hev]; simp
      · rw [hres, hpb]; simp
      · rw [hst, hpb]
      · rw [hs, hpb]; simp only [List.count_append]; omega
      · rw [hf, hpb]; simp only [List.count_append]; omega
      · rw [hc, scene_results_length, ← hsplit, List.length_append]; omega
    · have hret : batch_loop cv cfg envs panoids pool_size total batch_size (fuel + 1) start
          acc = Except.ok acc := by
        simp only [batch_loop, if_neg hlt]
      rw [hret]
      exact hdone start acc hlt

/-- With a batch size of zero or less the batch loop never returns: the loop
variable does not advance, or it runs down to the overflow of `int` and a batch
then starts at a negative index. -/
theorem batch_loop_nonpositive (cv : OpenCV) (cfg : Settings) (envs : Nat → PanoEnv)
    (panoids : List String) (pool_size : Nat) (total batch_size : Int) (hB : batch_size ≤ 0)
    (hBr : -2 ^ 31 ≤ batch_size) (htotal : 0 < total) :
    ∀ (fuel : Nat) (start : Int) (acc : PanoidsRun), -2 ^ 31 ≤ start → start ≤ 0 →
    ∃ e : Halt,
      batch_loop cv cfg envs panoids pool_size total batch_size fuel start acc =
        Except.error e := by
  intro fuel
  induction fuel with
  | zero =>
    intro start acc _ h0
    exact ⟨Halt.fuel, by simp only [batch_loop, if_pos (show start < total by omega)]⟩
  | succ fuel ih =>
    intro start acc hlo h0
    have hlt : start < total := by omega
    by_cases hw : -2 ^ 31 ≤ start + batch_size
    · have hwrap := wrap32_of_range (start + batch_size) hw (by omega)
      have hnil : batch_indices start (min (start + batch_size) total) = [] :=
        batch_indices_empty _ _ (by have := min_le_left (start + batch_size) total; omega)
      obtain ⟨e, he⟩ := ih (start + batch_size)
        ⟨(collect_results [] (acc.successful, acc.failed, acc.completed)).1,
          (collect_results [] (acc.successful, acc.failed, acc.completed)).2.1,
          (collect_results [] (acc.successful, acc.failed, acc.completed)).2.2,
          acc.state, acc.results ++ [], acc.batches ++ [[]], acc.events ++ ([] ++ [])⟩
        hw (by omega)
      refine ⟨e, ?_⟩
      simp only [batch_loop, if_pos hlt, hwrap, hnil]
      exact he
    · have hneg : start < 0 := by omega
      have hwrap : wrap32 (start + batch_size) = start + batch_size + 2 ^ 32 := by
        unfold wrap32
        omega
      have hmem : start ∈ batch_indices start (min (wrap32 (start + batch_size)) total) := by
        rw [mem_batch_indices, hwrap]
        exact ⟨le_refl _, lt_min (by omega) hlt⟩
      refine ⟨Halt.out_of_range, ?_⟩
      simp only [batch_loop, if_pos hlt,
        submit_batch_out_of_range panoids _ start hmem (by omega)]

/-- With a batch size of zero the loop variable stays where it is: no amount of
fuel ends the loop. -/
theorem batch_loop_stuck (cv : OpenCV) (cfg : Settings) (envs : Nat → PanoEnv)
    (panoids : List String) (pool_size : Nat) (total : Int) :
    ∀ (fuel : Nat) (start : Int) (acc : PanoidsRun), -2 ^ 31 ≤ start → start < 2 ^ 31 →
    start < total →
    batch_loop cv cfg envs panoids pool_size total 0 fuel start acc =
      Except.error Halt.fuel := by
  intro fuel
  induction fuel with
  | zero =>
    intro start acc _ _ hlt
    simp only [batch_loop, if_pos hlt]
  | succ fuel ih =>
    intro start acc h1 h2 hlt
    have hwrap : wrap32 (start + 0) = start := by
      rw [Int.add_zero]; exact wrap32_of_range start h1 h2
    have hnil : batch_indices start (min start total) = [] :=
      batch_indices_empty _ _ (min_le_left _ _)
    simp only [batch_loop, if_pos hlt, hwrap, hnil]
    exact ih start _ h1 h2 hlt

/-- One iteration of the batch loop whose batch is empty. -/
theorem batch_loop_empty_step (cv : OpenCV) (cfg : Settings) (envs : Nat → PanoEnv)
    (panoids : List String) (pool_size : Nat) (total batch_size : Int) (fuel : Nat)
    (start : Int) (acc : PanoidsRun) (hlt : start < total)
    (hnil : batch_indices start (min (wrap32 (start + batch_size)) total) = []) :
    batch_loop cv cfg envs panoids pool_size total batch_size (fuel + 1) start acc =
      batch_loop cv cfg envs panoids pool_size total batch_size fuel
        (wrap32 (start + batch_size))
        ⟨acc.successful, acc.failed, acc.completed, acc.state, acc.results ++ [],
          acc.batches ++ [[]], acc.events ++ ([] ++ [])⟩ := by
  simp only [batch_loop, if_pos hlt, hnil]
  rfl

/-- One iteration of the batch loop whose batch holds an index outside the
vector. -/
theorem batch_loop_out_of_range_step (cv : OpenCV) (cfg : Settings) (envs : Nat → PanoEnv)
    (panoids : List String) (pool_size : Nat) (total batch_size : Int) (fuel : Nat)
    (start : Int) (acc : PanoidsRun) (hlt : start < total) (i : Int)
    (hmem : i ∈ batch_indices start (min (wrap32 (start + batch_size)) total))
    (hout : ¬ (0 ≤ i ∧ i < (panoids.length : Int))) :
    batch_loop cv cfg envs panoids pool_size total batch_size (fuel + 1) start acc =
      Except.error Halt.out_of_range := by
  simp only [batch_loop, if_pos hlt, submit_batch_out_of_range panoids _ i hmem hout]

/-- One iteration of the batch loop whose batch blocks the pool. -/
theorem batch_loop_deadlock_step (cv : OpenCV) (cfg : Settings) (envs : Nat → PanoEnv)
    (panoids : List String) (pool_size : Nat) (total batch_size : Int) (fuel : Nat)
    (start : Int) (acc : PanoidsRun) (hlt : start < total)
    (hrange : ∀ i ∈ batch_indices start (min (wrap32 (start + batch_size)) total),
      0 ≤ i ∧ i < (panoids.length : Int))
    (hdead : process_batch cv cfg envs panoids pool_size
      (batch_indices start (min (wrap32 (start + batch_size)) total)) 0 acc.state =
        Except.error Halt.deadlock) :
    batch_loop cv cfg envs panoids pool_size total batch_size (fuel + 1) start acc =
      Except.error Halt.deadlock := by
  simp only [batch_loop, if_pos hlt, submit_batch_ok panoids _ hrange, hdead]

/-- With `pano_thread_count = 2^30` the product `pano_thread_count * 2` leaves
the range of `int`: the batch size is -2^31, the first batch is empty, the loop
variable becomes -2^31, and the second batch starts at the index -2^31. -/
theorem process_panoids_overflow (cv : OpenCV) (cfg : Settings) (envs : Nat → PanoEnv)
    (pool_size : Nat) (panoids : List String) (st : RunState) (fuel : Nat)
    (hp : cfg.pano_thread_count = 2 ^ 30) (hn : 0 < panoids.length)
    (hn2 : (panoids.length : Int) < 2 ^ 31) (hfuel : 2 ≤ fuel) :
    process_panoids cv cfg envs pool_size panoids st fuel = Except.error Halt.out_of_range := by
  obtain ⟨f, rfl⟩ : ∃ f, fuel = f + 2 := ⟨fuel - 2, by omega⟩
  have htotal : wrap32 (panoids.length : Int) = (panoids.length : Int) :=
    wrap32_of_range _ (by omega) hn2
  have hB : wrap32 (cfg.pano_thread_count * 2) = -2 ^ 31 := by rw [hp]; decide
  have hw1 : wrap32 (0 + -2 ^ 31) = -2 ^ 31 := by decide
  have hw2 : wrap32 (-2 ^ 31 + -2 ^ 31) = 0 := by decide
  have h0 : (0 : Int) < (panoids.length : Int) := by omega
  have h1 : (-2 ^ 31 : Int) < (panoids.length : Int) := by omega
  have hnil : batch_indices 0 (min (wrap32 (0 + -2 ^ 31)) (panoids.length : Int)) = [] := by
    rw [hw1]
    exact batch_indices_empty _ _
      (by have := min_le_left (-2 ^ 31 : Int) (panoids.length : Int); omega)
  have hmem : (-2 ^ 31 : Int) ∈
      batch_indices (-2 ^ 31) (min (wrap32 (-2 ^ 31 + -2 ^ 31)) (panoids.length : Int)) := by
    rw [mem_batch_indices, hw2]
    exact ⟨le_refl _, lt_min (by norm_num) (by omega)⟩
  show batch_loop cv cfg envs panoids pool_size (wrap32 (panoids.length : Int))
    (wrap32 (cfg.pano_thread_count * 2)) (f + 1 + 1) 0 (PanoidsRun.start st) = _
  rw [htotal, hB, batch_loop_empty_step cv cfg envs panoids pool_size _ _ (f + 1) 0 _ h0 hnil,
    hw1]
  exact batch_loop_out_of_range_step cv cfg envs panoids pool_size _ _ f _ _ h1 _ hmem
    (by omega)

/-- A first batch in which every scene task enqueues tile tasks, on a pool with
no more workers than the batch has scenes: `process_panoids` blocks in the
first `future.get()`. -/
theorem process_panoids_deadlock (cv : OpenCV) (cfg : Settings) (envs : Nat → PanoEnv)
    (pool_size : Nat) (panoids : List String) (st : RunState) (fuel : Nat)
    (hp : 1 ≤ cfg.pano_thread_count)
    (hov : (panoids.length : Int) + 2 * cfg.pano_thread_count < 2 ^ 31)
    (hpool : (pool_size : Int) ≤ min (2 * cfg.pano_thread_count) (panoids.length : Int))
    (hn : 0 < panoids.length) (hfuel : 1 ≤ fuel)
    (htiles : ∀ (i : Nat) (st1 : RunState),
      (process_panorama cv cfg (envs i) (panoids.getD i "") st1).tile_tasks ≠ []) :
    process_panoids cv cfg envs pool_size panoids st fuel = Except.error Halt.deadlock := by
  obtain ⟨f, rfl⟩ : ∃ f, fuel = f + 1 := ⟨fuel - 1, by omega⟩
  have htotal : wrap32 (panoids.length : Int) = (panoids.length : Int) :=
    wrap32_of_range _ (by omega) (by omega)
  have hB : wrap32 (cfg.pano_thread_count * 2) = cfg.pano_thread_count * 2 :=
    wrap32_of_range _ (by omega) (by omega)
  have hw : wrap32 (0 + cfg.pano_thread_count * 2) = 0 + cfg.pano_thread_count * 2 :=
    wrap32_of_range _ (by omega) (by omega)
  have h0 : (0 : Int) < (panoids.length : Int) := by omega
  show batch_loop cv cfg envs panoids pool_size (wrap32 (panoids.length : Int))
    (wrap32 (cfg.pano_thread_count * 2)) (f + 1) 0 (PanoidsRun.start st) = _
  rw [htotal, hB]
  refine batch_loop_deadlock_step cv cfg envs panoids pool_size _ _ f 0 _ h0 ?_ ?_
  · intro i hi
    rw [hw] at hi
    have := (mem_batch_indices _ _ i).mp hi
    have hm := min_le_right (0 + cfg.pano_thread_count * 2) (panoids.length : Int)
    omega
  · rw [hw]
    exact process_batch_deadlock cv cfg envs panoids pool_size _
      (fun i _ st1 => htiles i.toNat st1) 0 (PanoidsRun.start st).state
      (by rw [batch_indices_length]; omega) (Nat.zero_le _)
      (by rw [batch_indices_length]; omega)

/-- The failure set after one `process_panorama` call. -/
theorem process_panorama_failed_set (cv : OpenCV) (cfg : Settings) (env : PanoEnv)
    (panoid : String) (st : RunState) :
    (process_panorama cv cfg env panoid st).state.failed_panoids =
      if (process_panorama cv cfg env panoid st).success = true then st.failed_panoids
      else st.failed_panoids.insert panoid := by
  rcases process_panorama_cases cv cfg env panoid st with
    ⟨st1, tasks, requests, hrun, hkeep⟩ | ⟨hs, hkeep⟩
  · rw [hrun]
    simp only [pano_failed, record_failed_pano, Bool.false_eq_true, if_false, hkeep]
  · rw [if_pos hs, hkeep]

/-- The failure set after the tasks of a list of indices: what was in it before,
and the scenes of the positions that returned false. -/
theorem scene_results_failed_set (cv : OpenCV) (cfg : Settings) (envs : Nat → PanoEnv)
    (panoids : List String) (l : List Int) : ∀ (st : RunState) (s : String),
    (s ∈ (scene_results cv cfg envs panoids l st).2.failed_panoids ↔
      s ∈ st.failed_panoids ∨
      ∃ j, j < l.length ∧ panoids.getD (l.getD j 0).toNat "" = s ∧
        (scene_results cv cfg envs panoids l st).1.getD j true = false) := by
  induction l with
  | nil =>
    intro st s
    simp [scene_results]
  | cons i rest ih =>
    intro st s
    have hset := process_panorama_failed_set cv cfg (envs i.toNat) (panoids.getD i.toNat "") st
    simp only [scene_results]
    rw [ih]
    constructor
    · rintro (hin | ⟨j, hj, hs, hr⟩)
      · rw [hset] at hin
        split_ifs at hin with hsucc
        · exact Or.inl hin
        · rcases List.mem_insert_iff.mp hin with heq | hin
          · right
            refine ⟨0, by simp, ?_, ?_⟩
            · simpa using heq.symm
            · simpa using hsucc
          · exact Or.inl hin
      · right
        exact ⟨j + 1, by simpa using hj, by simpa using hs, by simpa using hr⟩
    · rintro (hin | ⟨j, hj, hs, hr⟩)
      · left
        rw [hset]
        split_ifs
        · exact hin
        · exact List.mem_insert_iff.mpr (Or.inr hin)
      · cases j with
        | zero =>
          left
          rw [hset]
          have hsucc : ¬ (process_panorama cv cfg (envs i.toNat) (panoids.getD i.toNat "")
              st).success = true := by simpa using hr
          rw [if_neg hsucc]
          apply List.mem_insert_iff.mpr
          left
          simpa using hs.symm
        | succ j =>
          right
          exact ⟨j, by simpa using hj, by simpa using hs, by simpa using hr⟩

/-- The failure set stays duplicate-free and grows by at most one element per
failed position. -/
theorem scene_results_failed_size (cv : OpenCV) (cfg : Settings) (envs : Nat → PanoEnv)
    (panoids : List String) (l : List Int) : ∀ (st : RunState), st.failed_panoids.Nodup →
    (scene_results cv cfg envs panoids l st).2.failed_panoids.Nodup ∧
    (scene_results cv cfg envs panoids l st).2.failed_panoids.length ≤
      st.failed_panoids.length + (scene_results cv cfg envs panoids l st).1.count false := by
  induction l with
  | nil =>
    intro st hnd
    exact ⟨hnd, by simp [scene_results]⟩
  | cons i rest ih =>
    intro st hnd
    have hset := process_panorama_failed_set cv cfg (envs i.toNat) (panoids.getD i.toNat "") st
    have hnd1 : (process_panorama cv cfg (envs i.toNat) (panoids.getD i.toNat "")
        st).state.failed_panoids.Nodup := by
      rw [hset]
      split_ifs
      · exact hnd
      · exact hnd.insert
    have hlen1 : (process_panorama cv cfg (envs i.toNat) (panoids.getD i.toNat "")
        st).state.failed_panoids.length ≤ st.failed_panoids.length +
        [(process_panorama cv cfg (envs i.toNat) (panoids.getD i.toNat "")
          st).success].count false := by
      rw [hset]
      split_ifs with hsucc
      · omega
      · have hfalse : (process_panorama cv cfg (envs i.toNat) (panoids.getD i.toNat "")
            st).success = false := by simpa using hsucc
        rw [hfalse]
        by_cases hmem : panoids.getD i.toNat "" ∈ st.failed_panoids
        · rw [List.length_insert_of_mem hmem]; omega
        · rw [List.length_insert_of_not_mem hmem]; simp
    obtain ⟨h1, h2⟩ := ih _ hnd1
    simp only [scene_results]
    refine ⟨h1, ?_⟩
    have hcount : ((process_panorama cv cfg (envs i.toNat) (panoids.getD i.toNat "")
          st).success ::
        (scene_results cv cfg envs panoids rest
          (process_panorama cv cfg (envs i.toNat) (panoids.getD i.toNat "")
            st).state).1).count false =
        [(process_panorama cv cfg (envs i.toNat) (panoids.getD i.toNat "")
          st).success].count false +
        (scene_results cv cfg envs panoids rest
          (process_panorama cv cfg (envs i.toNat) (panoids.getD i.toNat "")
            st).state).1.count false := by
      rw [← List.count_append]
      rfl
    rw [hcount]
    omega

/-- The submitted indices of a trace made of batches. -/
theorem submitted_indices_batches (bs : List (List Int)) :
    submitted_indices
      (bs.flatMap (fun b => b.map PoolEvent.submit ++ b.map PoolEvent.collect)) =
      bs.flatten := by
  have hsub : ∀ (b : List Int) (rest : List PoolEvent),
      submitted_indices (b.map PoolEvent.submit ++ rest) = b ++ submitted_indices rest := by
    intro b rest
    induction b with
    | nil => rfl
    | cons i b ih =>
      rw [List.map_cons, List.cons_append]
      show i :: submitted_indices (b.map PoolEvent.submit ++ rest) = _
      rw [ih]
      rfl
  have hcol : ∀ (b : List Int) (rest : List PoolEvent),
      submitted_indices (b.map PoolEvent.collect ++ rest) = submitted_indices rest := by
    intro b rest
    induction b with
    | nil => rfl
    | cons i b ih =>
      rw [List.map_cons, List.cons_append]
      show submitted_indices (b.map PoolEvent.collect ++ rest) = _
      rw [ih]
  induction bs with
  | nil => rfl
  | cons b bs ih =>
    rw [List.flatMap_cons, List.flatten_cons, List.append_assoc, hsub, hcol, ih]

/-- The indices from 0 are pairwise distinct. -/
theorem batch_indices_nodup (start stop : Int) : (batch_indices start stop).Nodup := by
  unfold batch_indices
  apply List.Nodup.map _ (List.nodup_range _)
  intro a b h
  simpa using h

/-- Every result is either true or false. -/
theorem count_true_add_count_false (rs : List Bool) :
    rs.count true + rs.count false = rs.length := by
  induction rs with
  | nil => rfl
  | cons r rest ih =>
    cases r <;> simp [List.count_cons] <;> omega

/-- With `pano_thread_count * 2` and the number of scenes in the range of `int`,
`process_panoids` is the batch loop entered at 0 with these two values. -/
theorem process_panoids_in_range (cv : OpenCV) (cfg : Settings) (envs : Nat → PanoEnv)
    (pool_size : Nat) (panoids : List String) (st : RunState) (fuel : Nat)
    (hlo : -2 ^ 30 ≤ cfg.pano_thread_count) (hhi : cfg.pano_thread_count < 2 ^ 30)
    (hn : (panoids.length : Int) < 2 ^ 31) :
    process_panoids cv cfg envs pool_size panoids st fuel =
      batch_loop cv cfg envs panoids pool_size (panoids.length : Int)
        (cfg.pano_thread_count * 2) fuel 0 (PanoidsRun.start st) := by
  have htotal : wrap32 (panoids.length : Int) = (panoids.length : Int) :=
    wrap32_of_range _ (by omega) hn
  have hB : wrap32 (cfg.pano_thread_count * 2) = cfg.pano_thread_count * 2 :=
    wrap32_of_range _ (by omega) (by omega)
  show batch_loop cv cfg envs panoids pool_size (wrap32 (panoids.length : Int))
    (wrap32 (cfg.pano_thread_count * 2)) fuel 0 (PanoidsRun.start st) = _
  rw [htotal, hB]

/-- On the sample server with the two generation-2 probe tiles every scene has
a detected generation, so every scene task enqueues tile tasks. -/
theorem gen2_only_enqueues (cfg : Settings) (panoid : String) (st : RunState) :
    (process_panorama sample_cv cfg (env_of gen2_only) panoid st).tile_tasks ≠ [] := by
  refine scene_enqueues_tiles sample_cv cfg (env_of gen2_only) panoid rfl ?_ st
  intro n
  have hopen : ((env_of gen2_only).world n).1 = true := rfl
  have hserver : ((env_of gen2_only).world n).2 = server_of gen2_only := rfl
  rw [hopen, hserver, detect_generation_closed]
  simp only [tile_valid_server_of]
  simp [gen2_only]

/-- C16 (the part the code satisfies, and where it fails): with
`pano_thread_count >= 1`, `int` arithmetic that does not overflow
(n + 2 * pano_thread_count < 2^31), a pool with more workers than a batch has
scenes and an empty failure set at the start, `process_panoids` returns counters
with successful + failed equal to the number of scenes, successful (failed)
being the number of positions whose `process_panorama` returned true (false),
and the failure set at the end holds exactly the ids of the positions that
failed, without duplicates, so that its size is at most `failed`.  With
`pano_thread_count >= 1` alone it need not return: when the pool has no more
workers than the first batch has scenes and every scene enqueues tile tasks,
every worker is held by a waiting scene task and the first `future.get()` never
returns; with `pano_thread_count = 2^30` the batch size overflows and the
second batch starts at the index -2^31. -/
theorem process_panoids_counts (cv : OpenCV) (cfg : Settings) (envs : Nat → PanoEnv)
    (pool_size : Nat) (panoids : List String) (st : RunState) :
    (1 ≤ cfg.pano_thread_count →
      (panoids.length : Int) + 2 * cfg.pano_thread_count < 2 ^ 31 →
      min (2 * cfg.pano_thread_count) (panoids.length : Int) < (pool_size : Int) →
      st.failed_panoids = [] → ∀ fuel : Nat, panoids.length ≤ fuel →
      ∃ r : PanoidsRun,
        process_panoids cv cfg envs pool_size panoids st fuel = Except.ok r ∧
        r.results =
          (scene_results cv cfg envs panoids (batch_indices 0 (panoids.length : Int)) st).1 ∧
        r.results.length = panoids.length ∧
        r.successful + r.failed = panoids.length ∧
        r.successful = r.results.count true ∧
        r.failed = r.results.count false ∧
        (∀ s : String, s ∈ r.state.failed_panoids ↔
          ∃ j, j < panoids.length ∧ panoids.getD j "" = s ∧ r.results.getD j true = false) ∧
        r.state.failed_panoids.Nodup ∧
        r.state.failed_panoids.length ≤ r.failed) ∧
    (1 ≤ cfg.pano_thread_count →
      (panoids.length : Int) + 2 * cfg.pano_thread_count < 2 ^ 31 →
      (pool_size : Int) ≤ min (2 * cfg.pano_thread_count) (panoids.length : Int) →
      0 < panoids.length →
      (∀ (i : Nat) (st1 : RunState),
        (process_panorama cv cfg (envs i) (panoids.getD i "") st1).tile_tasks ≠ []) →
      ∀ fuel : Nat, 1 ≤ fuel →
        process_panoids cv cfg envs pool_size panoids st fuel = Except.error Halt.deadlock) ∧
    (cfg.pano_thread_count = 2 ^ 30 → 0 < panoids.length →
      (panoids.length : Int) < 2 ^ 31 → ∀ fuel : Nat, 2 ≤ fuel →
        process_panoids cv cfg envs pool_size panoids st fuel =
          Except.error Halt.out_of_range) := by
  refine ⟨?_, ?_, ?_⟩
  · intro hp hov hpool hempty fuel hfuel
    obtain ⟨r, bs, hrun, _, _, _, _, _, hres, hst, hs, hf, _⟩ :=
      batch_loop_spec cv cfg envs panoids pool_size (panoids.length : Int)
        (cfg.pano_thread_count * 2) (by omega) (by omega) (le_refl _)
        (by rw [show cfg.pano_thread_count * 2 = 2 * cfg.pano_thread_count by ring]
            exact hpool)
        fuel 0 (PanoidsRun.start st) (le_refl _) (by omega)
    rw [← process_panoids_in_range cv cfg envs pool_size panoids st fuel (by omega) (by omega)
      (by omega)] at hrun
    simp only [PanoidsRun.start, List.nil_append, Nat.zero_add] at hres hst hs hf
    have hlen : r.results.length = panoids.length := by
      rw [hres, scene_results_length, batch_indices_length]
      omega
    have hnd := scene_results_failed_size cv cfg envs panoids
      (batch_indices 0 (panoids.length : Int)) st (by rw [hempty]; exact List.nodup_nil)
    refine ⟨r, hrun, hres, hlen, ?_, ?_, ?_, ?_, ?_, ?_⟩
    · rw [hs, hf, ← hres, count_true_add_count_false, hlen]
    · rw [hs, hres]
    · rw [hf, hres]
    · intro s
      rw [hst, scene_results_failed_set, hempty, ← hres, batch_indices_length]
      have hn : ((panoids.length : Int) - 0).toNat = panoids.length := by omega
      rw [hn]
      constructor
      · rintro (hin | ⟨j, hj, hsj, hr⟩)
        · simp at hin
        · rw [batch_indices_zero_get _ j hj] at hsj
          exact ⟨j, hj, by simpa using hsj, hr⟩
      · rintro ⟨j, hj, hsj, hr⟩
        right
        refine ⟨j, hj, ?_, hr⟩
        rw [batch_indices_zero_get _ j hj]
        simpa using hsj
    · rw [hst]; exact hnd.1
    · rw [hst, hf]
      have := hnd.2
      rw [hempty] at this
      simpa using this
  · intro hp hov hpool hn htiles fuel hfuel
    exact process_panoids_deadlock cv cfg envs pool_size panoids st fuel hp hov hpool hn hfuel
      htiles
  · intro hp hn hn2 fuel hfuel
    exact process_panoids_overflow cv cfg envs pool_size panoids st fuel hp hn hn2 hfuel

/-- Witness for C16: four scenes of the sample server with the two generation-2
probe tiles, with the default settings (batches of 8) and an empty failure set.
On the pool of 128 workers that `run()` builds by default the counters are
returned; on the pool of 4 workers that `run()` builds for `--tile-threads 4`
the call does not return. -/
theorem process_panoids_counts_witness :
    (∃ r : PanoidsRun,
      process_panoids sample_cv default_settings (fun _ => env_of gen2_only)
        (run_pool default_threads) ["a", "b", "c", "d"] RunState.init 4 = Except.ok r ∧
      r.results =
        (scene_results sample_cv default_settings (fun _ => env_of gen2_only)
          ["a", "b", "c", "d"]
          (batch_indices 0 ((["a", "b", "c", "d"] : List String).length : Int))
          RunState.init).1 ∧
      r.results.length = (["a", "b", "c", "d"] : List String).length ∧
      r.successful + r.failed = (["a", "b", "c", "d"] : List String).length ∧
      r.successful = r.results.count true ∧
      r.failed = r.results.count false ∧
      (∀ s : String, s ∈ r.state.failed_panoids ↔
        ∃ j, j < (["a", "b", "c", "d"] : List String).length ∧
          (["a", "b", "c", "d"] : List String).getD j "" = s ∧
          r.results.getD j true = false) ∧
      r.state.failed_panoids.Nodup ∧
      r.state.failed_panoids.length ≤ r.failed) ∧
    process_panoids sample_cv default_settings (fun _ => env_of gen2_only)
      (run_pool ⟨512, 4, 4⟩) ["a", "b", "c", "d"] RunState.init 4 =
        Except.error Halt.deadlock :=
  ⟨(process_panoids_counts sample_cv default_settings (fun _ => env_of gen2_only)
      (run_pool default_threads) ["a", "b", "c", "d"] RunState.init).1
      (by decide) (by decide) (by decide) rfl 4 (by decide),
   (process_panoids_counts sample_cv default_settings (fun _ => env_of gen2_only)
      (run_pool ⟨512, 4, 4⟩) ["a", "b", "c", "d"] RunState.init).2.1
      (by decide) (by decide) (by decide) (by decide)
      (fun _ st1 => gen2_only_enqueues default_settings _ st1) 4 (by decide)⟩

/-- C17 (the part the code satisfies, and where it fails): with
`pano_thread_count >= 1`, `int` arithmetic that does not overflow
(n + 2 * pano_thread_count < 2^31) and a pool with more workers than a batch has
scenes, the batch loop of `process_panoids` returns, and it cuts the scene
indices 0, ..., n-1, in order, into consecutive batches: each has between 1 and
2 * pano_thread_count scenes, all but the last have exactly
2 * pano_thread_count, every scene is submitted exactly once, and the trace is,
batch after batch, all submissions of the batch followed by the collection of
all its futures.  With -2^30 <= `pano_thread_count` <= 0 and n > 0 the loop never
ends normally, with `pano_thread_count = 0` because the loop variable stays at
0.  With `pano_thread_count >= 1` alone the loop need not end: when the pool has
no more workers than the first batch has scenes and every scene enqueues tile
tasks, the first `future.get()` never returns; with `pano_thread_count = 2^30`
the batch size overflows and the second batch starts at the index -2^31. -/
theorem process_panoids_batches (cv : OpenCV) (cfg : Settings) (envs : Nat → PanoEnv)
    (pool_size : Nat) (panoids : List String) (st : RunState) :
    (1 ≤ cfg.pano_thread_count →
      (panoids.length : Int) + 2 * cfg.pano_thread_count < 2 ^ 31 →
      min (2 * cfg.pano_thread_count) (panoids.length : Int) < (pool_size : Int) →
      ∀ fuel : Nat, panoids.length ≤ fuel →
      ∃ r : PanoidsRun,
        process_panoids cv cfg envs pool_size panoids st fuel = Except.ok r ∧
        r.batches.flatten = batch_indices 0 (panoids.length : Int) ∧
        (∀ b ∈ r.batches, 1 ≤ b.length ∧ (b.length : Int) ≤ 2 * cfg.pano_thread_count) ∧
        (∀ b ∈ r.batches.dropLast, (b.length : Int) = 2 * cfg.pano_thread_count) ∧
        r.events =
          r.batches.flatMap (fun b => b.map PoolEvent.submit ++ b.map PoolEvent.collect) ∧
        submitted_indices r.events = batch_indices 0 (panoids.length : Int) ∧
        (submitted_indices r.events).Nodup) ∧
    (-2 ^ 30 ≤ cfg.pano_thread_count → cfg.pano_thread_count ≤ 0 → 0 < panoids.length →
      (panoids.length : Int) < 2 ^ 31 → ∀ fuel : Nat,
      ∃ e : Halt, process_panoids cv cfg envs pool_size panoids st fuel = Except.error e) ∧
    (cfg.pano_thread_count = 0 → 0 < panoids.length →
      (panoids.length : Int) < 2 ^ 31 → ∀ fuel : Nat,
      process_panoids cv cfg envs pool_size panoids st fuel = Except.error Halt.fuel) ∧
    (1 ≤ cfg.pano_thread_count →
      (panoids.length : Int) + 2 * cfg.pano_thread_count < 2 ^ 31 →
      (pool_size : Int) ≤ min (2 * cfg.pano_thread_count) (panoids.length : Int) →
      0 < panoids.length →
      (∀ (i : Nat) (st1 : RunState),
        (process_panorama cv cfg (envs i) (panoids.getD i "") st1).tile_tasks ≠ []) →
      ∀ fuel : Nat, 1 ≤ fuel →
        process_panoids cv cfg envs pool_size panoids st fuel = Except.error Halt.deadlock) ∧
    (cfg.pano_thread_count = 2 ^ 30 → 0 < panoids.length →
      (panoids.length : Int) < 2 ^ 31 → ∀ fuel : Nat, 2 ≤ fuel →
        process_panoids cv cfg envs pool_size panoids st fuel =
          Except.error Halt.out_of_range) := by
  refine ⟨?_, ?_, ?_, ?_, ?_⟩
  · intro hp hov hpool fuel hfuel
    obtain ⟨r, bs, hrun, hbat, hflat, hlen, hfull, hev, _⟩ :=
      batch_loop_spec cv cfg envs panoids pool_size (panoids.length : Int)
        (cfg.pano_thread_count * 2) (by omega) (by omega) (le_refl _)
        (by rw [show cfg.pano_thread_count * 2 = 2 * cfg.pano_thread_count by ring]
            exact hpool)
        fuel 0 (PanoidsRun.start st) (le_refl _) (by omega)
    rw [← process_panoids_in_range cv cfg envs pool_size panoids st fuel (by omega) (by omega)
      (by omega)] at hrun
    simp only [PanoidsRun.start, List.nil_append] at hbat hev
    have hsub : submitted_indices r.events = batch_indices 0 (panoids.length : Int) := by
      rw [hev, submitted_indices_batches, hflat]
    refine ⟨r, hrun, by rw [hbat, hflat], ?_, ?_, by rw [hev, hbat], hsub, ?_⟩
    · intro b hb
      rw [hbat] at hb
      have := hlen b hb
      exact ⟨this.1, by omega⟩
    · intro b hb
      rw [hbat] at hb
      have := hfull b hb
      omega
    · rw [hsub]
      exact batch_indices_nodup _ _
  · intro hlo hp hn hn2 fuel
    rw [process_panoids_in_range cv cfg envs pool_size panoids st fuel hlo (by omega) hn2]
    exact batch_loop_nonpositive cv cfg envs panoids pool_size (panoids.length : Int)
      (cfg.pano_thread_count * 2) (by omega) (by omega) (by omega) fuel 0
      (PanoidsRun.start st) (by norm_num) (le_refl _)
  · intro hp hn hn2 fuel
    rw [process_panoids_in_range cv cfg envs pool_size panoids st fuel (by omega) (by omega)
      hn2, hp]
    exact batch_loop_stuck cv cfg envs panoids pool_size (panoids.length : Int) fuel 0
      (PanoidsRun.start st) (by norm_num) (by norm_num) (by omega)
  · intro hp hov hpool hn htiles fuel hfuel
    exact process_panoids_deadlock cv cfg envs pool_size panoids st fuel hp hov hpool hn hfuel
      htiles
  · intro hp hn hn2 fuel hfuel
    exact process_panoids_overflow cv cfg envs pool_size panoids st fuel hp hn hn2 hfuel

/-- Witness for C17: ten scenes with `pano_thread_count = 2` on a pool of 8
workers are cut into batches of 4, 4 and 2; with `pano_thread_count = 0` the
loop does not end; five scenes of the sample server with the two generation-2
probe tiles, with `pano_thread_count = 2` on the pool of 3 workers that `run()`
builds for `--tile-threads 3`, block the pool in the first batch. -/
theorem process_panoids_batches_witness :
    (∃ r : PanoidsRun,
      process_panoids sample_cv ⟨3, 2, true, true, false⟩ (fun _ => env_of gen2_only) 8
        ["a", "b", "c", "d", "e", "f", "g", "h", "i", "j"] RunState.init 10 = Except.ok r ∧
      r.batches.flatten = batch_indices 0
        ((["a", "b", "c", "d", "e", "f", "g", "h", "i", "j"] : List String).length : Int) ∧
      (∀ b ∈ r.batches, 1 ≤ b.length ∧
        (b.length : Int) ≤ 2 * (⟨3, 2, true, true, false⟩ : Settings).pano_thread_count) ∧
      (∀ b ∈ r.batches.dropLast,
        (b.length : Int) = 2 * (⟨3, 2, true, true, false⟩ : Settings).pano_thread_count) ∧
      r.events =
        r.batches.flatMap (fun b => b.map PoolEvent.submit ++ b.map PoolEvent.collect) ∧
      submitted_indices r.events = batch_indices 0
        ((["a", "b", "c", "d", "e", "f", "g", "h", "i", "j"] : List String).length : Int) ∧
      (submitted_indices r.events).Nodup) ∧
    (∀ fuel : Nat,
      process_panoids sample_cv ⟨3, 0, true, true, false⟩ (fun _ => env_of gen2_only) 8
        ["a", "b", "c"] RunState.init fuel = Except.error Halt.fuel) ∧
    process_panoids sample_cv ⟨3, 2, true, true, false⟩ (fun _ => env_of gen2_only)
      (run_pool ⟨512, 3, 2⟩) ["a", "b", "c", "d", "e"] RunState.init 5 =
        Except.error Halt.deadlock :=
  ⟨(process_panoids_batches sample_cv ⟨3, 2, true, true, false⟩ (fun _ => env_of gen2_only) 8
      ["a", "b", "c", "d", "e", "f", "g", "h", "i", "j"] RunState.init).1
      (by decide) (by decide) (by decide) 10 (by decide),
   (process_panoids_batches sample_cv ⟨3, 0, true, true, false⟩ (fun _ => env_of gen2_only) 8
      ["a", "b", "c"] RunState.init).2.2.1 rfl (by decide) (by decide),
   (process_panoids_batches sample_cv ⟨3, 2, true, true, false⟩ (fun _ => env_of gen2_only)
      (run_pool ⟨512, 3, 2⟩) ["a", "b", "c", "d", "e"] RunState.init).2.2.2.1
      (by decide) (by decide) (by decide) (by decide)
      (fun _ st1 => gen2_only_enqueues _ _ st1) 5 (by decide)⟩

/-- The backoff of a later attempt is at least that of an earlier one, whatever
the two jitters in [0, 1) are. -/
theorem backoff_time_le (i k : Nat) (j j' : ℚ) (hlt : i < k) (hj1 : j < 1) (hj0 : 0 ≤ j') :
    backoff_time i j ≤ backoff_time k j' := by
  have h1 : (1 : ℚ) ≤ 2 ^ i := one_le_pow₀ (by norm_num)
  have h2 : (2 : ℚ) ^ (i + 1) ≤ 2 ^ k := pow_le_pow_right₀ (by norm_num) hlt
  have h3 : (2 : ℚ) ^ (i + 1) = 2 * 2 ^ i := by ring
  unfold backoff_time
  exact min_le_min (by linarith) le_rfl

/-- Every sleep of the retry loop entered at attempt `a` is the backoff of an
attempt `i` with `a <= i` and `1 <= i`. -/
theorem download_attempts_sleeps_from (cv : OpenCV) (respond : Nat → Response)
    (jitter : Nat → ℚ) (x y : Int) (n : Nat) : ∀ (a : Nat) (d : ℚ),
    d ∈ sleep_times (download_attempts cv respond jitter x y n a).2 →
    ∃ i, a ≤ i ∧ 1 ≤ i ∧ d = backoff_time i (jitter i) := by
  induction n with
  | zero => intro a d h; simp [download_attempts, sleep_times] at h
  | succ n ih =>
    intro a d h
    cases hacc : attempt_accepts cv (respond a) with
    | some img =>
      rw [download_attempts_accept _ _ _ _ _ _ _ _ hacc] at h
      by_cases ha : a > 0
      · simp [ha, sleep_times] at h
        exact ⟨a, le_refl a, ha, h⟩
      · simp [ha, sleep_times] at h
    | none =>
      rw [download_attempts_reject _ _ _ _ _ _ _ hacc] at h
      by_cases ha : a > 0
      · simp [ha, sleep_times] at h
        rcases h with h | h
        · exact ⟨a, le_refl a, ha, h⟩
        · obtain ⟨i, h1, h2, h3⟩ := ih (a + 1) d h
          exact ⟨i, by omega, h2, h3⟩
      · simp [ha, sleep_times] at h
        obtain ⟨i, h1, h2, h3⟩ := ih (a + 1) d h
        exact ⟨i, by omega, h2, h3⟩

/-- The sleeps of the retry loop never get shorter. -/
theorem download_attempts_sleeps_sorted (cv : OpenCV) (respond : Nat → Response)
    (jitter : Nat → ℚ) (hjit : ∀ n, 0 ≤ jitter n ∧ jitter n < 1) (x y : Int) (n : Nat) :
    ∀ a : Nat,
    (sleep_times (download_attempts cv respond jitter x y n a).2).Pairwise (· ≤ ·) := by
  induction n with
  | zero => intro a; simp [download_attempts, sleep_times]
  | succ n ih =>
    intro a
    have hlater : ∀ d ∈ sleep_times (download_attempts cv respond jitter x y n (a + 1)).2,
        backoff_time a (jitter a) ≤ d := by
      intro d hd
      obtain ⟨i, h1, _, h3⟩ := download_attempts_sleeps_from cv respond jitter x y n (a + 1) d hd
      rw [h3]
      exact backoff_time_le a i _ _ (by omega) (hjit a).2 (hjit i).1
    cases hacc : attempt_accepts cv (respond a) with
    | some img =>
      rw [download_attempts_accept _ _ _ _ _ _ _ _ hacc]
      by_cases ha : a > 0
      · simp [ha, sleep_times]
      · simp [ha, sleep_times]
    | none =>
      rw [download_attempts_reject _ _ _ _ _ _ _ hacc]
      by_cases ha : a > 0
      · simp only [ha, if_true, List.singleton_append, sleep_times]
        exact List.pairwise_cons.mpr ⟨hlater, ih (a + 1)⟩
      · simp only [ha, if_false, List.nil_append, sleep_times]
        exact ih (a + 1)

/-- C22: for attempt indices i < i' (in particular 1 <= i < i') and jitters j, j'
in [0, 1), min(2^i + j, 10) <= min(2^i' + j', 10); and whatever jitters in [0, 1)
are drawn, the sleeps of one `download_tile` call never get shorter from one
retry to the next. -/
theorem backoff_time_monotone (i k : Nat) (j j' : ℚ) (hlt : i < k)
    (hj : 0 ≤ j ∧ j < 1) (hj' : 0 ≤ j' ∧ j' < 1) :
    backoff_time i j ≤ backoff_time k j' ∧
    (∀ (cv : OpenCV) (svc : TileService) (retry_count x y : Int) (panoid : String) (zoom : Int),
      (∀ n, 0 ≤ svc.jitter ⟨panoid, zoom, x, y⟩ n ∧ svc.jitter ⟨panoid, zoom, x, y⟩ n < 1) →
      (sleep_times (download_tile cv svc retry_count x y panoid zoom).2).Pairwise (· ≤ ·)) := by
  refine ⟨backoff_time_le i k j j' hlt hj.2 hj'.1, ?_⟩
  intro cv svc retry_count x y panoid zoom hjit
  unfold download_tile
  cases svc.curl_ok ⟨panoid, zoom, x, y⟩
  · simp [sleep_times]
  · exact download_attempts_sleeps_sorted cv _ _ hjit x y _ 0

/-- Witness for C22: attempts 1 and 2 with jitters 9/10 and 0, and the sleeps of a
download that succeeds at its third attempt. -/
theorem backoff_time_monotone_witness :
    backoff_time 1 (9 / 10) ≤ backoff_time 2 0 ∧
    (sleep_times (download_tile sample_cv (flaky_service 2) 3 5 6 "pano" 4).2).Pairwise
      (· ≤ ·) :=
  ⟨(backoff_time_monotone 1 2 (9 / 10) 0 (by decide) (by norm_num) (by norm_num)).1,
   (backoff_time_monotone 1 2 (9 / 10) 0 (by decide) (by norm_num) (by norm_num)).2
      sample_cv (flaky_service 2) 3 5 6 "pano" 4
      (fun _ => by norm_num [flaky_service])⟩

/-- For a non-negative `a` and a positive `b`, `fmod a b` is `a` minus a whole
multiple of `b` and lies in [0, b). -/
theorem fmod_of_nonneg {α : Type} [LinearOrderedField α] [FloorRing α] (a b : α)
    (ha : 0 ≤ a) (hb : 0 < b) :
    fmod a b = a - b * ((⌊a / b⌋ : Int) : α) ∧ 0 ≤ fmod a b ∧ fmod a b < b := by
  have hq : 0 ≤ a / b := div_nonneg ha hb.le
  have hdef : fmod a b = a - b * ((⌊a / b⌋ : Int) : α) := by
    unfold fmod
    rw [if_pos hq]
  have hfl : ((⌊a / b⌋ : Int) : α) ≤ a / b := Int.floor_le _
  have hlt : a / b < ((⌊a / b⌋ : Int) : α) + 1 := Int.lt_floor_add_one _
  have hab : a = b * (a / b) := by field_simp
  refine ⟨hdef, ?_, ?_⟩
  · rw [hdef]
    have : b * ((⌊a / b⌋ : Int) : α) ≤ b * (a / b) := mul_le_mul_of_nonneg_left hfl hb.le
    linarith
  · rw [hdef]
    have : b * (a / b) < b * (((⌊a / b⌋ : Int) : α) + 1) := mul_lt_mul_of_pos_left hlt hb
    linarith

/-- Rounding to the nearest integer moves a number by at most one half. -/
theorem round_half_even_err (q : ℚ) : |(round_half_even q : ℚ) - q| ≤ 1 / 2 := by
  have h1 := Int.floor_le q
  have h2 := Int.lt_floor_add_one q
  unfold round_half_even
  dsimp only
  split_ifs with a b c
  · rw [abs_le]; constructor <;> linarith
  · rw [abs_le]; push_cast; constructor <;> linarith
  · rw [abs_le]; constructor <;> linarith
  · rw [abs_le]; push_cast; constructor <;> linarith

/-- An integer is its own rounding. -/
theorem round_half_even_int (n : Int) : round_half_even (n : ℚ) = n := by
  unfold round_half_even
  simp

/-- The binary exponent of a positive rational between two powers of 2. -/
theorem int_log_eq (q : ℚ) (e : Int) (h1 : (2 : ℚ) ^ e ≤ q) (h2 : q < (2 : ℚ) ^ (e + 1)) :
    Int.log 2 q = e := by
  have hq : 0 < q := lt_of_lt_of_le (zpow_pos (by norm_num) e) h1
  have a1 : e ≤ Int.log 2 q := (Int.zpow_le_iff_le_log (by norm_num) hq).mp (by exact_mod_cast h1)
  have a2 : Int.log 2 q < e + 1 :=
    (Int.lt_zpow_iff_log_lt (by norm_num) hq).mp (by exact_mod_cast h2)
  omega

/-- The `double` nearest to `q`, from the binary exponent of `q` and the rounded
significand. -/
theorem round_double_eq (q : ℚ) (e m : Int) (h1 : (2 : ℚ) ^ e ≤ |q|)
    (h2 : |q| < (2 : ℚ) ^ (e + 1)) (hm : round_half_even (q / 2 ^ (e - 52)) = m) :
    round_double q = (m : ℚ) * 2 ^ (e - 52) := by
  have hq : q ≠ 0 := by
    intro h
    rw [h, abs_zero] at h1
    exact absurd h1 (not_le.mpr (zpow_pos (by norm_num) e))
  unfold round_double
  rw [if_neg hq]
  dsimp only
  rw [int_log_eq |q| e h1 h2, hm]

/-- The rounding error of a `double` operation whose exact result is below
2^k in absolute value is at most 2^(k-54), half a unit in the last place. -/
theorem round_double_err (q : ℚ) (k : Int) (hk : |q| < (2 : ℚ) ^ k) :
    |round_double q - q| ≤ (2 : ℚ) ^ (k - 54) := by
  by_cases hq : q = 0
  · rw [hq]; simp [round_double]; positivity
  unfold round_double
  rw [if_neg hq]
  dsimp only
  have hpos : 0 < |q| := abs_pos.mpr hq
  have hle : (2 : ℚ) ^ (Int.log 2 |q|) ≤ |q| := by
    have := Int.zpow_log_le_self (by norm_num : 1 < 2) hpos
    exact_mod_cast this
  have he : Int.log 2 |q| < k := by
    have hlt := lt_of_le_of_lt hle hk
    by_contra hge
    have : (2 : ℚ) ^ k ≤ 2 ^ (Int.log 2 |q|) := zpow_le_zpow_right₀ (by norm_num) (by omega)
    linarith
  generalize Int.log 2 |q| = e at *
  have hu : (0 : ℚ) < 2 ^ (e - 52) := zpow_pos (by norm_num) _
  have herr := round_half_even_err (q / 2 ^ (e - 52))
  have : (round_half_even (q / 2 ^ (e - 52)) : ℚ) * 2 ^ (e - 52) - q =
      ((round_half_even (q / 2 ^ (e - 52)) : ℚ) - q / 2 ^ (e - 52)) * 2 ^ (e - 52) := by
    field_simp
  rw [this, abs_mul, abs_of_pos hu]
  have h3 : (2 : ℚ) ^ (e - 52) ≤ 2 ^ (k - 53) := zpow_le_zpow_right₀ (by norm_num) (by omega)
  have h4 : (2 : ℚ) ^ (k - 53) = 2 * 2 ^ (k - 54) := by
    rw [show k - 53 = (k - 54) + 1 by ring, zpow_add_one₀ (by norm_num)]; ring
  have h5 : (0 : ℚ) < 2 ^ (k - 54) := zpow_pos (by norm_num) _
  calc |(round_half_even (q / 2 ^ (e - 52)) : ℚ) - q / 2 ^ (e - 52)| * 2 ^ (e - 52)
      ≤ 1 / 2 * 2 ^ (e - 52) := by apply mul_le_mul_of_nonneg_right herr hu.le
    _ ≤ 1 / 2 * (2 * 2 ^ (k - 54)) := by rw [← h4]; linarith
    _ = 2 ^ (k - 54) := by ring

/-- A multiple of 2^-43 below 1024 in absolute value is a `double`: the
operation that yields it does not round. -/
theorem round_double_of_multiple (q : ℚ) (m : Int) (hq : q = (m : ℚ) / 2 ^ 43)
    (hlt : |q| < 1024) : round_double q = q := by
  by_cases h0 : q = 0
  · rw [h0]; simp [round_double]
  unfold round_double
  rw [if_neg h0]
  dsimp only
  have hpos : 0 < |q| := abs_pos.mpr h0
  have hle : (2 : ℚ) ^ (Int.log 2 |q|) ≤ |q| := by
    have := Int.zpow_log_le_self (by norm_num : 1 < 2) hpos
    exact_mod_cast this
  have he : Int.log 2 |q| < 10 := by
    have hlt2 : (2 : ℚ) ^ (Int.log 2 |q|) < 2 ^ (10 : ℤ) := by
      have : (2 : ℚ) ^ (10 : ℤ) = 1024 := by norm_num
      rw [this]
      exact lt_of_le_of_lt hle hlt
    by_contra hge
    have : (2 : ℚ) ^ (10 : ℤ) ≤ 2 ^ (Int.log 2 |q|) :=
      zpow_le_zpow_right₀ (by norm_num) (by omega)
    linarith
  obtain ⟨j, hj⟩ : ∃ j : ℕ, Int.log 2 |q| = 9 - (j : ℤ) :=
    ⟨(9 - Int.log 2 |q|).toNat, by omega⟩
  rw [hj]
  have hulp : (2 : ℚ) ^ ((9 : ℤ) - (j : ℤ) - 52) = 1 / (2 ^ 43 * 2 ^ j) := by
    rw [show (9 : ℤ) - (j : ℤ) - 52 = -((43 + j : ℕ) : ℤ) by push_cast; ring, zpow_neg,
      zpow_natCast, pow_add, one_div]
  rw [hulp]
  have hint : q / (1 / (2 ^ 43 * 2 ^ j)) = ((m * 2 ^ j : ℤ) : ℚ) := by
    rw [hq]
    push_cast
    field_simp
    ring
  rw [hint, round_half_even_int, hq]
  push_cast
  field_simp
  ring

/-- The two rounded additions of the azimuth, `(y + 360)` after `y = base + r`,
for -22.5 <= y <= 337.5: the result is within 3 * 2^-45 of y + 360. -/
theorem azimuth_sum_err (y : ℚ) (h1 : -(45 / 2) ≤ y) (h2 : y ≤ 675 / 2) :
    |round_double (round_double y + 360) - (y + 360)| ≤ 3 / 2 ^ 45 := by
  have e1 := round_double_err y 9 (by
    rw [abs_lt]
    constructor
    · norm_num; linarith
    · norm_num; linarith)
  have p1 : (2 : ℚ) ^ ((9 : ℤ) - 54) = 1 / 2 ^ 45 := by norm_num
  rw [p1, abs_le] at e1
  have e2 := round_double_err (round_double y + 360) 10 (by
    rw [abs_lt]
    constructor
    · norm_num; linarith [e1.1]
    · norm_num; linarith [e1.2])
  have p2 : (2 : ℚ) ^ ((10 : ℤ) - 54) = 1 / 2 ^ 44 := by norm_num
  rw [p2, abs_le] at e2
  rw [abs_le]
  constructor
  · linarith [e1.1, e2.1]
  · linarith [e1.2, e2.2]

/-- The realised azimuths of the eight views. -/
theorem view_azimuths (render : Mat → ℚ → ℚ → Mat) (jit : ViewJitter) (flag : Bool)
    (panorama : Mat) (panoid : String) (generation zoom : Int) :
    (create_directional_views_with_jitter render jit flag panorama panoid generation
        zoom).map DirectionalView.final_direction_deg =
      (List.range 8).map fun (i : Nat) =>
        fmod (round_double (round_double (45 * (i : ℚ) + jit.global_rotation) + 360)) 360 := by
  have hr : List.range 8 = [0, 1, 2, 3, 4, 5, 6, 7] := by decide
  simp only [create_directional_views_with_jitter, hr, List.map_cons, List.map_nil,
    directional_view, directions, List.getD_cons_zero, List.getD_cons_succ]
  norm_num

/-- The azimuth of view `i` lies in [0, 360) and is within 3 * 2^-45 of
45 i + r or of 45 i + r + 360. -/
theorem azimuth_near (r : ℚ) (hlo : -(45 / 2) ≤ r) (hhi : r ≤ 45 / 2) (i : Nat) (hi : i < 8) :
    0 ≤ fmod (round_double (round_double (45 * (i : ℚ) + r) + 360)) 360 ∧
    fmod (round_double (round_double (45 * (i : ℚ) + r) + 360)) 360 < 360 ∧
    ∃ k : Int, (k = 0 ∨ k = 1) ∧
      |fmod (round_double (round_double (45 * (i : ℚ) + r) + 360)) 360 -
        (45 * (i : ℚ) + r + 360 * (k : ℚ))| ≤ 3 / 2 ^ 45 := by
  have hi0 : (0 : ℚ) ≤ (i : ℚ) := Nat.cast_nonneg i
  have hi7 : (i : ℚ) ≤ 7 := by exact_mod_cast (by omega : i ≤ 7)
  have herr := azimuth_sum_err (45 * (i : ℚ) + r) (by linarith) (by linarith)
  have hb := abs_le.mp herr
  have hx0 : 0 ≤ round_double (round_double (45 * (i : ℚ) + r) + 360) := by
    have : (0 : ℚ) < 3 / 2 ^ 45 := by norm_num
    have h3 : (3 : ℚ) / 2 ^ 45 ≤ 1 := by norm_num
    linarith [hb.1]
  obtain ⟨hdef, h0, h1⟩ :=
    fmod_of_nonneg (round_double (round_double (45 * (i : ℚ) + r) + 360)) 360 hx0
      (by norm_num)
  refine ⟨h0, h1, ?_⟩
  have h3 : (3 : ℚ) / 2 ^ 45 ≤ 1 := by norm_num
  have hfl0 : 0 ≤ ⌊round_double (round_double (45 * (i : ℚ) + r) + 360) / 360⌋ :=
    Int.floor_nonneg.mpr (div_nonneg hx0 (by norm_num))
  have hfl2 : ⌊round_double (round_double (45 * (i : ℚ) + r) + 360) / 360⌋ < 2 := by
    rw [Int.floor_lt, div_lt_iff₀ (by norm_num)]
    push_cast
    linarith [hb.2]
  have hcases : ⌊round_double (round_double (45 * (i : ℚ) + r) + 360) / 360⌋ = 0 ∨
      ⌊round_double (round_double (45 * (i : ℚ) + r) + 360) / 360⌋ = 1 := by omega
  rcases hcases with h | h
  · refine ⟨1, Or.inr rfl, ?_⟩
    rw [hdef, h]
    have : round_double (round_double (45 * (i : ℚ) + r) + 360) - 360 * ((0 : ℤ) : ℚ) -
        (45 * (i : ℚ) + r + 360 * ((1 : ℤ) : ℚ)) =
        round_double (round_double (45 * (i : ℚ) + r) + 360) - (45 * (i : ℚ) + r + 360) := by
      push_cast; ring
    rw [this]
    exact herr
  · refine ⟨0, Or.inl rfl, ?_⟩
    rw [hdef, h]
    have : round_double (round_double (45 * (i : ℚ) + r) + 360) - 360 * ((1 : ℤ) : ℚ) -
        (45 * (i : ℚ) + r + 360 * ((0 : ℤ) : ℚ)) =
        round_double (round_double (45 * (i : ℚ) + r) + 360) - (45 * (i : ℚ) + r + 360) := by
      push_cast; ring
    rw [this]
    exact herr

/-- When the global rotation is a multiple of 2^-43 in [-22.5, 22.5], neither
addition of the azimuth of view `i` rounds. -/
theorem azimuth_exact (r : ℚ) (m : Int) (hm : r = (m : ℚ) / 2 ^ 43) (hlo : -(45 / 2) ≤ r)
    (hhi : r ≤ 45 / 2) (i : Nat) (hi : i < 8) :
    round_double (round_double (45 * (i : ℚ) + r) + 360) = 45 * (i : ℚ) + r + 360 := by
  have hi0 : (0 : ℚ) ≤ (i : ℚ) := Nat.cast_nonneg i
  have hi7 : (i : ℚ) ≤ 7 := by exact_mod_cast (by omega : i ≤ 7)
  have h1 : round_double (45 * (i : ℚ) + r) = 45 * (i : ℚ) + r := by
    refine round_double_of_multiple _ (45 * (i : ℤ) * 2 ^ 43 + m) ?_ ?_
    · rw [hm]; push_cast; ring
    · rw [abs_lt]; constructor <;> linarith
  rw [h1]
  refine round_double_of_multiple _ ((45 * (i : ℤ) + 360) * 2 ^ 43 + m) ?_ ?_
  · rw [hm]; push_cast; ring
  · rw [abs_lt]; constructor <;> linarith

/-- C21 (amended): for a global rotation r in [-22.5, 22.5] degrees, the realised
azimuths of the eight views are a_i = fmod((45 i + r) + 360, 360), i = 0..7, with
both additions rounded to `double`.  Each lies in [0, 360) and is within
3 * 2^-45 of 45 i + r or of 45 i + r + 360, and the next view in cyclic order is
45 degrees further modulo 360 up to 3 * 2^-44.  When r is a multiple of 2^-43
no addition rounds: a_i = fmod(45 i + r + 360, 360), a_i is 45 i + r or
45 i + r + 360, and the next view in cyclic order is exactly 45 degrees further
modulo 360. -/
theorem view_azimuths_spacing (render : Mat → ℚ → ℚ → Mat) (jit : ViewJitter) (flag : Bool)
    (panorama : Mat) (panoid : String) (generation zoom : Int)
    (hlo : -(45 / 2) ≤ jit.global_rotation) (hhi : jit.global_rotation ≤ 45 / 2) :
    (create_directional_views_with_jitter render jit flag panorama panoid generation
        zoom).map DirectionalView.final_direction_deg =
      (List.range 8).map (fun (i : Nat) =>
        fmod (round_double (round_double (45 * (i : ℚ) + jit.global_rotation) + 360)) 360) ∧
    (∀ i : Nat, i < 8 →
      0 ≤ fmod (round_double (round_double (45 * (i : ℚ) + jit.global_rotation) + 360)) 360 ∧
      fmod (round_double (round_double (45 * (i : ℚ) + jit.global_rotation) + 360)) 360
        < 360 ∧
      (∃ k : Int, (k = 0 ∨ k = 1) ∧
        |fmod (round_double (round_double (45 * (i : ℚ) + jit.global_rotation) + 360)) 360 -
          (45 * (i : ℚ) + jit.global_rotation + 360 * (k : ℚ))| ≤ 3 / 2 ^ 45) ∧
      (∃ k : Int,
        |fmod (round_double (round_double
              (45 * (((i + 1) % 8 : Nat) : ℚ) + jit.global_rotation) + 360)) 360 -
            fmod (round_double (round_double (45 * (i : ℚ) + jit.global_rotation) + 360)) 360 -
          (45 + 360 * (k : ℚ))| ≤ 3 / 2 ^ 44)) ∧
    ((∃ m : Int, jit.global_rotation = (m : ℚ) / 2 ^ 43) → ∀ i : Nat, i < 8 →
      fmod (round_double (round_double (45 * (i : ℚ) + jit.global_rotation) + 360)) 360 =
        fmod (45 * (i : ℚ) + jit.global_rotation + 360) 360 ∧
      (fmod (round_double (round_double (45 * (i : ℚ) + jit.global_rotation) + 360)) 360 =
          45 * (i : ℚ) + jit.global_rotation ∨
        fmod (round_double (round_double (45 * (i : ℚ) + jit.global_rotation) + 360)) 360 =
          45 * (i : ℚ) + jit.global_rotation + 360) ∧
      (∃ k : Int,
        fmod (round_double (round_double
              (45 * (((i + 1) % 8 : Nat) : ℚ) + jit.global_rotation) + 360)) 360 -
            fmod (round_double (round_double (45 * (i : ℚ) + jit.global_rotation) + 360)) 360 =
          45 + 360 * (k : ℚ))) := by
  refine ⟨view_azimuths _ _ _ _ _ _ _, ?_, ?_⟩
  · intro i hi
    obtain ⟨h0, h1, k, hk, hnear⟩ := azimuth_near jit.global_rotation hlo hhi i hi
    obtain ⟨_, _, k', _, hnear'⟩ :=
      azimuth_near jit.global_rotation hlo hhi ((i + 1) % 8) (Nat.mod_lt _ (by norm_num))
    refine ⟨h0, h1, ⟨k, hk, hnear⟩, ?_⟩
    have hb := abs_le.mp hnear
    have hb' := abs_le.mp hnear'
    by_cases h7 : i = 7
    · subst h7
      refine ⟨k' - k - 1, ?_⟩
      rw [abs_le]
      push_cast at hb hb' ⊢
      norm_num at hb hb' ⊢
      constructor <;> linarith [hb.1, hb.2, hb'.1, hb'.2]
    · have hmod : (i + 1) % 8 = i + 1 := Nat.mod_eq_of_lt (by omega)
      rw [hmod] at hb' ⊢
      refine ⟨k' - k, ?_⟩
      rw [abs_le]
      push_cast at hb hb' ⊢
      constructor <;> linarith [hb.1, hb.2, hb'.1, hb'.2]
  · rintro ⟨m, hm⟩ i hi
    have hspec : ∀ n : Nat, 0 ≤ 45 * (n : ℚ) + jit.global_rotation + 360 := by
      intro n
      have : (0 : ℚ) ≤ (n : ℚ) := Nat.cast_nonneg n
      linarith
    rw [azimuth_exact jit.global_rotation m hm hlo hhi i hi,
      azimuth_exact jit.global_rotation m hm hlo hhi ((i + 1) % 8)
        (Nat.mod_lt _ (by norm_num))]
    obtain ⟨hdef, _, _⟩ := fmod_of_nonneg (45 * (i : ℚ) + jit.global_rotation + 360) 360
      (hspec i) (by norm_num)
    obtain ⟨hdef', _, _⟩ := fmod_of_nonneg
      (45 * (((i + 1) % 8 : Nat) : ℚ) + jit.global_rotation + 360) 360 (hspec _) (by norm_num)
    have hfl0 : 0 ≤ ⌊(45 * (i : ℚ) + jit.global_rotation + 360) / 360⌋ :=
      Int.floor_nonneg.mpr (div_nonneg (hspec i) (by norm_num))
    have hfl2 : ⌊(45 * (i : ℚ) + jit.global_rotation + 360) / 360⌋ < 2 := by
      rw [Int.floor_lt, div_lt_iff₀ (by norm_num)]
      have : (i : ℚ) ≤ 7 := by exact_mod_cast (by omega : i ≤ 7)
      push_cast
      linarith
    refine ⟨rfl, ?_, ?_⟩
    · rw [hdef]
      have hcases : ⌊(45 * (i : ℚ) + jit.global_rotation + 360) / 360⌋ = 0 ∨
          ⌊(45 * (i : ℚ) + jit.global_rotation + 360) / 360⌋ = 1 := by omega
      rcases hcases with h | h
      · right; rw [h]; push_cast; ring
      · left; rw [h]; push_cast; ring
    · rw [hdef, hdef']
      by_cases h7 : i = 7
      · subst h7
        refine ⟨⌊(45 * ((7 : Nat) : ℚ) + jit.global_rotation + 360) / 360⌋ -
          ⌊(45 * (((7 + 1) % 8 : Nat) : ℚ) + jit.global_rotation + 360) / 360⌋ - 1, ?_⟩
        push_cast
        norm_num
        ring
      · have hmod : (i + 1) % 8 = i + 1 := Nat.mod_eq_of_lt (by omega)
        rw [hmod]
        refine ⟨⌊(45 * (i : ℚ) + jit.global_rotation + 360) / 360⌋ -
          ⌊(45 * ((i + 1 : Nat) : ℚ) + jit.global_rotation + 360) / 360⌋, ?_⟩
        push_cast
        ring

/-- Witness for C21 (amended): a global rotation of -22.5 degrees, which is a
multiple of 2^-43. -/
theorem view_azimuths_spacing_witness :
    (create_directional_views_with_jitter sample_render ⟨-(45 / 2), fun _ => 0⟩ true grey_tile
        "pano" 2 4).map DirectionalView.final_direction_deg =
      (List.range 8).map (fun (i : Nat) =>
        fmod (round_double (round_double (45 * (i : ℚ) + (-(45 / 2) : ℚ)) + 360)) 360) ∧
    (∀ i : Nat, i < 8 →
      fmod (round_double (round_double (45 * (i : ℚ) + (-(45 / 2) : ℚ)) + 360)) 360 =
        fmod (45 * (i : ℚ) + (-(45 / 2) : ℚ) + 360) 360 ∧
      (fmod (round_double (round_double (45 * (i : ℚ) + (-(45 / 2) : ℚ)) + 360)) 360 =
          45 * (i : ℚ) + (-(45 / 2) : ℚ) ∨
        fmod (round_double (round_double (45 * (i : ℚ) + (-(45 / 2) : ℚ)) + 360)) 360 =
          45 * (i : ℚ) + (-(45 / 2) : ℚ) + 360) ∧
      (∃ k : Int,
        fmod (round_double (round_double
              (45 * (((i + 1) % 8 : Nat) : ℚ) + (-(45 / 2) : ℚ)) + 360)) 360 -
            fmod (round_double (round_double (45 * (i : ℚ) + (-(45 / 2) : ℚ)) + 360)) 360 =
          45 + 360 * (k : ℚ))) :=
  ⟨(view_azimuths_spacing sample_render ⟨-(45 / 2), fun _ => 0⟩ true grey_tile "pano" 2 4
      (le_refl _) (by norm_num)).1,
   (view_azimuths_spacing sample_render ⟨-(45 / 2), fun _ => 0⟩ true grey_tile "pano" 2 4
      (le_refl _) (by norm_num)).2.2 ⟨-(45 * 2 ^ 42), by norm_num⟩⟩

/-- The azimuth of view 4 (index 3, south-east) for the global rotation 2^-44:
both additions are exact. -/
theorem azimuth_south_east :
    fmod (round_double (round_double (135 + 1 / 2 ^ 44) + 360)) 360 = 135 + 1 / 2 ^ 44 := by
  have h1 : round_double (135 + 1 / 2 ^ 44) = 135 + 1 / 2 ^ 44 := by
    rw [round_double_eq (135 + 1 / 2 ^ 44) 7 (135 * 2 ^ 45 + 2)]
    · norm_num
    · norm_num [abs_of_pos]
    · norm_num [abs_of_pos]
    · unfold round_half_even
      have hf : ⌊((135 : ℚ) + 1 / 2 ^ 44) / 2 ^ ((7 : Int) - 52)⌋ = 135 * 2 ^ 45 + 2 := by
        rw [Int.floor_eq_iff]; norm_num
      simp only [hf]
      norm_num
  have h2 : round_double (135 + 1 / 2 ^ 44 + 360) = 135 + 1 / 2 ^ 44 + 360 := by
    rw [round_double_eq (135 + 1 / 2 ^ 44 + 360) 8 (495 * 2 ^ 44 + 1)]
    · norm_num
    · norm_num [abs_of_pos]
    · norm_num [abs_of_pos]
    · unfold round_half_even
      have hf : ⌊((135 : ℚ) + 1 / 2 ^ 44 + 360) / 2 ^ ((8 : Int) - 52)⌋ = 495 * 2 ^ 44 + 1 := by
        rw [Int.floor_eq_iff]; norm_num
      simp only [hf]
      norm_num
  rw [h1, h2]
  obtain ⟨hdef, _, _⟩ := fmod_of_nonneg ((135 : ℚ) + 1 / 2 ^ 44 + 360) 360 (by norm_num)
    (by norm_num)
  have hf : ⌊((135 : ℚ) + 1 / 2 ^ 44 + 360) / 360⌋ = 1 := by
    rw [Int.floor_eq_iff]; norm_num
  rw [hdef, hf]
  norm_num

/-- The azimuth of view 5 (index 4, south) for the global rotation 2^-44: the
sum 540 + 2^-44 lies half-way between the `double`s 540 and 540 + 2^-43 and is
rounded to 540. -/
theorem azimuth_south :
    fmod (round_double (round_double (180 + 1 / 2 ^ 44) + 360)) 360 = 180 := by
  have h1 : round_double (180 + 1 / 2 ^ 44) = 180 + 1 / 2 ^ 44 := by
    rw [round_double_eq (180 + 1 / 2 ^ 44) 7 (180 * 2 ^ 45 + 2)]
    · norm_num
    · norm_num [abs_of_pos]
    · norm_num [abs_of_pos]
    · unfold round_half_even
      have hf : ⌊((180 : ℚ) + 1 / 2 ^ 44) / 2 ^ ((7 : Int) - 52)⌋ = 180 * 2 ^ 45 + 2 := by
        rw [Int.floor_eq_iff]; norm_num
      simp only [hf]
      norm_num
  have h2 : round_double (180 + 1 / 2 ^ 44 + 360) = 540 := by
    rw [round_double_eq (180 + 1 / 2 ^ 44 + 360) 9 (540 * 2 ^ 43)]
    · norm_num
    · norm_num [abs_of_pos]
    · norm_num [abs_of_pos]
    · unfold round_half_even
      have hf : ⌊((180 : ℚ) + 1 / 2 ^ 44 + 360) / 2 ^ ((9 : Int) - 52)⌋ = 540 * 2 ^ 43 := by
        rw [Int.floor_eq_iff]; norm_num
      simp only [hf]
      norm_num
  rw [h1, h2]
  obtain ⟨hdef, _, _⟩ := fmod_of_nonneg (540 : ℚ) 360 (by norm_num) (by norm_num)
  have hf : ⌊(540 : ℚ) / 360⌋ = 1 := by
    rw [Int.floor_eq_iff]; norm_num
  rw [hdef, hf]
  norm_num

/-- The azimuths of the views of index 3 and 4 (south-east and south). -/
theorem view_azimuths_south (render : Mat → ℚ → ℚ → Mat) (jit : ViewJitter) (flag : Bool)
    (panorama : Mat) (panoid : String) (generation zoom : Int) :
    ((create_directional_views_with_jitter render jit flag panorama panoid generation
        zoom).map DirectionalView.final_direction_deg).getD 3 0 =
      fmod (round_double (round_double (135 + jit.global_rotation) + 360)) 360 ∧
    ((create_directional_views_with_jitter render jit flag panorama panoid generation
        zoom).map DirectionalView.final_direction_deg).getD 4 0 =
      fmod (round_double (round_double (180 + jit.global_rotation) + 360)) 360 := by
  have hr : List.range 8 = [0, 1, 2, 3, 4, 5, 6, 7] := by decide
  rw [view_azimuths, hr]
  simp only [List.map_cons, List.getD_cons_succ, List.getD_cons_zero]
  norm_num

/-- C21 (as stated) fails: for the global rotation r = 2^-44 degrees, a `double`
in [-22.5, 22.5], the azimuth of the view of index 3 is 135 + 2^-44 and that of
the view of index 4 is 180.  The latter is not congruent to 45 * 4 + r modulo
360, and the two do not differ by 45 modulo 360. -/
theorem view_azimuths_rounded :
    (-(45 / 2) ≤ (1 / 2 ^ 44 : ℚ) ∧ (1 / 2 ^ 44 : ℚ) ≤ 45 / 2) ∧
    ((create_directional_views_with_jitter sample_render ⟨1 / 2 ^ 44, fun _ => 0⟩ true grey_tile
        "pano" 2 4).map DirectionalView.final_direction_deg).getD 3 0 = 135 + 1 / 2 ^ 44 ∧
    ((create_directional_views_with_jitter sample_render ⟨1 / 2 ^ 44, fun _ => 0⟩ true grey_tile
        "pano" 2 4).map DirectionalView.final_direction_deg).getD 4 0 = 180 ∧
    (¬ ∃ k : Int,
      ((create_directional_views_with_jitter sample_render ⟨1 / 2 ^ 44, fun _ => 0⟩ true
        grey_tile "pano" 2 4).map DirectionalView.final_direction_deg).getD 4 0 =
          45 * 4 + 1 / 2 ^ 44 + 360 * (k : ℚ)) ∧
    (¬ ∃ k : Int,
      ((create_directional_views_with_jitter sample_render ⟨1 / 2 ^ 44, fun _ => 0⟩ true
        grey_tile "pano" 2 4).map DirectionalView.final_direction_deg).getD 4 0 -
      ((create_directional_views_with_jitter sample_render ⟨1 / 2 ^ 44, fun _ => 0⟩ true
        grey_tile "pano" 2 4).map DirectionalView.final_direction_deg).getD 3 0 =
          45 + 360 * (k : ℚ)) := by
  have h3 := (view_azimuths_south sample_render ⟨1 / 2 ^ 44, fun _ => 0⟩ true grey_tile
    "pano" 2 4).1.trans azimuth_south_east
  have h4 := (view_azimuths_south sample_render ⟨1 / 2 ^ 44, fun _ => 0⟩ true grey_tile
    "pano" 2 4).2.trans azimuth_south
  have hnot : ∀ k : Int, (360 : ℚ) * (k : ℚ) ≠ -(1 / 2 ^ 44) := by
    intro k hk
    rcases le_or_lt k (-1) with h | h
    · have : (k : ℚ) ≤ -1 := by exact_mod_cast h
      norm_num at hk
      linarith
    · have : (0 : ℚ) ≤ (k : ℚ) := by exact_mod_cast (by omega : 0 ≤ k)
      norm_num at hk
      linarith
  refine ⟨⟨by norm_num, by norm_num⟩, h3, h4, ?_, ?_⟩
  · rintro ⟨k, hk⟩
    exact hnot k (by linarith [h4.symm.trans hk])
  · rintro ⟨k, hk⟩
    exact hnot k (by linarith [h4, h3])

/-- C23 (the part the code satisfies, and where it fails): every test
coordinate lies inside the grid of its own generation and is probed at that
generation's zoom; but the generation-3 test coordinate (11, 5) also lies
inside the 13 x 6 grid of generation 2, so that a scene offering exactly the
tiles of the generation-2 grid is detected as generation 3. -/
theorem gen3_probe_inside_gen2_grid :
    (∀ t ∈ test_patterns, t.zoom = (get_generation_config t.gen).zoom ∧
      ∀ c ∈ t.tests, 0 ≤ c.1 ∧ c.1 < (get_generation_config t.gen).max_x ∧
        0 ≤ c.2 ∧ c.2 < (get_generation_config t.gen).max_y) ∧
    (∃ t ∈ test_patterns, t.gen = 3 ∧ ((11, 5) : Int × Int) ∈ t.tests) ∧
    ((11 : Int) < (get_generation_config 2).max_x ∧ (5 : Int) < (get_generation_config 2).max_y) ∧
    ¬ (∀ t ∈ test_patterns, ∀ t' ∈ test_patterns, t'.gen < t.gen → ∀ c ∈ t.tests,
      (get_generation_config t'.gen).max_x ≤ c.1 ∨ (get_generation_config t'.gen).max_y ≤ c.2) ∧
    detect_generation sample_cv true (server_of gen2_grid) "pano" =
      (3, "Generation 3 (Zoom 4, 13x7)") := by
  refine ⟨by decide, by decide, by decide, by decide, ?_⟩
  rw [detect_generation_closed]
  simp only [tile_valid_server_of]
  rfl

/-- C29: the file names of the eight views are the same whatever
`include_gen_in_filename`, the generation, the zoom, the panorama, the renderer
and the random draws are: they depend on the scene id and the view index only. -/
theorem view_filenames_independent (render render' : Mat → ℚ → ℚ → Mat) (jit jit' : ViewJitter)
    (include_gen_in_filename include_gen_in_filename' : Bool) (panorama panorama' : Mat)
    (panoid : String) (generation generation' zoom zoom' : Int) :
    (create_directional_views_with_jitter render jit include_gen_in_filename panorama panoid
        generation zoom).map DirectionalView.filename =
      (create_directional_views_with_jitter render' jit' include_gen_in_filename' panorama'
        panoid generation' zoom').map DirectionalView.filename ∧
    (∀ (i : Nat) (vfov_deg fov_deg : ℚ),
      (directional_view render jit include_gen_in_filename panorama panoid generation
        vfov_deg fov_deg i).filename =
      (directional_view render' jit' include_gen_in_filename' panorama' panoid generation'
        vfov_deg fov_deg i).filename) := by
  refine ⟨?_, fun _ _ _ => rfl⟩
  rw [view_filenames, view_filenames]

/-- The per-pixel mapping in terms of the ray of the pixel. -/
theorem equirect_map_ray (pano_width pano_height : Nat) (d vfov : ℝ) (output_size : Int)
    (pitch yaw : ℝ) (x y : Int) :
    equirect_map pano_width pano_height d vfov output_size pitch yaw x y =
      (fmod ((atan2 (equirect_ray vfov output_size pitch yaw x y).1
            (equirect_ray vfov output_size pitch yaw x y).2.2 + d) / (2 * Real.pi) + 1) 1 *
          (pano_width : ℝ),
        (1 / 2 - Real.arcsin ((equirect_ray vfov output_size pitch yaw x y).2.1 /
            ray_length (equirect_ray vfov output_size pitch yaw x y)) / Real.pi) *
          (pano_height : ℝ)) :=
  rfl

/-- The squared length of a ray is 1 plus the squares of the two normalised
device coordinates: both rotations keep lengths. -/
theorem equirect_ray_sq (vfov : ℝ) (output_size : Int) (pitch yaw : ℝ) (x y : Int) :
    1 ≤ (equirect_ray vfov output_size pitch yaw x y).1 *
          (equirect_ray vfov output_size pitch yaw x y).1 +
        (equirect_ray vfov output_size pitch yaw x y).2.1 *
          (equirect_ray vfov output_size pitch yaw x y).2.1 +
        (equirect_ray vfov output_size pitch yaw x y).2.2 *
          (equirect_ray vfov output_size pitch yaw x y).2.2 := by
  simp only [equirect_ray]
  generalize (2 * (x : ℝ) / (output_size : ℝ) - 1) * Real.tan (90 * Real.pi / 180 / 2) = nx
  generalize -(2 * (y : ℝ) / (output_size : ℝ) - 1) * Real.tan (vfov / 2) = ny
  have hy := Real.sin_sq_add_cos_sq yaw
  have hp := Real.sin_sq_add_cos_sq pitch
  have hsum : (nx * Real.cos yaw + (ny * Real.sin pitch + 1 * Real.cos pitch) * Real.sin yaw) *
        (nx * Real.cos yaw + (ny * Real.sin pitch + 1 * Real.cos pitch) * Real.sin yaw) +
      (ny * Real.cos pitch - 1 * Real.sin pitch) * (ny * Real.cos pitch - 1 * Real.sin pitch) +
      (-nx * Real.sin yaw + (ny * Real.sin pitch + 1 * Real.cos pitch) * Real.cos yaw) *
        (-nx * Real.sin yaw + (ny * Real.sin pitch + 1 * Real.cos pitch) * Real.cos yaw) =
      nx * nx * (Real.sin yaw ^ 2 + Real.cos yaw ^ 2) +
      (ny * Real.sin pitch + Real.cos pitch) ^ 2 * (Real.sin yaw ^ 2 + Real.cos yaw ^ 2 - 1) +
      (ny * ny + 1) * (Real.sin pitch ^ 2 + Real.cos pitch ^ 2) := by
    ring
  rw [hsum, hy, hp]
  nlinarith [mul_self_nonneg nx, mul_self_nonneg ny]

/-- C28: over the reals, for every output pixel, every pitch, yaw and vertical
FOV, every view direction d >= 0 (in particular d in [0, 2π)) and every
panorama of width W > 0, the per-pixel mapping is well defined and in range: the
ray length r is at least 1, the argument of asin lies in [-1, 1], u lies in
[0, W) and v in [0, H]. -/
theorem equirect_map_in_range (pano_width pano_height : Nat) (d vfov : ℝ) (output_size : Int)
    (pitch yaw : ℝ) (x y : Int) (hd0 : 0 ≤ d) (hW : 0 < pano_width) :
    1 ≤ ray_length (equirect_ray vfov output_size pitch yaw x y) ∧
    (-1 ≤ (equirect_ray vfov output_size pitch yaw x y).2.1 /
        ray_length (equirect_ray vfov output_size pitch yaw x y) ∧
      (equirect_ray vfov output_size pitch yaw x y).2.1 /
        ray_length (equirect_ray vfov output_size pitch yaw x y) ≤ 1) ∧
    (0 ≤ (equirect_map pano_width pano_height d vfov output_size pitch yaw x y).1 ∧
      (equirect_map pano_width pano_height d vfov output_size pitch yaw x y).1 <
        (pano_width : ℝ)) ∧
    (0 ≤ (equirect_map pano_width pano_height d vfov output_size pitch yaw x y).2 ∧
      (equirect_map pano_width pano_height d vfov output_size pitch yaw x y).2 ≤
        (pano_height : ℝ)) := by
  have hsq := equirect_ray_sq vfov output_size pitch yaw x y
  rw [equirect_map_ray]
  generalize equirect_ray vfov output_size pitch yaw x y = ray at hsq ⊢
  obtain ⟨yx, py, yz⟩ := ray
  simp only at hsq
  have hr1 : 1 ≤ ray_length (yx, py, yz) := by
    unfold ray_length
    rw [show (1 : ℝ) = Real.sqrt 1 from Real.sqrt_one.symm]
    exact Real.sqrt_le_sqrt hsq
  have hrpos : 0 < ray_length (yx, py, yz) := lt_of_lt_of_le one_pos hr1
  have habs : |py| ≤ ray_length (yx, py, yz) := by
    unfold ray_length
    apply Real.abs_le_sqrt
    nlinarith [mul_self_nonneg yx, mul_self_nonneg yz]
  have hpy := abs_le.mp habs
  have hq1 : -1 ≤ py / ray_length (yx, py, yz) := by
    rw [le_div_iff₀ hrpos]; linarith
  have hq2 : py / ray_length (yx, py, yz) ≤ 1 := by
    rw [div_le_iff₀ hrpos]; linarith
  have hpi : 0 < Real.pi := Real.pi_pos
  have harg1 : -Real.pi < atan2 yx yz := Complex.neg_pi_lt_arg _
  have harg2 : atan2 yx yz ≤ Real.pi := Complex.arg_le_pi _
  have ht0 : 0 ≤ (atan2 yx yz + d) / (2 * Real.pi) + 1 := by
    have : -1 ≤ (atan2 yx yz + d) / (2 * Real.pi) := by
      rw [le_div_iff₀ (by linarith)]; linarith
    linarith
  obtain ⟨_, hf0, hf1⟩ := fmod_of_nonneg ((atan2 yx yz + d) / (2 * Real.pi) + 1) 1 ht0 one_pos
  have hWr : (0 : ℝ) < (pano_width : ℝ) := by exact_mod_cast hW
  have hHr : (0 : ℝ) ≤ (pano_height : ℝ) := Nat.cast_nonneg _
  have has1 := Real.neg_pi_div_two_le_arcsin (py / ray_length (yx, py, yz))
  have has2 := Real.arcsin_le_pi_div_two (py / ray_length (yx, py, yz))
  have hv0 : 0 ≤ 1 / 2 - Real.arcsin (py / ray_length (yx, py, yz)) / Real.pi := by
    have : Real.arcsin (py / ray_length (yx, py, yz)) / Real.pi ≤ 1 / 2 := by
      rw [div_le_iff₀ hpi]; linarith
    linarith
  have hv1 : 1 / 2 - Real.arcsin (py / ray_length (yx, py, yz)) / Real.pi ≤ 1 := by
    have : -(1 / 2) ≤ Real.arcsin (py / ray_length (yx, py, yz)) / Real.pi := by
      rw [le_div_iff₀ hpi]; linarith
    linarith
  refine ⟨hr1, ⟨hq1, hq2⟩, ⟨mul_nonneg hf0 hWr.le, ?_⟩, ⟨mul_nonneg hv0 hHr, ?_⟩⟩
  · calc fmod ((atan2 yx yz + d) / (2 * Real.pi) + 1) 1 * (pano_width : ℝ)
        < 1 * (pano_width : ℝ) := mul_lt_mul_of_pos_right hf1 hWr
      _ = (pano_width : ℝ) := one_mul _
  · calc (1 / 2 - Real.arcsin (py / ray_length (yx, py, yz)) / Real.pi) * (pano_height : ℝ)
        ≤ 1 * (pano_height : ℝ) := mul_le_mul_of_nonneg_right hv1 hHr
      _ = (pano_height : ℝ) := one_mul _

/-- Witness for C28: pixel (3, 5) of a 512 x 512 view of a 1024 x 512 panorama,
with the tilt of 5 degrees the program uses. -/
theorem equirect_map_in_range_witness :
    1 ≤ ray_length (equirect_ray (Real.pi / 2) 512 (5 * Real.pi / 180) (5 * Real.pi / 180) 3 5) :=
  (equirect_map_in_range 1024 512 0 (Real.pi / 2) 512 (5 * Real.pi / 180) (5 * Real.pi / 180)
    3 5 (le_refl 0) (by decide)).1

/-- The row loop appends the lines of the kept rows to what was written before. -/
theorem write_rows_spec (delimiter : Char) (c : Nat) (failed : List String)
    (rows : List (List String)) : ∀ out : String,
    write_rows delimiter c failed rows out =
      out ++ lines_text
        ((rows.filter fun row =>
            decide (row.length > c) && decide (extract_panoid (row.getD c "") ∉ failed)).map
          (write_fields delimiter)) := by
  induction rows with
  | nil => intro out; simp [write_rows, lines_text]
  | cons row rest ih =>
    intro out
    by_cases h1 : row.length > c
    · by_cases h2 : extract_panoid (row.getD c "") ∉ failed
      · simp only [write_rows, h1, h2, if_true, not_false_eq_true, ih, List.filter_cons,
          decide_True, Bool.and_self, List.map_cons, lines_text, String.append_assoc]
      · simp only [write_rows, h1, h2, if_true, if_false, ih, List.filter_cons,
          decide_True, decide_False, Bool.and_false, Bool.false_eq_true]
    · simp only [write_rows, h1, if_false, ih, List.filter_cons, decide_False,
        Bool.false_and, Bool.false_eq_true]

/-- Appending the strings of a list to `acc` one after the other. -/
theorem string_foldl_append (l : List String) : ∀ acc : String,
    List.foldl (fun r s => r ++ s) acc l = acc ++ List.foldl (fun r s => r ++ s) "" l := by
  induction l with
  | nil => intro acc; simp
  | cons a l ih =>
    intro acc
    rw [List.foldl_cons, List.foldl_cons, ih (acc ++ a), ih ("" ++ a), String.append_assoc]
    simp

/-- The concatenation of a non-empty list of strings. -/
theorem string_join_cons (a : String) (l : List String) :
    String.join (a :: l) = a ++ String.join l := by
  unfold String.join
  rw [List.foldl_cons, string_foldl_append]
  simp

/-- The loop of `String.intercalate`: every further string preceded by the
separator. -/
theorem intercalate_go_eq (s : String) : ∀ (l : List String) (acc : String),
    String.intercalate.go acc s l = acc ++ String.join (l.map fun a => s ++ a) := by
  intro l
  induction l with
  | nil => intro acc; simp [String.intercalate.go, String.join]
  | cons a l ih =>
    intro acc
    rw [String.intercalate.go, ih, List.map_cons, string_join_cons]
    simp only [String.append_assoc]

/-- The field loop writes the first field and then every further field
preceded by the delimiter. -/
theorem write_fields_eq (d : Char) : ∀ (a : String) (l : List String),
    write_fields d (a :: l) = a ++ String.join (l.map fun b => String.singleton d ++ b) := by
  intro a l
  induction l generalizing a with
  | nil => simp [write_fields, String.join]
  | cons b l ih =>
    rw [write_fields, ih, List.map_cons, string_join_cons, String.append_assoc, String.append_assoc]

/-- The field loop writes the fields joined by the delimiter. -/
theorem write_fields_intercalate (d : Char) (l : List String) :
    write_fields d l = String.intercalate (String.singleton d) l := by
  cases l with
  | nil => rfl
  | cons a l => rw [write_fields_eq, String.intercalate, intercalate_go_eq]

/-- The text of a file is the concatenation of its lines, each with its
newline. -/
theorem lines_text_join (l : List String) :
    lines_text l = String.join (l.map fun line => line ++ "\n") := by
  induction l with
  | nil => rfl
  | cons a l ih => rw [lines_text, ih, List.map_cons, string_join_cons]

/-- C26: for a loaded CSV (header row present) whose output file can be opened,
the text `write_cleaned_csv` writes is the concatenation of the following lines,
each being the fields of a row joined by the delimiter and ended by a newline:
the header, then exactly the rows, in their original order, that have more than
c fields and whose `extract_panoid(row[c])` is not in the failure set; with an
empty failure set these are all rows with more than c fields.  When the file
cannot be opened nothing is written and `false` is returned. -/
theorem write_cleaned_csv_spec (h : CSVHandler) (failed : List String)
    (hloaded : h.has_headers = true) :
    write_cleaned_csv h failed true =
      (true, String.join
        ((h.headers ::
          h.rows.filter fun row =>
            decide (row.length > h.panoid_column_index) &&
            decide (extract_panoid (row.getD h.panoid_column_index "") ∉ failed)).map
          fun row => String.intercalate (String.singleton h.delimiter) row ++ "\n")) ∧
    (write_cleaned_csv h [] true).2 =
      String.join
        ((h.headers ::
          h.rows.filter fun row => decide (row.length > h.panoid_column_index)).map
          fun row => String.intercalate (String.singleton h.delimiter) row ++ "\n") ∧
    write_cleaned_csv h failed false = (false, "") := by
  have hfun : write_fields h.delimiter = String.intercalate (String.singleton h.delimiter) :=
    funext (write_fields_intercalate h.delimiter)
  have hgen : ∀ F : List String, write_cleaned_csv h F true =
      (true, String.join
        ((h.headers ::
          h.rows.filter fun row =>
            decide (row.length > h.panoid_column_index) &&
            decide (extract_panoid (row.getD h.panoid_column_index "") ∉ F)).map
          fun row => String.intercalate (String.singleton h.delimiter) row ++ "\n")) := by
    intro F
    have hloop : write_cleaned_csv h F true =
        (true, lines_text
          (write_fields h.delimiter h.headers ::
            (h.rows.filter fun row =>
                decide (row.length > h.panoid_column_index) &&
                decide (extract_panoid (row.getD h.panoid_column_index "") ∉ F)).map
              (write_fields h.delimiter))) := by
      simp only [write_cleaned_csv, Bool.not_true, Bool.false_eq_true, if_false, hloaded,
        if_true, write_rows_spec, lines_text, String.append_assoc]
    rw [hloop, lines_text_join, hfun]
    simp only [List.map_cons, List.map_map]
    rfl
  refine ⟨hgen failed, ?_, rfl⟩
  rw [hgen []]
  simp

/-- Witness for C26: the sample CSV with `scene_b` failed keeps the header and
the row of `scene_a`; the text written is the two lines `panoid,lat` and
`scene_a,1.5`. -/
theorem write_cleaned_csv_spec_witness :
    write_cleaned_csv sample_csv ["scene_b"] true =
      (true, String.join
        ((sample_csv.headers ::
          sample_csv.rows.filter fun row =>
            decide (row.length > sample_csv.panoid_column_index) &&
            decide (extract_panoid (row.getD sample_csv.panoid_column_index "") ∉
              ["scene_b"])).map
          fun row => String.intercalate (String.singleton sample_csv.delimiter) row ++ "\n")) ∧
    write_cleaned_csv sample_csv ["scene_b"] true = (true, "panoid,lat\nscene_a,1.5\n") :=
  ⟨(write_cleaned_csv_spec sample_csv ["scene_b"] rfl).1, by decide⟩

/-- C27 (the code at the failing input): with an empty `csv_output_path`,
`generate_cleaned_csv` writes nothing, whatever the CSV, the failure set and the
file system are; in particular not the default `<input stem>_cleaned.csv`, which
it writes to only when that very path is passed explicitly. -/
theorem generate_cleaned_csv_without_path (paths : PathOps) (h : CSVHandler)
    (failed : List String) (open_ok : String → Bool) :
    generate_cleaned_csv paths (some h) failed "" open_ok = none ∧
    generate_cleaned_csv sample_paths (some sample_csv) ["scene_b"] "" (fun _ => true) = none ∧
    generate_cleaned_csv sample_paths (some sample_csv) ["scene_b"] "data/input_cleaned.csv"
      (fun _ => true) = some ("data/input_cleaned.csv", "panoid,lat\nscene_a,1.5\n") := by
  have hempty : ("" : String).isEmpty = true := by decide
  refine ⟨?_, ?_, by decide⟩
  · simp [generate_cleaned_csv, hempty]
  · simp [generate_cleaned_csv, hempty]

/-- The panorama a successful `process_panorama` hands to the directional views:
the stitched canvas, cropped exactly when the crop gate is open. -/
theorem process_panorama_reprojected (cv : OpenCV) (cfg : Settings) (env : PanoEnv)
    (panoid : String) (st : RunState) (g : Int) (config : GenerationConfig) (tiles : TileMap)
    (canvas : Mat)
    (hg : (process_panorama_generation cv env.world panoid st.probe).1.1 = g)
    (hcfg : get_generation_config g = config)
    (htiles : (download_tiles_parallel cv env.svc cfg.retry_count panoid
      config.zoom config.max_x config.max_y).result = tiles)
    (hcanvas : stitch_panorama cv cfg.draw_tile_labels tiles config.max_x config.max_y
      config.zoom = canvas)
    (hsucc : (process_panorama cv cfg env panoid st).success = true) :
    (process_panorama cv cfg env panoid st).reprojected =
      some (if config.crop && cfg.auto_crop && !cfg.draw_tile_labels then
        crop_panorama canvas g else canvas) := by
  subst hcanvas htiles hcfg hg
  revert hsucc
  unfold process_panorama
  dsimp only
  by_cases h1 : env.fault = some Stage.generation
  · rw [if_pos h1]; intro h; exact absurd h (by simp [pano_failed])
  rw [if_neg h1]
  by_cases h2 : (process_panorama_generation cv env.world panoid st.probe).1.1 = 0
  · rw [if_pos h2]; intro h; exact absurd h (by simp [pano_failed])
  rw [if_neg h2]
  by_cases h3 : env.fault = some Stage.download
  · rw [if_pos h3]; intro h; exact absurd h (by simp [pano_failed])
  rw [if_neg h3]
  split_ifs <;> first
    | (intro _; rfl)
    | (intro h; simp [pano_failed] at h)

/-- A valid tile of the retry loop carries the decoded body of one response. -/
theorem download_attempts_decoded (cv : OpenCV) (respond : Nat → Response) (jitter : Nat → ℚ)
    (x y : Int) (n : Nat) : ∀ a : Nat,
    (download_attempts cv respond jitter x y n a).1.valid = true →
    ∃ k : Nat, (respond k).response_data.isEmpty = false ∧
      (download_attempts cv respond jitter x y n a).1.image =
        cv.imdecode (respond k).response_data := by
  induction n with
  | zero => intro a h; simp [download_attempts, Tile.mk2] at h
  | succ n ih =>
    intro a
    cases h : attempt_accepts cv (respond a) with
    | some img =>
      rw [download_attempts_accept _ _ _ _ _ _ _ _ h]
      intro _
      unfold attempt_accepts at h
      dsimp only at h
      split_ifs at h with h1 h2 h3
      have himg := Option.some.inj h
      rw [Bool.and_eq_true] at h2
      refine ⟨a, by simpa using h2.2, ?_⟩
      show img = _
      exact himg.symm
    | none =>
      rw [download_attempts_reject _ _ _ _ _ _ _ h]
      exact ih (a + 1)

/-- Every tile in the map returned by `download_tiles_parallel` is the decoded
non-empty body of a response to its URL. -/
theorem download_tiles_parallel_decoded (cv : OpenCV) (svc : TileService) (retry_count : Int)
    (panoid : String) (zoom max_x max_y : Int) (e : (Int × Int) × Mat)
    (he : e ∈ (download_tiles_parallel cv svc retry_count panoid zoom max_x max_y).result) :
    ∃ k : Nat, (svc.respond ⟨panoid, zoom, e.1.1, e.1.2⟩ k).response_data.isEmpty = false ∧
      e.2 = cv.imdecode (svc.respond ⟨panoid, zoom, e.1.1, e.1.2⟩ k).response_data := by
  have hf := find_of_mem _ (download_tiles_parallel_wf cv svc retry_count panoid zoom max_x max_y)
    e he
  rw [download_tiles_parallel_find] at hf
  split_ifs at hf with h
  have himg := Option.some.inj hf
  have hv := h.2
  unfold download_tile at hv himg
  cases hc : svc.curl_ok ⟨panoid, zoom, e.1.1, e.1.2⟩
  · simp [hc, Tile.mk2] at hv
  · simp only [hc, Bool.not_true, Bool.false_eq_true, if_false] at hv himg
    obtain ⟨k, hk, hi⟩ := download_attempts_decoded _ _ _ _ _ _ 0 hv
    exact ⟨k, hk, by rw [← himg, hi]⟩

/-- A scene of an environment `env_of good` in a fresh process, with a decoder
that turns every non-empty body into the valid tile `T`: when the probes
resolve a generation `g` other than 0 and one tile of its grid exists, the scene
succeeds, every downloaded tile is `T`, and the stitched canvas is `max_x` tiles
wide and `max_y` tiles high. -/
theorem env_of_run (cv : OpenCV) (T : Mat) (good : TileUrl → Bool) (panoid : String)
    (cfg : Settings) (g : Int) (desc : String) (x y : Int)
    (hdec : ∀ bytes : List Nat, bytes.isEmpty = false → cv.imdecode bytes = T)
    (hT : is_valid_tile cv T = true)
    (hdet : detect_generation cv true (server_of good) panoid = (g, desc))
    (hg : g ≠ 0) (hretry : 1 ≤ cfg.retry_count)
    (hin : (x, y) ∈ grid_tasks (get_generation_config g).max_x (get_generation_config g).max_y)
    (hgood : good ⟨panoid, (get_generation_config g).zoom, x, y⟩ = true) :
    (process_panorama_generation cv (env_of good).world panoid RunState.init.probe).1.1 = g ∧
    (process_panorama cv cfg (env_of good) panoid RunState.init).success = true ∧
    (∀ e ∈ (download_tiles_parallel cv (env_of good).svc cfg.retry_count panoid
        (get_generation_config g).zoom (get_generation_config g).max_x
        (get_generation_config g).max_y).result, e.2 = T) ∧
    (stitch_panorama cv cfg.draw_tile_labels
      (download_tiles_parallel cv (env_of good).svc cfg.retry_count panoid
        (get_generation_config g).zoom (get_generation_config g).max_x
        (get_generation_config g).max_y).result
      (get_generation_config g).max_x (get_generation_config g).max_y
      (get_generation_config g).zoom).cols = (get_generation_config g).max_x.toNat * T.cols ∧
    (stitch_panorama cv cfg.draw_tile_labels
      (download_tiles_parallel cv (env_of good).svc cfg.retry_count panoid
        (get_generation_config g).zoom (get_generation_config g).max_x
        (get_generation_config g).max_y).result
      (get_generation_config g).max_x (get_generation_config g).max_y
      (get_generation_config g).zoom).rows = (get_generation_config g).max_y.toNat * T.rows := by
  have hstep : (process_panorama_generation cv (env_of good).world panoid
      RunState.init.probe).1.1 = g := by
    rw [generation_step_miss cv (env_of good).world panoid RunState.init.probe rfl]
    show (detect_generation cv true (server_of good) panoid).1 = g
    rw [hdet]
  have hpos := get_generation_config_pos g
  generalize hconfig : get_generation_config g = config at *
  have hall : ∀ e ∈ (download_tiles_parallel cv (env_of good).svc cfg.retry_count panoid
      config.zoom config.max_x config.max_y).result, e.2 = T := by
    intro e he
    obtain ⟨k, hk, hi⟩ := download_tiles_parallel_decoded _ _ _ _ _ _ _ e he
    rw [hi]
    exact hdec _ hk
  have hacc : attempt_accepts cv (server_of good ⟨panoid, config.zoom, x, y⟩) = some T := by
    unfold server_of
    rw [hgood]
    have hd : cv.imdecode [255] = T := hdec [255] rfl
    have hne : T.empty = false := by
      unfold is_valid_tile at hT
      split_ifs at hT with hc
      simp only [Bool.or_eq_true, not_or] at hc
      simpa using hc.1.1
    simp [attempt_accepts, hd, hT, hne]
  have hvalid : (download_tile cv (env_of good).svc cfg.retry_count x y panoid
      config.zoom).1.valid = true := by
    obtain ⟨n, hn⟩ : ∃ n : Nat, cfg.retry_count.toNat = n + 1 :=
      ⟨cfg.retry_count.toNat - 1, by omega⟩
    unfold download_tile
    simp only [env_of, Bool.not_true, Bool.false_eq_true, if_false, hn]
    rw [download_attempts_accept _ _ _ _ _ _ _ _ hacc]
  have hfind := download_tiles_parallel_find cv (env_of good).svc cfg.retry_count panoid
    config.zoom config.max_x config.max_y (x, y)
  rw [if_pos ⟨hin, hvalid⟩] at hfind
  generalize htiles : (download_tiles_parallel cv (env_of good).svc cfg.retry_count panoid
      config.zoom config.max_x config.max_y).result = tiles at *
  have hne : tiles ≠ [] := by
    intro h
    rw [h] at hfind
    simp [TileMap.find] at hfind
  have hsucc := process_panorama_success cv cfg (env_of good) panoid RunState.init g config tiles
    _ hstep hconfig htiles rfl
  have hnonempty := stitch_panorama_nonempty cv cfg.draw_tile_labels tiles config.max_x
    config.max_y config.zoom hpos.1 hpos.2 hne (fun e he => by rw [hall e he]; exact hT)
  refine ⟨hstep, ?_, hall, ?_, ?_⟩
  · rw [hsucc]
    have hf : (env_of good).fault = none := rfl
    have hl : tiles.length ≠ 0 := fun h => hne (List.length_eq_zero.mp h)
    have he : tiles.isEmpty = false := by
      cases tiles with
      | nil => exact absurd rfl hne
      | cons _ _ => rfl
    simp [hf, hg, he, hl, hnonempty]
  · cases tiles with
    | nil => exact absurd rfl hne
    | cons e rest =>
      obtain ⟨k0, t0⟩ := e
      have ht : t0 = T := hall (k0, t0) (List.mem_cons_self _ _)
      subst ht
      rw [(stitch_panorama_size_cons cv cfg.draw_tile_labels k0 t0 rest config.max_x
        config.max_y config.zoom).2]
      have : 0 ≤ config.max_x := by omega
      obtain ⟨n, hn⟩ := Int.eq_ofNat_of_zero_le this
      rw [hn]
      simp
      norm_cast
  · cases tiles with
    | nil => exact absurd rfl hne
    | cons e rest =>
      obtain ⟨k0, t0⟩ := e
      have ht : t0 = T := hall (k0, t0) (List.mem_cons_self _ _)
      subst ht
      rw [(stitch_panorama_size_cons cv cfg.draw_tile_labels k0 t0 rest config.max_x
        config.max_y config.zoom).1]
      have : 0 ≤ config.max_y := by omega
      obtain ⟨n, hn⟩ := Int.eq_ofNat_of_zero_le this
      rw [hn]
      simp
      norm_cast

/-- Size of the cropped panorama for generation 1. -/
theorem crop_panorama_size_gen1 (m : Mat) :
    (crop_panorama m 1).cols = min m.cols 3328 ∧ (crop_panorama m 1).rows = min m.rows 1664 := by
  simp [crop_panorama, Mat.roi]

/-- Size of the cropped panorama for the other generations. -/
theorem crop_panorama_size_other (m : Mat) (g : Int) (hg : g ≠ 1) :
    (crop_panorama m g).cols = m.cols ∧ (crop_panorama m g).rows = min m.rows (m.cols / 2) := by
  unfold crop_panorama
  dsimp only
  rw [if_neg hg]
  split_ifs with h
  · exact ⟨rfl, by simp only [Mat.roi]; omega⟩
  · exact ⟨rfl, by omega⟩

/-- The crop flag of the configuration table: set for generations 1, 2 and 3,
clear for generation 4. -/
theorem get_generation_config_crop (g : Int) (hgen : g = 1 ∨ g = 2 ∨ g = 3 ∨ g = 4) :
    (get_generation_config g).crop = decide (g ≠ 4) := by
  rcases hgen with h | h | h | h <;> subst h <;> rfl

/-- C24 (counterexample): with auto-crop enabled and labels disabled, a scene
of generation 4 whose tiles are 10 wide and 20 high reaches the reprojector as
the stitched 160 x 160 canvas: it is not `crop_panorama(stitched, 4)`, which is
80 high, and its height exceeds half its width. -/
theorem gen4_panorama_not_cropped :
    default_settings.auto_crop = true ∧ default_settings.draw_tile_labels = false ∧
    (process_panorama_generation tall_cv (env_of gen4_only).world "pano"
      RunState.init.probe).1.1 = 4 ∧
    (process_panorama tall_cv default_settings (env_of gen4_only) "pano" RunState.init).success
      = true ∧
    ∃ p : Mat,
      (process_panorama tall_cv default_settings (env_of gen4_only) "pano"
        RunState.init).reprojected = some p ∧
      p = stitch_panorama tall_cv false
        (download_tiles_parallel tall_cv (env_of gen4_only).svc 3 "pano" 4 16 8).result 16 8 4 ∧
      p.cols = 160 ∧ p.rows = 160 ∧ ¬ p.rows ≤ p.cols / 2 ∧
      (crop_panorama p 4).rows = 80 ∧ p ≠ crop_panorama p 4 := by
  have hdet : detect_generation tall_cv true (server_of gen4_only) "pano" =
      (4, "Generation 4 (Zoom 4, 16x8)") := by
    norm_num [detect_generation_closed, tile_valid, probe_accepts, server_of, gen4_only,
      tall_cv, is_valid_tile, tall_tile, Mat.empty]
  have hrun := env_of_run tall_cv tall_tile gen4_only "pano" default_settings 4
    "Generation 4 (Zoom 4, 16x8)" 15 7
    (fun bytes hb => by show (if bytes.isEmpty then Mat.none else tall_tile) = tall_tile; rw [hb]; rfl)
    (by norm_num [is_valid_tile, tall_cv, tall_tile, Mat.empty])
    hdet (by decide) (by decide)
    ((mem_grid_tasks _ _ (15, 7)).mpr (by decide)) rfl
  obtain ⟨hstep, hsucc, -, hcols, hrows⟩ := hrun
  have hrep := process_panorama_reprojected tall_cv default_settings (env_of gen4_only) "pano"
    RunState.init 4 _ _ _ hstep rfl rfl rfl hsucc
  have hc4 : get_generation_config (4 : Int) = ⟨4, 16, 8, false⟩ := rfl
  rw [hc4] at hrep hcols hrows
  have hls : default_settings.draw_tile_labels = false := rfl
  have hrt : default_settings.retry_count = 3 := rfl
  rw [hls, hrt] at hrep hcols hrows
  simp only [Bool.false_and, Bool.false_eq_true, if_false] at hrep
  refine ⟨rfl, rfl, hstep, hsucc, _, hrep, rfl, ?_, ?_, ?_, ?_, ?_⟩
  · rw [hcols]; rfl
  · rw [hrows]; rfl
  · rw [hcols, hrows]; decide
  · rw [(crop_panorama_size_other _ 4 (by decide)).2, hcols, hrows]; rfl
  · intro h
    have h2 := congrArg Mat.rows h
    rw [(crop_panorama_size_other _ 4 (by decide)).2, hcols, hrows] at h2
    exact absurd h2 (by decide)

/-- C24 (amended): in a successful `process_panorama` of generation g in
{1,2,3,4}, the panorama handed to the reprojector is the stitched panorama
unchanged when labels are enabled or auto-crop is disabled, and also when g = 4
(whose crop flag is off); it is `crop_panorama(stitched, g)` when auto-crop is
enabled, labels are disabled and g is 1, 2 or 3.  For g = 4 this coincides with
`crop_panorama(stitched, 4)` when the stitched height is at most half the
width.  With auto-crop enabled and labels disabled, the height is at most
width/2 for g in {2,3}, and for g = 4 when the stitched panorama is so. -/
theorem crop_gate (cv : OpenCV) (cfg : Settings) (env : PanoEnv)
    (panoid : String) (st : RunState) (g : Int) (config : GenerationConfig) (tiles : TileMap)
    (canvas : Mat)
    (hg : (process_panorama_generation cv env.world panoid st.probe).1.1 = g)
    (hcfg : get_generation_config g = config)
    (htiles : (download_tiles_parallel cv env.svc cfg.retry_count panoid
      config.zoom config.max_x config.max_y).result = tiles)
    (hcanvas : stitch_panorama cv cfg.draw_tile_labels tiles config.max_x config.max_y
      config.zoom = canvas)
    (hgen : g = 1 ∨ g = 2 ∨ g = 3 ∨ g = 4)
    (hsucc : (process_panorama cv cfg env panoid st).success = true) :
    ((cfg.draw_tile_labels = true ∨ cfg.auto_crop = false) →
      (process_panorama cv cfg env panoid st).reprojected = some canvas) ∧
    (cfg.auto_crop = true → cfg.draw_tile_labels = false → g ≠ 4 →
      (process_panorama cv cfg env panoid st).reprojected = some (crop_panorama canvas g)) ∧
    (g = 4 → (process_panorama cv cfg env panoid st).reprojected = some canvas) ∧
    (g = 4 → canvas.rows ≤ canvas.cols / 2 →
      (process_panorama cv cfg env panoid st).reprojected = some (crop_panorama canvas g)) ∧
    (cfg.auto_crop = true → cfg.draw_tile_labels = false →
      (g = 2 ∨ g = 3 ∨ (g = 4 ∧ canvas.rows ≤ canvas.cols / 2)) →
      ∀ p : Mat, (process_panorama cv cfg env panoid st).reprojected = some p →
        p.rows ≤ p.cols / 2) := by
  have hrep := process_panorama_reprojected cv cfg env panoid st g config tiles canvas hg hcfg
    htiles hcanvas hsucc
  have hcrop : config.crop = decide (g ≠ 4) := by
    rw [← hcfg]; exact get_generation_config_crop g hgen
  rw [hrep, hcrop]
  have hid : g = 4 → canvas.rows ≤ canvas.cols / 2 → crop_panorama canvas g = canvas := by
    intro h4 hle
    subst h4
    unfold crop_panorama
    dsimp only
    rw [if_neg (by decide), if_neg (by omega)]
  refine ⟨?_, ?_, ?_, ?_, ?_⟩
  · rintro (h | h) <;> simp [h]
  · intro ha hl h4
    simp [ha, hl, h4]
  · intro h4
    simp [h4]
  · intro h4 hle
    rw [hid h4 hle]
    simp [h4]
  · intro ha hl hcase p hp
    rcases hcase with h | h | ⟨h, hle⟩
    · subst h
      simp only [ha, hl] at hp
      have hp2 := Option.some.inj hp
      have hs := crop_panorama_size_other canvas 2 (by decide)
      simp at hp2
      rw [← hp2, hs.1, hs.2]
      omega
    · subst h
      simp only [ha, hl] at hp
      have hp2 := Option.some.inj hp
      have hs := crop_panorama_size_other canvas 3 (by decide)
      simp at hp2
      rw [← hp2, hs.1, hs.2]
      omega
    · subst h
      simp at hp
      rw [← hp]
      exact hle

/-- Witness for C24: the scene of the sample environment in which only the
generation-2 probe tiles exist. -/
theorem crop_gate_witness :
    (process_panorama sample_cv default_settings (env_of gen2_only) "pano"
      RunState.init).reprojected =
      some (crop_panorama
        (stitch_panorama sample_cv false
          (download_tiles_parallel sample_cv (env_of gen2_only).svc 3 "pano" 4 13 6).result
          13 6 4) 2) :=
  (crop_gate sample_cv default_settings (env_of gen2_only) "pano" RunState.init 2
    ⟨4, 13, 6, true⟩ _ _
    (by rw [generation_step_gen2_sample]) rfl rfl rfl (by decide)
    (env_of_run sample_cv grey_tile gen2_only "pano" default_settings 2
      "Generation 2 (Zoom 4, 13x6)" 12 5
      (fun bytes hb => by show (if bytes.isEmpty then Mat.none else grey_tile) = grey_tile; rw [hb]; rfl)
      (by norm_num [is_valid_tile, sample_cv, grey_tile, Mat.empty])
      detect_generation_gen2_sample (by decide) (by decide)
      ((mem_grid_tasks _ _ (12, 5)).mpr (by decide)) rfl).2.1).2.1 rfl rfl (by decide)

/-- C25 (counterexample): a scene of generation 3 with 512 x 512 tiles, auto-crop
enabled and labels disabled: the stitched 6656 x 3584 panorama is cropped to
half its width, and reaches the reprojector 3328 high, which is not a multiple
of the tile height 512. -/
theorem gen3_panorama_height_not_multiple :
    (process_panorama_generation sample_cv (env_of gen3_only).world "pano"
      RunState.init.probe).1.1 = 3 ∧
    (∀ e ∈ (download_tiles_parallel sample_cv (env_of gen3_only).svc 3 "pano" 4 13 7).result,
      e.2.cols = 512 ∧ e.2.rows = 512) ∧
    ∃ p : Mat,
      (process_panorama sample_cv default_settings (env_of gen3_only) "pano"
        RunState.init).reprojected = some p ∧
      p.cols = 6656 ∧ p.rows = 3328 ∧ ¬ 512 ∣ p.rows := by
  have hdet : detect_generation sample_cv true (server_of gen3_only) "pano" =
      (3, "Generation 3 (Zoom 4, 13x7)") := by
    norm_num [detect_generation_closed, tile_valid, probe_accepts, server_of, gen3_only,
      sample_cv, is_valid_tile, grey_tile, Mat.empty]
  have hrun := env_of_run sample_cv grey_tile gen3_only "pano" default_settings 3
    "Generation 3 (Zoom 4, 13x7)" 12 6
    (fun bytes hb => by
      show (if bytes.isEmpty then Mat.none else grey_tile) = grey_tile
      rw [hb]; rfl)
    (by norm_num [is_valid_tile, sample_cv, grey_tile, Mat.empty])
    hdet (by decide) (by decide)
    ((mem_grid_tasks _ _ (12, 6)).mpr (by decide)) rfl
  obtain ⟨hstep, hsucc, hall, hcols, hrows⟩ := hrun
  have hrep := process_panorama_reprojected sample_cv default_settings (env_of gen3_only) "pano"
    RunState.init 3 _ _ _ hstep rfl rfl rfl hsucc
  have hc3 : get_generation_config (3 : Int) = ⟨4, 13, 7, true⟩ := rfl
  rw [hc3] at hrep hcols hrows hall
  have hls : default_settings.draw_tile_labels = false := rfl
  have hrt : default_settings.retry_count = 3 := rfl
  have hac : default_settings.auto_crop = true := rfl
  rw [hls, hrt] at hrep hcols hrows
  rw [hrt] at hall
  rw [hac] at hrep
  simp only [Bool.and_self, Bool.not_false, if_true] at hrep
  have hs := crop_panorama_size_other
    (stitch_panorama sample_cv false
      (download_tiles_parallel sample_cv (env_of gen3_only).svc 3 "pano" 4 13 7).result 13 7 4)
    3 (by decide)
  refine ⟨hstep, ?_, _, hrep, ?_, ?_, ?_⟩
  · intro e he
    rw [hall e he]
    exact ⟨rfl, rfl⟩
  · rw [hs.1, hcols]; rfl
  · rw [hs.2, hcols, hrows]; rfl
  · rw [hs.2, hcols, hrows]; decide

/-- C25 (amended): in a successful `process_panorama` of generation g in
{1,2,3,4} whose downloaded tiles are all `tile_w` x `tile_h`, the stitched
panorama is `max_x * tile_w` wide and `max_y * tile_h` high, and it reaches the
reprojector with these dimensions when no crop is applied (labels enabled,
auto-crop disabled, or g = 4).  When the crop is applied (auto-crop enabled,
labels disabled), it is min(8 * tile_w, 3328) x min(4 * tile_h, 1664) for g = 1,
and 13 * tile_w wide and min(max_y * tile_h, (13 * tile_w) / 2) high for g in
{2, 3}.  It is never larger than the stitched panorama. -/
theorem reprojected_size (cv : OpenCV) (cfg : Settings) (env : PanoEnv)
    (panoid : String) (st : RunState) (g : Int) (config : GenerationConfig) (tiles : TileMap)
    (canvas : Mat) (tile_w tile_h : Nat)
    (hg : (process_panorama_generation cv env.world panoid st.probe).1.1 = g)
    (hcfg : get_generation_config g = config)
    (htiles : (download_tiles_parallel cv env.svc cfg.retry_count panoid
      config.zoom config.max_x config.max_y).result = tiles)
    (hcanvas : stitch_panorama cv cfg.draw_tile_labels tiles config.max_x config.max_y
      config.zoom = canvas)
    (hgen : g = 1 ∨ g = 2 ∨ g = 3 ∨ g = 4)
    (hsize : ∀ e ∈ tiles, e.2.cols = tile_w ∧ e.2.rows = tile_h)
    (hsucc : (process_panorama cv cfg env panoid st).success = true) :
    canvas.cols = config.max_x.toNat * tile_w ∧ canvas.rows = config.max_y.toNat * tile_h ∧
    ∃ p : Mat, (process_panorama cv cfg env panoid st).reprojected = some p ∧
      ((cfg.draw_tile_labels = true ∨ cfg.auto_crop = false ∨ g = 4) →
        p.cols = config.max_x.toNat * tile_w ∧ p.rows = config.max_y.toNat * tile_h) ∧
      (cfg.auto_crop = true → cfg.draw_tile_labels = false → g = 1 →
        p.cols = min (8 * tile_w) 3328 ∧ p.rows = min (4 * tile_h) 1664) ∧
      (cfg.auto_crop = true → cfg.draw_tile_labels = false → g = 2 ∨ g = 3 →
        p.cols = 13 * tile_w ∧
        p.rows = min (config.max_y.toNat * tile_h) ((13 * tile_w) / 2)) ∧
      p.cols ≤ config.max_x.toNat * tile_w ∧ p.rows ≤ config.max_y.toNat * tile_h := by
  have hrep := process_panorama_reprojected cv cfg env panoid st g config tiles canvas hg hcfg
    htiles hcanvas hsucc
  have hcrop : config.crop = decide (g ≠ 4) := by
    rw [← hcfg]; exact get_generation_config_crop g hgen
  have hpos := get_generation_config_pos g
  rw [hcfg] at hpos
  have hst := process_panorama_success cv cfg env panoid st g config tiles canvas hg hcfg
    htiles hcanvas
  have hne : tiles ≠ [] := by
    intro h
    rw [hst, h] at hsucc
    simp only [List.isEmpty_nil, if_true] at hsucc
    split_ifs at hsucc
  have hdims : canvas.cols = config.max_x.toNat * tile_w ∧
      canvas.rows = config.max_y.toNat * tile_h := by
    cases tiles with
    | nil => exact absurd rfl hne
    | cons e rest =>
      obtain ⟨k0, t0⟩ := e
      have ht := hsize (k0, t0) (List.mem_cons_self _ _)
      have hs := stitch_panorama_size_cons cv cfg.draw_tile_labels k0 t0 rest config.max_x
        config.max_y config.zoom
      rw [hcanvas] at hs
      obtain ⟨n, hn⟩ := Int.eq_ofNat_of_zero_le (show 0 ≤ config.max_x by omega)
      obtain ⟨m, hm⟩ := Int.eq_ofNat_of_zero_le (show 0 ≤ config.max_y by omega)
      rw [hs.1, hs.2, hn, hm, ← ht.1, ← ht.2]
      constructor
      · simp; norm_cast
      · simp; norm_cast
  refine ⟨hdims.1, hdims.2, _, hrep, ?_, ?_, ?_, ?_⟩
  · rw [hcrop]
    rintro (h | h | h) <;> simp [h, hdims.1, hdims.2]
  · intro ha hl h1
    have hx : config.max_x.toNat = 8 ∧ config.max_y.toNat = 4 := by
      subst h1; rw [← hcfg]; exact ⟨rfl, rfl⟩
    subst h1
    have hgate : (config.crop && cfg.auto_crop && !cfg.draw_tile_labels) = true := by
      rw [hcrop, ha, hl]; decide
    rw [if_pos hgate]
    rw [(crop_panorama_size_gen1 canvas).1, (crop_panorama_size_gen1 canvas).2, hdims.1,
      hdims.2, hx.1, hx.2]
    exact ⟨rfl, rfl⟩
  · intro ha hl h23
    have hx : config.max_x.toNat = 13 := by
      rcases h23 with h | h <;> subst h <;> rw [← hcfg] <;> rfl
    have hg1 : g ≠ 1 := by rcases h23 with h | h <;> subst h <;> decide
    have hg4 : decide (g ≠ 4) = true := by rcases h23 with h | h <;> subst h <;> decide
    have hgate : (config.crop && cfg.auto_crop && !cfg.draw_tile_labels) = true := by
      rw [hcrop, ha, hl, hg4]; rfl
    rw [if_pos hgate]
    rw [(crop_panorama_size_other canvas g hg1).1, (crop_panorama_size_other canvas g hg1).2,
      hdims.1, hdims.2, hx]
    exact ⟨rfl, rfl⟩
  · split_ifs
    · by_cases hg1 : g = 1
      · subst hg1
        rw [(crop_panorama_size_gen1 canvas).1, (crop_panorama_size_gen1 canvas).2, hdims.1,
          hdims.2]
        exact ⟨min_le_left _ _, min_le_left _ _⟩
      · rw [(crop_panorama_size_other canvas g hg1).1, (crop_panorama_size_other canvas g hg1).2,
          hdims.1, hdims.2]
        exact ⟨le_refl _, min_le_left _ _⟩
    · rw [hdims.1, hdims.2]
      exact ⟨le_refl _, le_refl _⟩

/-- Witness for C25: the scene of the sample environment in which only the
generation-2 probe tiles exist, with its 512 x 512 tiles: the stitched panorama
is 13 * 512 wide and 6 * 512 high. -/
theorem reprojected_size_witness :
    (stitch_panorama sample_cv false
      (download_tiles_parallel sample_cv (env_of gen2_only).svc 3 "pano" 4 13 6).result
      13 6 4).cols = 13 * 512 ∧
    (stitch_panorama sample_cv false
      (download_tiles_parallel sample_cv (env_of gen2_only).svc 3 "pano" 4 13 6).result
      13 6 4).rows = 6 * 512 :=
  have hrun := env_of_run sample_cv grey_tile gen2_only "pano" default_settings 2
    "Generation 2 (Zoom 4, 13x6)" 12 5
    (fun bytes hb => by
      show (if bytes.isEmpty then Mat.none else grey_tile) = grey_tile
      rw [hb]; rfl)
    (by norm_num [is_valid_tile, sample_cv, grey_tile, Mat.empty])
    detect_generation_gen2_sample (by decide) (by decide)
    ((mem_grid_tasks _ _ (12, 5)).mpr (by decide)) rfl
  have h := reprojected_size sample_cv default_settings (env_of gen2_only) "pano" RunState.init 2
    ⟨4, 13, 6, true⟩ _ _ 512 512 hrun.1 rfl rfl rfl (by decide)
    (fun e he => by rw [hrun.2.2.1 e he]; exact ⟨rfl, rfl⟩) hrun.2.1
  ⟨h.1, h.2.1⟩

/-- Scene tasks of a concatenated queue. -/
theorem queued_scenes_append (q r : List PoolTask) :
    queued_scenes (q ++ r) = queued_scenes q + queued_scenes r := by
  induction q with
  | nil => simp [queued_scenes]
  | cons t q ih => cases t <;> (simp [queued_scenes, ih]; try omega)

/-- Scene workers of a concatenated worker list. -/
theorem held_by_scenes_append (a b : List Activity) :
    held_by_scenes (a ++ b) = held_by_scenes a + held_by_scenes b := by
  induction a with
  | nil => simp [held_by_scenes]
  | cons w a ih => cases w <;> (simp [held_by_scenes, ih]; try omega)

/-- When every worker waits in a scene task, all workers are held by scenes. -/
theorem held_by_scenes_all (ws : List Activity)
    (h : ∀ w ∈ ws, ∃ i : Int, w = Activity.scene_waiting i) :
    held_by_scenes ws = ws.length := by
  induction ws with
  | nil => rfl
  | cons w ws ih =>
    obtain ⟨i, hi⟩ := h w (List.mem_cons_self _ _)
    subst hi
    simp [held_by_scenes, ih fun w hw => h w (List.mem_cons_of_mem _ hw)]

/-- No idle worker is held by a scene. -/
theorem held_by_scenes_idle (n : Nat) :
    held_by_scenes (List.replicate n Activity.idle) = 0 := by
  induction n with
  | zero => rfl
  | succ n ih => simpa [List.replicate_succ, held_by_scenes] using ih

/-- Invariant of the scheduler: the scene tasks not yet enqueued, queued, and
held by workers are together at most the scenes of the batch, and the number of
workers does not change. -/
theorem pool_invariant (gen : Int → Int) (batch : List Int) (pool_size : Nat) (st : PoolState)
    (h : PoolReachable gen batch pool_size st) :
    st.unsubmitted.length + queued_scenes st.queue + held_by_scenes st.workers ≤ batch.length ∧
    st.workers.length = pool_size := by
  induction h with
  | refl => simp [pool_init, queued_scenes, held_by_scenes_idle]
  | tail _ hstep ih =>
    cases hstep with
    | enqueue_scene i rest hu =>
      rw [hu] at ih
      simp only [queued_scenes_append, queued_scenes, List.length_cons] at ih ⊢
      exact ⟨by omega, ih.2⟩
    | take task rest before after hq hw =>
      rw [hq, hw] at ih
      simp only [held_by_scenes_append, List.length_append, List.length_cons] at ih ⊢
      cases task <;> simp only [queued_scenes, held_by_scenes, start_task] at ih ⊢ <;>
        exact ⟨by omega, ih.2⟩
    | enqueue_tile i left before after hw =>
      rw [hw] at ih
      simp only [held_by_scenes_append, List.length_append, List.length_cons,
        queued_scenes_append, queued_scenes, held_by_scenes] at ih ⊢
      exact ⟨by omega, ih.2⟩
    | wait_tiles i before after hw =>
      rw [hw] at ih
      simp only [held_by_scenes_append, List.length_append, List.length_cons,
        held_by_scenes] at ih ⊢
      exact ⟨by omega, ih.2⟩
    | finish_tile i before after hw =>
      rw [hw] at ih
      simp only [held_by_scenes_append, List.length_append, List.length_cons,
        held_by_scenes] at ih ⊢
      exact ⟨by omega, ih.2⟩
    | finish_scene i before after hw hdone =>
      rw [hw] at ih
      simp only [held_by_scenes_append, List.length_append, List.length_cons,
        held_by_scenes] at ih ⊢
      exact ⟨by omega, ih.2⟩

/-- The batch loop can enqueue all its scene tasks before any worker runs. -/
theorem enqueue_all_scenes (gen : Int → Int) (ws : List Activity) (p : Int → Nat) :
    ∀ (u : List Int) (q : List PoolTask),
    Relation.ReflTransGen (PoolStep gen) ⟨u, q, ws, p⟩
      ⟨[], q ++ u.map PoolTask.scene, ws, p⟩ := by
  intro u
  induction u with
  | nil => intro q; simp only [List.map_nil, List.append_nil]; exact Relation.ReflTransGen.refl
  | cons i rest ih =>
    intro q
    have hstep := @PoolStep.enqueue_scene gen ⟨i :: rest, q, ws, p⟩ i rest rfl
    have hrest := ih (q ++ [PoolTask.scene i])
    rw [List.append_assoc, List.singleton_append] at hrest
    exact Relation.ReflTransGen.head hstep hrest

/-- A running scene can enqueue all the tile tasks it has left. -/
theorem enqueue_all_tiles (gen : Int → Int) (i : Int) (before after : List Activity) :
    ∀ (n : Nat) (q : List PoolTask) (p : Int → Nat),
    Relation.ReflTransGen (PoolStep gen)
      ⟨[], q, before ++ Activity.scene_running i n :: after, p⟩
      ⟨[], q ++ List.replicate n (PoolTask.tile i),
        before ++ Activity.scene_running i 0 :: after, Function.update p i (p i + n)⟩ := by
  intro n
  induction n with
  | zero =>
    intro q p
    simp only [List.replicate_zero, List.append_nil, Nat.add_zero, Function.update_eq_self]
    exact Relation.ReflTransGen.refl
  | succ n ih =>
    intro q p
    have hstep := @PoolStep.enqueue_tile gen
      ⟨[], q, before ++ Activity.scene_running i (n + 1) :: after, p⟩ i n before after rfl
    have hrest := ih (q ++ [PoolTask.tile i]) (Function.update p i (p i + 1))
    rw [List.append_assoc, List.singleton_append, ← List.replicate_succ, Function.update_same,
      Function.update_idem, Nat.add_assoc, Nat.add_comm 1 n] at hrest
    exact Relation.ReflTransGen.head hstep hrest

/-- A scene with a detected generation enqueues at least one tile task. -/
theorem tile_count_pos (g : Int) (hg : g ≠ 0) : 0 < tile_count g := by
  unfold tile_count
  rw [if_neg hg, grid_tasks_length]
  have hp := get_generation_config_pos g
  exact Nat.mul_pos (by omega) (by omega)

/-- The scenes at the head of the queue, as many as there are idle workers, can
each be taken by a worker, enqueue their tile tasks and start waiting: then the
workers taken all wait, the tile tasks stand behind the rest of the queue, and
every scene taken that has a detected generation has tile tasks pending. -/
theorem take_scenes (gen : Int → Int) :
    ∀ (now : List Int) (waiting : List Activity) (tail : List PoolTask) (p : Int → Nat),
    ∃ p' : Int → Nat,
      Relation.ReflTransGen (PoolStep gen)
        ⟨[], now.map PoolTask.scene ++ tail,
          waiting ++ List.replicate now.length Activity.idle, p⟩
        ⟨[], tail ++ now.flatMap (tile_tasks_of gen),
          waiting ++ now.map Activity.scene_waiting, p'⟩ ∧
      (∀ i : Int, p i ≤ p' i) ∧
      ∀ i ∈ now, gen i ≠ 0 → 0 < p' i := by
  intro now
  induction now with
  | nil =>
    intro waiting tail p
    refine ⟨p, ?_, fun _ => le_refl _, fun i hi => absurd hi (List.not_mem_nil i)⟩
    simp only [List.map_nil, List.nil_append, List.length_nil, List.replicate_zero,
      List.append_nil, List.flatMap_nil]
    exact Relation.ReflTransGen.refl
  | cons s rest ih =>
    intro waiting tail p
    obtain ⟨p', hrun, hmono, hpos⟩ := ih (waiting ++ [Activity.scene_waiting s])
      (tail ++ tile_tasks_of gen s) (Function.update p s (p s + tile_count (gen s)))
    have h1 := @PoolStep.take gen
      ⟨[], PoolTask.scene s :: (rest.map PoolTask.scene ++ tail),
        waiting ++ Activity.idle :: List.replicate rest.length Activity.idle, p⟩
      (PoolTask.scene s) (rest.map PoolTask.scene ++ tail) waiting
      (List.replicate rest.length Activity.idle) rfl rfl
    have h2 := enqueue_all_tiles gen s waiting (List.replicate rest.length Activity.idle)
      (tile_count (gen s)) (rest.map PoolTask.scene ++ tail) p
    have h3 := @PoolStep.wait_tiles gen
      ⟨[], (rest.map PoolTask.scene ++ tail) ++ List.replicate (tile_count (gen s))
          (PoolTask.tile s),
        waiting ++ Activity.scene_running s 0 :: List.replicate rest.length Activity.idle,
        Function.update p s (p s + tile_count (gen s))⟩
      s waiting (List.replicate rest.length Activity.idle) rfl
    have hrun2 : Relation.ReflTransGen (PoolStep gen)
        ⟨[], (rest.map PoolTask.scene ++ tail) ++ List.replicate (tile_count (gen s))
            (PoolTask.tile s),
          waiting ++ Activity.scene_waiting s :: List.replicate rest.length Activity.idle,
          Function.update p s (p s + tile_count (gen s))⟩
        ⟨[], tail ++ (s :: rest).flatMap (tile_tasks_of gen),
          waiting ++ (s :: rest).map Activity.scene_waiting, p'⟩ := by
      have e1 : (rest.map PoolTask.scene ++ tail) ++ List.replicate (tile_count (gen s))
          (PoolTask.tile s) = rest.map PoolTask.scene ++ (tail ++ tile_tasks_of gen s) := by
        rw [List.append_assoc]; rfl
      have e2 : waiting ++ Activity.scene_waiting s :: List.replicate rest.length Activity.idle
          = (waiting ++ [Activity.scene_waiting s]) ++ List.replicate rest.length Activity.idle := by
        simp
      have e3 : tail ++ (s :: rest).flatMap (tile_tasks_of gen)
          = (tail ++ tile_tasks_of gen s) ++ rest.flatMap (tile_tasks_of gen) := by
        simp [List.flatMap_cons]
      have e4 : waiting ++ (s :: rest).map Activity.scene_waiting
          = (waiting ++ [Activity.scene_waiting s]) ++ rest.map Activity.scene_waiting := by
        simp
      rw [e1, e2, e3, e4]
      exact hrun
    refine ⟨p', ?_, ?_, ?_⟩
    · exact Relation.ReflTransGen.head h1
        (Relation.ReflTransGen.trans h2 (Relation.ReflTransGen.head h3 hrun2))
    · intro i
      refine le_trans ?_ (hmono i)
      by_cases hi : i = s
      · subst hi; rw [Function.update_same]; omega
      · rw [Function.update_noteq hi]
    · intro i hi hgen
      rcases List.mem_cons.mp hi with h | h
      · subst h
        have hm := hmono i
        rw [Function.update_same] at hm
        have hn := tile_count_pos (gen i) hgen
        omega
      · exact hpos i h hgen

/-- C30: the scheduler during one batch, as a step relation over the FIFO queue
and `pool_size` workers.  When the pool has more workers than the batch has
scenes, no reachable state has every worker held by a waiting scene task, so the
deadlock state is unreachable.  When the pool has at least one and at most as
many workers as the batch has scenes, and every scene of the batch has a
detected generation, a state is reachable in which every worker is held by a
waiting scene task, tile tasks remain queued and no step is possible.  The
batch of `process_panoids` has min(2 * pano_thread_count, remaining) scenes. -/
theorem pool_deadlock (gen : Int → Int) (batch : List Int) (pool_size : Nat) :
    (batch.length < pool_size →
      ∀ st : PoolState, PoolReachable gen batch pool_size st →
        ¬ AllWaiting st ∧ ¬ PoolStuck gen st) ∧
    (1 ≤ pool_size → pool_size ≤ batch.length → (∀ i ∈ batch, gen i ≠ 0) →
      ∃ st : PoolState, PoolReachable gen batch pool_size st ∧ PoolStuck gen st) ∧
    ∀ (start total pano_thread_count : Int),
      (batch_indices start (min (start + pano_thread_count * 2) total)).length =
        (min (2 * pano_thread_count) (total - start)).toNat := by
  refine ⟨?_, ?_, ?_⟩
  · intro hlt st hreach
    have hinv := pool_invariant gen batch pool_size st hreach
    have hnot : ¬ AllWaiting st := by
      intro hall
      have := held_by_scenes_all st.workers hall
      omega
    exact ⟨hnot, fun hstuck => hnot hstuck.1⟩
  · intro h1 hle hgen
    obtain ⟨p', hrun, -, hpos⟩ := take_scenes gen (batch.take pool_size) []
      ((batch.drop pool_size).map PoolTask.scene) (fun _ => 0)
    have hlen : (batch.take pool_size).length = pool_size := by
      rw [List.length_take]; omega
    have hstart := enqueue_all_scenes gen (List.replicate pool_size Activity.idle)
      (fun _ => 0) batch []
    have hq : ([] : List PoolTask) ++ batch.map PoolTask.scene =
        (batch.take pool_size).map PoolTask.scene ++
          (batch.drop pool_size).map PoolTask.scene := by
      rw [List.nil_append, ← List.map_append, List.take_append_drop]
    rw [hq] at hstart
    rw [hlen, List.nil_append, List.nil_append] at hrun
    refine ⟨_, Relation.ReflTransGen.trans hstart hrun, ?_, ?_, ?_⟩
    · intro w hw
      obtain ⟨i, -, hi⟩ := List.mem_map.mp hw
      exact ⟨i, hi.symm⟩
    · cases hb : batch.take pool_size with
      | nil => rw [hb] at hlen; simp at hlen; omega
      | cons s rest =>
        have hs : s ∈ batch := List.mem_of_mem_take (by rw [hb]; exact List.mem_cons_self _ _)
        have hn := tile_count_pos (gen s) (hgen s hs)
        refine ⟨s, List.mem_append_right _ ?_⟩
        rw [List.flatMap_cons]
        refine List.mem_append_left _ ?_
        unfold tile_tasks_of
        exact List.mem_replicate.mpr ⟨by omega, rfl⟩
    · intro st' hstep
      have hwait : ∀ (before after : List Activity) (w : Activity),
          (batch.take pool_size).map Activity.scene_waiting = before ++ w :: after →
          ∃ i ∈ batch.take pool_size, w = Activity.scene_waiting i := by
        intro before after w hw
        have hmem : w ∈ (batch.take pool_size).map Activity.scene_waiting := by
          rw [hw]; simp
        obtain ⟨i, hi, hiw⟩ := List.mem_map.mp hmem
        exact ⟨i, hi, hiw.symm⟩
      cases hstep with
      | enqueue_scene i rest hu => exact absurd hu (by simp)
      | take task rest before after hq hw =>
        obtain ⟨i, -, hi⟩ := hwait before after _ hw
        exact absurd hi (by simp)
      | enqueue_tile i left before after hw =>
        obtain ⟨j, -, hj⟩ := hwait before after _ hw
        exact absurd hj (by simp)
      | wait_tiles i before after hw =>
        obtain ⟨j, -, hj⟩ := hwait before after _ hw
        exact absurd hj (by simp)
      | finish_tile i before after hw =>
        obtain ⟨j, -, hj⟩ := hwait before after _ hw
        exact absurd hj (by simp)
      | finish_scene i before after hw hdone =>
        obtain ⟨j, hjm, hj⟩ := hwait before after _ hw
        have hij : i = j := by injection hj
        subst hij
        have := hpos i hjm (hgen i (List.mem_of_mem_take hjm))
        simp only at hdone
        omega
  · intro start total pano_thread_count
    rw [batch_indices_length]
    congr 1
    rw [← min_sub_sub_right]
    congr 1
    ring

/-- Witness for C30: one scene and two workers cannot reach the state; one
scene of generation 2 and one worker can. -/
theorem pool_deadlock_witness :
    (∀ st : PoolState, PoolReachable (fun _ => 2) [0] 2 st →
      ¬ AllWaiting st ∧ ¬ PoolStuck (fun _ => 2) st) ∧
    ∃ st : PoolState, PoolReachable (fun _ => 2) [0] 1 st ∧ PoolStuck (fun _ => 2) st :=
  ⟨(pool_deadlock (fun _ => 2) [0] 2).1 (by decide),
    (pool_deadlock (fun _ => 2) [0] 1).2.1 (by decide) (by decide)
      (fun _ _ => by decide)⟩


end StreetView
